import Mathlib

/-!
# Notification rule engine of the tapntravel dashboards

A shallow embedding of the notification code of
`src/components/dashboard/{AdminDashboard,SuperAdminDashboard,DriverDashboard,NotificationSystem}.jsx`
and of the aggregations of `src/components/Charts/{DailyTripsChart,Analysis}.jsx`.

Modelling conventions.

* Clock readings (`Date.now()`) are integers (milliseconds since 1970).  One evaluation
  pass reads the clock once: every `Date.now()` of the pass returns the same value `now`.
  The code tests a recorded time by its truthiness, which the definitions follow; no
  `Date.now()` reading is 0, and the theorems about recorded times say so in a hypothesis.
* Finite JavaScript numbers are exact rationals; the results of a division by zero
  (`Infinity`, `-Infinity`, `NaN`) are explicit constructors of `JSNum`.
  The arithmetic of the rule blocks is exact, so a comparison is decided by the exact
  values also where binary64 rounding moves a product across its threshold.  Where a
  stated result depends on the rounding, the rounded operation is written out with
  `roundBinary64`: the
  percentage printed by the revenue rule of `NotificationSystem.jsx` and the sums and the
  quotient behind `marketConcentration` (namespace `SuperAdminDashboard.Binary64`).
* A field of a fetched snapshot is `none` when it is `undefined` and `some q` when it is
  the number `q`.
* A template literal is kept as the list of its pieces (`MsgPart`): literal text and
  interpolated values together with the formatting method applied to them.
* React state is explicit: every handler and effect is a function from state to state and
  the queued functional updates are applied in the order they are issued.
-/

set_option autoImplicit false

namespace TapNTravel

/-! ## JavaScript values -/

/-- A JavaScript number as the rules can observe it. -/
inductive JSNum where
  | fin (q : ℚ)
  | posInf
  | negInf
  | nan
deriving DecidableEq

namespace JSNum

/-- Number conversion of a snapshot field: `undefined` becomes `NaN`. -/
def ofField (x : Option ℚ) : JSNum :=
  match x with
  | some q => fin q
  | none => nan

/-- The quotient `a / b` of two finite numbers (the sign of a zero is not modelled:
every denominator in the code is a sum started at `+0`). -/
def div (a b : ℚ) : JSNum :=
  if b ≠ 0 then fin (a / b)
  else if a > 0 then posInf
  else if a < 0 then negInf
  else nan

/-- The product `x * c` for a finite constant `c > 0`. -/
def mulPos (x : JSNum) (c : ℚ) : JSNum :=
  match x with
  | fin q => fin (q * c)
  | posInf => posInf
  | negInf => negInf
  | nan => nan

/-- The quotient `x / c` for a finite constant `c > 0`. -/
def divPos (x : JSNum) (c : ℚ) : JSNum :=
  match x with
  | fin q => fin (q / c)
  | posInf => posInf
  | negInf => negInf
  | nan => nan

/-- The comparison `x > c` against a finite number; false on `NaN`. -/
def gt (x : JSNum) (c : ℚ) : Bool :=
  match x with
  | fin q => decide (q > c)
  | posInf => true
  | negInf => false
  | nan => false

/-- The comparison `x < c` against a finite number; false on `NaN`. -/
def lt (x : JSNum) (c : ℚ) : Bool :=
  match x with
  | fin q => decide (q < c)
  | posInf => false
  | negInf => true
  | nan => false

end JSNum

/-! ## Binary64 rounding -/

/-- Rounding to the nearest integer, a tie going to the even neighbour. -/
def roundHalfEven (m : ℚ) : ℤ :=
  if m - ⌊m⌋ < 1 / 2 then ⌊m⌋
  else if m - ⌊m⌋ > 1 / 2 then ⌊m⌋ + 1
  else if ⌊m⌋ % 2 = 0 then ⌊m⌋ else ⌊m⌋ + 1

/-- The position of the leading binary digit of `n` (0 for `n < 2`), found with at most
`fuel` halvings. -/
def log2Fuel : ℕ → ℕ → ℕ
  | 0, _ => 0
  | fuel + 1, n => if 2 ≤ n then log2Fuel fuel (n / 2) + 1 else 0

/-- The binary exponent of a positive rational `x`: the integer `e` with
`2 ^ e ≤ x < 2 ^ (e + 1)`. -/
def exponent (x : ℚ) : ℤ :=
  let e₀ : ℤ := (log2Fuel x.num.natAbs x.num.natAbs : ℤ) - (log2Fuel x.den x.den : ℤ)
  if (2 : ℚ) ^ e₀ ≤ x then e₀ else e₀ - 1

/-- The binary64 number nearest to `x` (53 significant bits, a tie going to the even
significand): the result of a JavaScript arithmetic operation whose exact value is `x`, and
the value `parseFloat` reads from the decimal numeral `x`.  Overflow and subnormal numbers
are not modelled. -/
def roundBinary64 (x : ℚ) : ℚ :=
  if x = 0 then 0
  else
    let ulp : ℚ := 2 ^ (exponent |x| - 52)
    if x < 0 then -((roundHalfEven (|x| / ulp) : ℚ) * ulp)
    else (roundHalfEven (|x| / ulp) : ℚ) * ulp

/-- One piece of a template literal. -/
inductive MsgPart where
  /-- literal text, or an interpolated string -/
  | text (s : String)
  /-- an interpolated number, default conversion to string -/
  | num (x : JSNum)
  /-- the interpolation of `x.toFixed(digits)` -/
  | fixed (x : JSNum) (digits : ℕ)
  /-- the interpolation of `x.toLocaleString()` -/
  | locale (x : JSNum)
deriving DecidableEq

/-- The `id` of a notification. -/
inductive NotifId where
  /-- the template string made of a rule prefix, a dash and `Date.now()` -/
  | tagged (pfx : String) (t : ℤ)
  /-- the bare number `Date.now()` -/
  | stamp (t : ℤ)
deriving DecidableEq

/-- A notification object.  Fields an object literal does not set are `none`.
`timestamp` is the clock reading from which the object's `timestamp` / `time` string is
rendered. -/
structure Notification where
  id : NotifId
  type : String
  title : Option String
  message : List MsgPart
  timestamp : ℤ
  read : Bool
  category : Option String
  icon : Option String
deriving DecidableEq

/-- The cooldown history object: rule id to the time the rule was last marked. -/
abbrev History := String → Option ℤ

/-- The constant `NOTIFICATION_COOLDOWN` of the three dashboards. -/
def NOTIFICATION_COOLDOWN : ℤ := 8 * 60 * 60 * 1000

/-- The updater shared by the three dashboards' `markNotificationGenerated`:
the spread of `prev` followed by the computed key set to `Date.now()`. -/
def markNotificationGenerated (now : ℤ) (prev : History) (notificationType : String) :
    History :=
  fun k => if k = notificationType then some now else prev k

/-- The pushes and cooldown marks issued by a block of rules, in program order. -/
structure RuleOut where
  pushed : List Notification
  marked : List String

namespace RuleOut

/-- A block that does nothing. -/
def skip : RuleOut := ⟨[], []⟩

/-- Sequential composition of two blocks. -/
def seq (a b : RuleOut) : RuleOut := ⟨a.pushed ++ b.pushed, a.marked ++ b.marked⟩

/-- A block that pushes one notification and marks one rule. -/
def fire (n : Notification) (rule : String) : RuleOut := ⟨[n], [rule]⟩

end RuleOut

/-! ## State and handlers the three dashboards share

`AdminDashboard.jsx`, `SuperAdminDashboard.jsx` and `DriverDashboard.jsx` declare the same
state variables and carry identical copies of `addNotification`, `updateUnreadCount`,
`markAsRead`, `markAllAsRead` and `deleteNotification`; line numbers are those of
`AdminDashboard.jsx`. -/

/-- The component state the notification code reads and writes. -/
structure State where
  notifications : List Notification
  unreadCount : ℕ
  lastNotificationCheck : Option ℤ
  notificationHistory : History

/-- The state after mount: the `useState` initial values. -/
def State.init : State := ⟨[], 0, none, fun _ => none⟩

/-- The helper `updateUnreadCount` (AdminDashboard lines 506-509): the value it stores. -/
def updateUnreadCount (notifs : List Notification) : ℕ :=
  (notifs.filter (fun n => !n.read)).length

/-- The handler `addNotification` (AdminDashboard lines 486-504). -/
def addNotification (now : ℤ) (type : String) (message : String) (s : State) : State :=
  let newNotification : Notification :=
    { id := .stamp now
      type := type
      title := none
      message := [.text message]
      timestamp := now
      read := false
      category := none
      icon := none }
  let updatedNotifications := newNotification :: s.notifications
  { s with notifications := updatedNotifications
           unreadCount := updateUnreadCount updatedNotifications }

/-- The handler `markAsRead` (AdminDashboard lines 511-519). -/
def markAsRead (id : NotifId) (s : State) : State :=
  let updatedNotifications :=
    s.notifications.map (fun notification =>
      if notification.id = id then { notification with read := true } else notification)
  { s with notifications := updatedNotifications
           unreadCount := updateUnreadCount updatedNotifications }

/-- The handler `markAllAsRead` (AdminDashboard lines 521-529). -/
def markAllAsRead (s : State) : State :=
  let updatedNotifications :=
    s.notifications.map (fun notification => { notification with read := true })
  { s with notifications := updatedNotifications
           unreadCount := updateUnreadCount updatedNotifications }

/-- The handler `deleteNotification` (AdminDashboard lines 531-537). -/
def deleteNotification (id : NotifId) (s : State) : State :=
  let updatedNotifications := s.notifications.filter (fun notification => notification.id ≠ id)
  { s with notifications := updatedNotifications
           unreadCount := updateUnreadCount updatedNotifications }

/-! ## AdminDashboard.jsx -/

namespace AdminDashboard

/-- The literal array inside `shouldGenerateNotification`. -/
def analyticsTypes : List String :=
  ["high-revenue-efficiency", "daily-ticket-goal", "revenue-health-check",
   "revenue-ticket-comparison", "total-revenue-milestone", "ticket-volume-analysis"]

/-- The function `shouldGenerateNotification` of AdminDashboard (lines 65-92). -/
def shouldGenerateNotification (notificationHistory : History) (now : ℤ)
    (notificationType : String) : Bool :=
  let lastGenerated := notificationHistory notificationType
  let isAnalyticsNotification := analyticsTypes.contains notificationType
  if isAnalyticsNotification then
    match lastGenerated with
    | none => true
    | some t => if t = 0 then true else decide (now - t ≥ 30000)
  else
    match lastGenerated with
    | none => true
    | some t => if t = 0 then true else decide (now - t ≥ NOTIFICATION_COOLDOWN)

/-- The cooldown window the specification assigns to a rule id in AdminDashboard. -/
def cooldownWindow (notificationType : String) : ℤ :=
  if notificationType ∈ analyticsTypes then 30000 else 28800000

/-- The snapshot `dashboardData` as the notification effect reads it. -/
structure DashboardData where
  totalRevenue : Option ℚ
  totalTickets : Option ℚ
  todaysRevenue : Option ℚ
  todaysTickets : Option ℚ
  driversRegistered : Option ℚ
  assignedDrivers : Option ℚ
  totalVehicles : Option ℚ

/-- The expression `field || 0` on a numeric field. -/
def orZero (x : Option ℚ) : ℚ :=
  match x with
  | some q => q
  | none => 0

/-- The derived constant `avgRevenuePerTicket` (line 124). -/
def avgRevenuePerTicket (d : DashboardData) : ℚ :=
  if orZero d.totalTickets > 0 then orZero d.totalRevenue / orZero d.totalTickets else 0

/-- The derived constant `todaysAvgRevenuePerTicket` (line 125). -/
def todaysAvgRevenuePerTicket (d : DashboardData) : ℚ :=
  if orZero d.todaysTickets > 0 then orZero d.todaysRevenue / orZero d.todaysTickets else 0

/-- Rule 1, high average revenue efficiency (lines 129-152). -/
def highRevenueEfficiency (should : String → Bool) (now : ℤ) (d : DashboardData) : RuleOut :=
  let avg := avgRevenuePerTicket d
  if avg > 0 ∧ should "high-revenue-efficiency" = true then
    let efficiencyMessage : List MsgPart :=
      if avg ≥ 50 then
        [.text "Your current avg. revenue per ticket is Rs. ", .fixed (.fin avg) 2,
         .text " — indicating strong pricing or upsell effectiveness."]
      else if avg ≥ 30 then
        [.text "Your current avg. revenue per ticket is Rs. ", .fixed (.fin avg) 2,
         .text " — showing good market positioning."]
      else if avg ≥ 20 then
        [.text "Your current avg. revenue per ticket is Rs. ", .fixed (.fin avg) 2,
         .text " — there's room for pricing optimization."]
      else
        [.text "Your current avg. revenue per ticket is Rs. ", .fixed (.fin avg) 2,
         .text " — consider reviewing pricing strategy."]
    RuleOut.fire
      { id := .tagged "revenue-efficiency" now
        type := if avg ≥ 40 then "success" else "info"
        title := none
        message := efficiencyMessage
        timestamp := now
        read := false
        category := some "analytics"
        icon := some "trending" }
      "high-revenue-efficiency"
  else RuleOut.skip

/-- The constant `dailyTicketGoal` (line 155). -/
def dailyTicketGoal : ℚ := 350

/-- Rule 2, daily ticket goal (lines 156-202). -/
def dailyTicketGoalRule (should : String → Bool) (now : ℤ) (d : DashboardData) : RuleOut :=
  let todaysTickets := orZero d.todaysTickets
  if todaysTickets ≥ 0 ∧ should "daily-ticket-goal" = true then
    let remaining := dailyTicketGoal - todaysTickets
    let n : Notification :=
      if todaysTickets ≥ dailyTicketGoal then
        { id := .tagged "ticket-goal-achieved" now
          type := "success"
          title := none
          message := [.text "🎉 Daily goal achieved! You've sold ", .num (.fin todaysTickets),
                      .text " tickets today (Goal: ", .num (.fin dailyTicketGoal), .text ")"]
          timestamp := now
          read := false
          category := some "analytics"
          icon := some "target" }
      else if remaining ≤ 50 ∧ remaining > 0 then
        { id := .tagged "ticket-goal-close" now
          type := "success"
          title := none
          message := [.text "You've sold ", .num (.fin todaysTickets),
                      .text " tickets today — only ", .num (.fin remaining),
                      .text " away from your daily goal!"]
          timestamp := now
          read := false
          category := some "analytics"
          icon := some "target" }
      else if todaysTickets ≥ dailyTicketGoal * (3 / 4) then
        { id := .tagged "ticket-goal-progress" now
          type := "info"
          title := none
          message := [.text "Great progress! ", .num (.fin todaysTickets),
                      .text " tickets sold today — ",
                      .fixed (.fin ((todaysTickets / dailyTicketGoal) * 100)) 1,
                      .text "% of daily goal completed."]
          timestamp := now
          read := false
          category := some "analytics"
          icon := some "target" }
      else
        { id := .tagged "ticket-goal-status" now
          type := "info"
          title := none
          message := [.text "Current ticket sales: ", .num (.fin todaysTickets),
                      .text " tickets today (",
                      .fixed (.fin ((todaysTickets / dailyTicketGoal) * 100)) 1,
                      .text "% of ", .num (.fin dailyTicketGoal), .text " daily goal)"]
          timestamp := now
          read := false
          category := some "analytics"
          icon := some "target" }
    RuleOut.fire n "daily-ticket-goal"
  else RuleOut.skip

/-- Rule 3, revenue health check (lines 205-239): the pair `(healthMessage, healthType)`. -/
def revenueHealth (todaysRevenue : ℚ) : List MsgPart × String :=
  if todaysRevenue ≥ 15000 then
    ([.text "Total revenue has reached Rs. ", .locale (.fin todaysRevenue),
      .text " so far today. That's exceptional daily performance! 🚀"], "success")
  else if todaysRevenue ≥ 10000 then
    ([.text "Total revenue has reached Rs. ", .locale (.fin todaysRevenue),
      .text " so far today. That's strong daily performance!"], "success")
  else if todaysRevenue ≥ 5000 then
    ([.text "Total revenue is Rs. ", .locale (.fin todaysRevenue),
      .text " today. Moderate performance with room to grow."], "info")
  else if todaysRevenue ≥ 2000 then
    ([.text "Today's revenue is Rs. ", .locale (.fin todaysRevenue),
      .text ". Consider strategies to boost sales."], "warning")
  else if todaysRevenue > 0 then
    ([.text "Today's revenue is Rs. ", .locale (.fin todaysRevenue),
      .text ". Early in the day - tracking progress."], "info")
  else
    ([.text "Revenue tracking started for today. Current: Rs. ",
      .locale (.fin todaysRevenue)], "info")

/-- Rule 3, revenue health check (lines 205-239). -/
def revenueHealthCheck (should : String → Bool) (now : ℤ) (d : DashboardData) : RuleOut :=
  let todaysRevenue := orZero d.todaysRevenue
  if todaysRevenue ≥ 0 ∧ should "revenue-health-check" = true then
    RuleOut.fire
      { id := .tagged "revenue-health" now
        type := (revenueHealth todaysRevenue).2
        title := none
        message := (revenueHealth todaysRevenue).1
        timestamp := now
        read := false
        category := some "analytics"
        icon := some "dollar" }
      "revenue-health-check"
  else RuleOut.skip

/-- Rule 4, revenue per ticket comparison (lines 242-271).  The cooldown mark is issued
whenever the outer condition holds; the push only when `todaysAvgRevenuePerTicket > 0`. -/
def revenueTicketComparison (should : String → Bool) (now : ℤ) (d : DashboardData) : RuleOut :=
  let avg := avgRevenuePerTicket d
  let todaysAvg := todaysAvgRevenuePerTicket d
  if orZero d.todaysTickets > 0 ∧ avg > 0 ∧ should "revenue-ticket-comparison" = true then
    let percentageDiff := ((todaysAvg - avg) / avg) * 100
    let body : List MsgPart × String :=
      if percentageDiff > 15 then
        ([.text "Today's revenue per ticket (Rs. ", .fixed (.fin todaysAvg) 2, .text ") is ",
          .fixed (.fin percentageDiff) 1, .text "% above your overall average of Rs. ",
          .fixed (.fin avg) 2], "success")
      else if percentageDiff < -15 then
        ([.text "Today's revenue per ticket (Rs. ", .fixed (.fin todaysAvg) 2, .text ") is ",
          .fixed (.fin |percentageDiff|) 1, .text "% below your overall average of Rs. ",
          .fixed (.fin avg) 2], "warning")
      else
        ([.text "Today's revenue per ticket (Rs. ", .fixed (.fin todaysAvg) 2,
          .text ") is close to your overall average of Rs. ", .fixed (.fin avg) 2,
          .text " (", .fixed (.fin percentageDiff) 1, .text "% difference)"], "info")
    let pushed : List Notification :=
      if todaysAvg > 0 then
        [{ id := .tagged "revenue-comparison" now
           type := body.2
           title := none
           message := body.1
           timestamp := now
           read := false
           category := some "analytics"
           icon := some "trending" }]
      else []
    ⟨pushed, ["revenue-ticket-comparison"]⟩
  else RuleOut.skip

/-- An entry of the `milestones` array. -/
structure Milestone where
  amount : ℚ
  label : String
deriving DecidableEq

/-- The literal array `milestones` (lines 276-284), in source order. -/
def milestones : List Milestone :=
  [⟨1000000, "1 Million"⟩, ⟨500000, "500K"⟩, ⟨250000, "250K"⟩, ⟨100000, "100K"⟩,
   ⟨50000, "50K"⟩, ⟨25000, "25K"⟩, ⟨10000, "10K"⟩]

/-- The lookup `milestones.find(milestone => totalRevenue >= milestone.amount)` (line 287). -/
def crossedMilestone (totalRevenue : ℚ) : Option Milestone :=
  milestones.find? (fun milestone => decide (totalRevenue ≥ milestone.amount))

/-- The notification pushed when a milestone has been crossed (lines 290-298). -/
def milestoneNotification (now : ℤ) (totalRevenue : ℚ) (m : Milestone) : Notification :=
  { id := .tagged "revenue-milestone" now
    type := "success"
    title := none
    message := [.text "🎯 Milestone Achievement! Total revenue has reached Rs. ",
                .locale (.fin totalRevenue), .text " (", .text m.label,
                .text " milestone crossed!)"]
    timestamp := now
    read := false
    category := some "analytics"
    icon := some "target" }

/-- Rule 5, total revenue milestone (lines 274-313). -/
def totalRevenueMilestone (should : String → Bool) (now : ℤ) (d : DashboardData) : RuleOut :=
  let totalRevenue := orZero d.totalRevenue
  if totalRevenue > 0 ∧ should "total-revenue-milestone" = true then
    match crossedMilestone totalRevenue with
    | some m => RuleOut.fire (milestoneNotification now totalRevenue m) "total-revenue-milestone"
    | none =>
      let nextMilestone : Milestone := milestones.getLastD ⟨10000, "10K"⟩
      RuleOut.fire
        { id := .tagged "revenue-progress" now
          type := "info"
          title := none
          message := [.text "Total revenue: Rs. ", .locale (.fin totalRevenue),
                      .text ". Next milestone: Rs. ", .locale (.fin nextMilestone.amount),
                      .text " (", .text nextMilestone.label, .text ")"]
          timestamp := now
          read := false
          category := some "analytics"
          icon := some "target" }
        "total-revenue-milestone"
  else RuleOut.skip

/-- Rule 6, ticket volume analysis (lines 316-338). -/
def ticketVolumeAnalysis (should : String → Bool) (now : ℤ) (d : DashboardData) : RuleOut :=
  let totalTickets := orZero d.totalTickets
  if totalTickets > 0 ∧ should "ticket-volume-analysis" = true then
    let volumeMessage : List MsgPart :=
      if totalTickets ≥ 1000 then
        [.text "Total tickets sold: ", .locale (.fin totalTickets),
         .text " - High volume operation! 🚌"]
      else if totalTickets ≥ 500 then
        [.text "Total tickets sold: ", .locale (.fin totalTickets),
         .text " - Growing customer base 📈"]
      else if totalTickets ≥ 100 then
        [.text "Total tickets sold: ", .locale (.fin totalTickets),
         .text " - Building momentum 🎯"]
      else
        [.text "Total tickets sold: ", .locale (.fin totalTickets),
         .text " - Early stage operations ✨"]
    RuleOut.fire
      { id := .tagged "ticket-volume" now
        type := "info"
        title := none
        message := volumeMessage
        timestamp := now
        read := false
        category := some "analytics"
        icon := some "trending" }
      "ticket-volume-analysis"
  else RuleOut.skip

/-- A notification of the older rules: no `category`, no `icon` (lines 342-457). -/
def plain (pfx : String) (now : ℤ) (type : String) (message : List MsgPart) : Notification :=
  { id := .tagged pfx now
    type := type
    title := none
    message := message
    timestamp := now
    read := false
    category := none
    icon := none }

/-- The constant `targetRevenue` (line 345). -/
def targetRevenue : ℚ := 10000

/-- Revenue target rules (lines 343-366). -/
def revenueTargetRules (should : String → Bool) (now : ℤ) (d : DashboardData) : RuleOut :=
  match d.todaysRevenue with
  | none => RuleOut.skip
  | some todaysRevenue =>
    if todaysRevenue > 0 then
      if todaysRevenue ≥ targetRevenue ∧ should "revenue-target" = true then
        RuleOut.fire
          (plain "revenue-target" now "success"
            [.text "Daily revenue target achieved! Rs. ", .num (.fin todaysRevenue)])
          "revenue-target"
      else if todaysRevenue < targetRevenue * (1 / 2) ∧ should "revenue-low" = true then
        RuleOut.fire
          (plain "revenue-low" now "warning"
            [.text "Today's revenue (Rs. ", .num (.fin todaysRevenue),
             .text ") is below 50% of target"])
          "revenue-low"
      else RuleOut.skip
    else RuleOut.skip

/-- Ticket sales rules (lines 369-391).  `avgDailyTickets` is `NaN` when `totalTickets`
is missing.  The factors 1.2 and 0.8 are the rationals 6/5 and 4/5 and the products are
exact: where the exact product equals `todaysTickets` (as at `totalTickets = 175`,
`todaysTickets = 7`) the binary64 product can fall just below it, and the code then pushes
`tickets-high` where the exact comparison does not. -/
def ticketSalesRules (should : String → Bool) (now : ℤ) (d : DashboardData) : RuleOut :=
  match d.todaysTickets with
  | none => RuleOut.skip
  | some todaysTickets =>
    let avgDailyTickets := (JSNum.ofField d.totalTickets).divPos 30
    if (avgDailyTickets.mulPos (6 / 5)).lt todaysTickets = true ∧
        should "tickets-high" = true then
      RuleOut.fire
        (plain "tickets-high" now "success"
          [.text "Ticket sales today (", .num (.fin todaysTickets), .text ") are above average"])
        "tickets-high"
    else if (avgDailyTickets.mulPos (4 / 5)).gt todaysTickets = true ∧ todaysTickets > 0 ∧
        should "tickets-low" = true then
      RuleOut.fire
        (plain "tickets-low" now "warning"
          [.text "Ticket sales today (", .num (.fin todaysTickets), .text ") are below average"])
        "tickets-low"
    else RuleOut.skip

/-- The constant `utilizationRate` (lines 408-409). -/
def utilizationRate (driversRegistered assignedDrivers : ℚ) : ℚ :=
  if driversRegistered > 0 then (assignedDrivers / driversRegistered) * 100 else 0

/-- Driver utilization rules (lines 394-430). -/
def driverUtilizationRules (should : String → Bool) (now : ℤ) (d : DashboardData) : RuleOut :=
  match d.driversRegistered, d.assignedDrivers with
  | some driversRegistered, some assignedDrivers =>
    if driversRegistered ≠ 0 ∧ assignedDrivers ≠ 0 then
      let unassignedDrivers := driversRegistered - assignedDrivers
      let first : RuleOut :=
        if unassignedDrivers > 3 ∧ should "unassigned-drivers" = true then
          RuleOut.fire
            (plain "unassigned-drivers" now "info"
              [.num (.fin unassignedDrivers),
               .text " registered drivers are currently unassigned"])
            "unassigned-drivers"
        else RuleOut.skip
      let rate := utilizationRate driversRegistered assignedDrivers
      let second : RuleOut :=
        if rate < 70 ∧ driversRegistered > 5 ∧ should "driver-utilization-low" = true then
          RuleOut.fire
            (plain "driver-utilization" now "warning"
              [.text "Driver utilization rate is only ", .fixed (.fin rate) 1, .text "%"])
            "driver-utilization-low"
        else if rate > 95 ∧ driversRegistered > 5 ∧ should "driver-shortage" = true then
          RuleOut.fire
            (plain "driver-shortage" now "warning"
              [.text "High driver utilization (", .fixed (.fin rate) 1,
               .text "%) - consider recruiting"])
            "driver-shortage"
        else RuleOut.skip
      first.seq second
    else RuleOut.skip
  | _, _ => RuleOut.skip

/-- Vehicle utilization rules (lines 433-457). -/
def vehicleUtilizationRules (should : String → Bool) (now : ℤ) (d : DashboardData) : RuleOut :=
  match d.totalVehicles, d.assignedDrivers with
  | some totalVehicles, some assignedDrivers =>
    if totalVehicles ≠ 0 ∧ assignedDrivers ≠ 0 then
      let unusedVehicles := totalVehicles - assignedDrivers
      let first : RuleOut :=
        if unusedVehicles > 0 ∧ should "unused-vehicles" = true then
          RuleOut.fire
            (plain "unused-vehicles" now "info"
              [.num (.fin unusedVehicles),
               .text " vehicles are currently without assigned drivers"])
            "unused-vehicles"
        else RuleOut.skip
      let second : RuleOut :=
        if assignedDrivers > totalVehicles ∧ should "vehicle-shortage" = true then
          RuleOut.fire
            (plain "vehicle-shortage" now "error"
              [.text "Vehicle shortage: ", .num (.fin (assignedDrivers - totalVehicles)),
               .text " drivers without vehicles"])
            "vehicle-shortage"
        else RuleOut.skip
      first.seq second
    else RuleOut.skip
  | _, _ => RuleOut.skip

/-- The rule blocks of one pass in program order (lines 114-457), evaluated against the
cooldown history of the current render. -/
def evaluateRules (notificationHistory : History) (now : ℤ) (d : DashboardData) : RuleOut :=
  let should := shouldGenerateNotification notificationHistory now
  (highRevenueEfficiency should now d).seq <|
  (dailyTicketGoalRule should now d).seq <|
  (revenueHealthCheck should now d).seq <|
  (revenueTicketComparison should now d).seq <|
  (totalRevenueMilestone should now d).seq <|
  (ticketVolumeAnalysis should now d).seq <|
  (revenueTargetRules should now d).seq <|
  (ticketSalesRules should now d).seq <|
  (driverUtilizationRules should now d).seq <|
  (vehicleUtilizationRules should now d)

/-- The list `limitedNotifications` (lines 462-469). -/
def limitedNotifications (newNotifications : List Notification) : List Notification :=
  let analyticsNotifications := newNotifications.filter (fun n => n.category = some "analytics")
  let otherNotifications := newNotifications.filter (fun n => n.category ≠ some "analytics")
  analyticsNotifications ++ otherNotifications.take 2

/-- The early return of line 110: `lastNotificationCheck` is truthy and less than 30000 ms
have passed since it. -/
def gateClosed (s : State) (now : ℤ) : Bool :=
  match s.lastNotificationCheck with
  | none => false
  | some t => if t = 0 then false else decide (now - t < 30000)

/-- The array `newNotifications` a pass builds; empty when the pass returns early. -/
def newNotifications (s : State) (now : ℤ) (dashboardData : Option DashboardData) :
    List Notification :=
  match dashboardData with
  | none => []
  | some d => if gateClosed s now then [] else (evaluateRules s.notificationHistory now d).pushed

/-- The rule ids a pass hands to `markNotificationGenerated`, in program order; empty when
the pass returns early. -/
def markedRules (s : State) (now : ℤ) (dashboardData : Option DashboardData) : List String :=
  match dashboardData with
  | none => []
  | some d => if gateClosed s now then [] else (evaluateRules s.notificationHistory now d).marked

/-- The notification effect (lines 103-484) as a state transition. -/
def notificationEffect (now : ℤ) (dashboardData : Option DashboardData) (s : State) : State :=
  match dashboardData with
  | none => s
  | some d =>
    if gateClosed s now then s
    else
      let out := evaluateRules s.notificationHistory now d
      let history := out.marked.foldl (markNotificationGenerated now) s.notificationHistory
      let limited := limitedNotifications out.pushed
      if out.pushed.length > 0 then
        { notifications := limited ++ s.notifications
          unreadCount := s.unreadCount + limited.length
          lastNotificationCheck := some now
          notificationHistory := history }
      else
        { s with lastNotificationCheck := some now, notificationHistory := history }

/-- The mount effect (lines 30-62) on the notification state, up to its first `await`.
`tokenRejected` tells whether `jwtDecode` throws at line 33 (no token stored, or a
malformed one): the exception is thrown before the first `await`, so the `catch` block
calls `addNotification` (line 49) before line 56 runs `setNotifications([])`, and the two
updates are applied in that order.  Line 60 stores an empty history only over an empty
history.  A request that fails later calls `addNotification` as an event of its own. -/
def mountEffect (now : ℤ) (tokenRejected : Bool) (s : State) : State :=
  let reported :=
    if tokenRejected then addNotification now "error" "Failed to fetch dashboard data" s
    else s
  { reported with notifications := [] }

/-- One event of the component's life: the mount effect, an evaluation pass or a handler
call. -/
inductive Op where
  | mount (now : ℤ) (tokenRejected : Bool)
  | pass (now : ℤ) (dashboardData : Option DashboardData)
  | add (now : ℤ) (type : String) (message : String)
  | read (id : NotifId)
  | readAll
  | delete (id : NotifId)

/-- The state after one event. -/
def step (s : State) (op : Op) : State :=
  match op with
  | .mount now tokenRejected => mountEffect now tokenRejected s
  | .pass now d => notificationEffect now d s
  | .add now type message => addNotification now type message s
  | .read id => markAsRead id s
  | .readAll => markAllAsRead s
  | .delete id => deleteNotification id s

/-- The state after a sequence of events, oldest first. -/
def run (s : State) (ops : List Op) : State := ops.foldl step s

end AdminDashboard

/-! ## SuperAdminDashboard.jsx -/

namespace SuperAdminDashboard

/-- The function `shouldGenerateNotification` of SuperAdminDashboard (lines 53-62). -/
def shouldGenerateNotification (notificationHistory : History) (now : ℤ)
    (notificationType : String) : Bool :=
  let lastGenerated := notificationHistory notificationType
  match lastGenerated with
  | none => true
  | some t => if t = 0 then true else decide (now - t ≥ NOTIFICATION_COOLDOWN)

/-- One record of `dashboardData.data`.  `revenue` is the value `parseFloat` yields for
the field, `none` when the field is missing. -/
structure Company where
  adminName : String
  revenue : Option ℚ
deriving DecidableEq

/-- The expression `parseFloat(company.revenue || 0)`. -/
def revenueOf (company : Company) : ℚ :=
  match company.revenue with
  | some q => q
  | none => 0

/-- The array `sortedCompanies` (lines 89-91): a stable sort by descending revenue. -/
def sortedCompanies (companies : List Company) : List Company :=
  companies.insertionSort (fun a b => revenueOf a ≥ revenueOf b)

/-- The constant `totalRevenue` (line 94). -/
def totalRevenue (companies : List Company) : ℚ :=
  companies.foldl (fun sum company => sum + revenueOf company) 0

/-- The constant `avgRevenue` (line 95); only read when `companies` is not empty. -/
def avgRevenue (companies : List Company) : ℚ :=
  totalRevenue companies / companies.length

/-- The constant `topThreeRevenue` (lines 150-151). -/
def topThreeRevenue (companies : List Company) : ℚ :=
  ((sortedCompanies companies).take 3).foldl (fun sum company => sum + revenueOf company) 0

/-- The constant `marketConcentration` (line 152): there is no guard on the divisor. -/
def marketConcentration (companies : List Company) : JSNum :=
  (JSNum.div (topThreeRevenue companies) (totalRevenue companies)).mulPos 100

/-- The mean of the squared deviations inside `calculateStandardDeviation`
(lines 219-222), before the square root is taken. -/
def avgSquaredDiff (values : List ℚ) : ℚ :=
  let mean : ℚ := values.foldl (fun (sum value : ℚ) => sum + value) 0 / (values.length : ℚ)
  let squaredDiffs : List ℚ := values.map (fun value => (value - mean) ^ 2)
  squaredDiffs.foldl (fun (sum value : ℚ) => sum + value) 0 / (values.length : ℚ)

/-- The comparison `Math.sqrt(v) > a` for `v ≥ 0`, decided without taking the root. -/
def sqrtGt (v a : ℚ) : Bool :=
  decide (a < 0 ∨ a * a < v)

/-- A notification of this dashboard: no `category`, no `icon`. -/
def plain (pfx : String) (now : ℤ) (type : String) (message : List MsgPart) : Notification :=
  { id := .tagged pfx now
    type := type
    title := none
    message := message
    timestamp := now
    read := false
    category := none
    icon := none }

/-- The top performer rule (lines 98-107). -/
def topPerformer (should : String → Bool) (now : ℤ) (companies : List Company) : RuleOut :=
  match (sortedCompanies companies).head? with
  | none => RuleOut.skip
  | some topCompany =>
    if (JSNum.ofField topCompany.revenue).gt (avgRevenue companies * (3 / 2)) = true ∧
        should "top-performer" = true then
      RuleOut.fire
        (plain "top-performer" now "success"
          [.text topCompany.adminName, .text " is the top performing company with Rs. ",
           .num (JSNum.ofField topCompany.revenue)])
        "top-performer"
    else RuleOut.skip

/-- The low performers rule (lines 110-123). -/
def lowPerformersRule (should : String → Bool) (now : ℤ) (companies : List Company) :
    RuleOut :=
  let lowPerformers :=
    companies.filter (fun company => decide (revenueOf company < avgRevenue companies * (1 / 2)))
  if lowPerformers.length > 0 ∧ should "low-performers" = true then
    RuleOut.fire
      (plain "low-performers" now "warning"
        [.num (.fin lowPerformers.length),
         .text " companies are performing below 50% of average revenue"])
      "low-performers"
  else RuleOut.skip

/-- The company growth rule (lines 126-135). -/
def companyGrowth (should : String → Bool) (now : ℤ) (companies : List Company) : RuleOut :=
  if companies.length > 5 ∧ should "company-growth" = true then
    RuleOut.fire
      (plain "company-growth" now "info"
        [.text "Platform growth: ", .num (.fin companies.length),
         .text " companies now registered"])
      "company-growth"
  else RuleOut.skip

/-- The platform revenue milestone rule (lines 138-147). -/
def revenueMilestone (should : String → Bool) (now : ℤ) (companies : List Company) : RuleOut :=
  if totalRevenue companies > 100000 ∧ should "revenue-milestone" = true then
    RuleOut.fire
      (plain "revenue-milestone" now "success"
        [.text "Platform revenue milestone reached: Rs. ",
         .fixed (.fin (totalRevenue companies)) 2])
      "revenue-milestone"
  else RuleOut.skip

/-- The market concentration rule (lines 150-163). -/
def marketConcentrationRule (should : String → Bool) (now : ℤ) (companies : List Company) :
    RuleOut :=
  if (marketConcentration companies).gt 80 = true ∧ should "market-concentration" = true then
    RuleOut.fire
      (plain "market-concentration" now "warning"
        [.text "High market concentration: Top 3 companies control ",
         .fixed (marketConcentration companies) 1, .text "% of revenue"])
      "market-concentration"
  else RuleOut.skip

/-- The inactive companies rule (lines 166-179). -/
def inactiveCompaniesRule (should : String → Bool) (now : ℤ) (companies : List Company) :
    RuleOut :=
  let inactiveCompanies := companies.filter (fun company => decide (revenueOf company = 0))
  if inactiveCompanies.length > 0 ∧ should "inactive-companies" = true then
    RuleOut.fire
      (plain "inactive-companies" now "info"
        [.num (.fin inactiveCompanies.length), .text " companies have no revenue recorded"])
      "inactive-companies"
  else RuleOut.skip

/-- The revenue disparity rule (lines 182-195). -/
def revenueDisparity (should : String → Bool) (now : ℤ) (companies : List Company) : RuleOut :=
  if sqrtGt (avgSquaredDiff (companies.map revenueOf)) (avgRevenue companies) = true ∧
      should "revenue-disparity" = true then
    RuleOut.fire
      (plain "revenue-disparity" now "info"
        [.text "High revenue disparity detected across companies"])
      "revenue-disparity"
  else RuleOut.skip

/-- The rule blocks of one pass in program order (lines 83-196). -/
def evaluateRules (notificationHistory : History) (now : ℤ) (companies : List Company) :
    RuleOut :=
  let should := shouldGenerateNotification notificationHistory now
  if companies.length > 0 then
    (topPerformer should now companies).seq <|
    (lowPerformersRule should now companies).seq <|
    (companyGrowth should now companies).seq <|
    (revenueMilestone should now companies).seq <|
    (marketConcentrationRule should now companies).seq <|
    (inactiveCompaniesRule should now companies).seq <|
    (revenueDisparity should now companies)
  else RuleOut.skip

/-- The early return of line 79. -/
def gateClosed (s : State) (now : ℤ) : Bool :=
  match s.lastNotificationCheck with
  | none => false
  | some t => if t = 0 then false else decide (now - t < NOTIFICATION_COOLDOWN)

/-- The array `newNotifications` a pass builds; empty when the pass returns early.
The argument is `dashboardData?.data`. -/
def newNotifications (s : State) (now : ℤ) (data : Option (List Company)) :
    List Notification :=
  match data with
  | none => []
  | some companies =>
    if gateClosed s now then [] else (evaluateRules s.notificationHistory now companies).pushed

/-- The rule ids a pass hands to `markNotificationGenerated`, in program order; empty when
the pass returns early. -/
def markedRules (s : State) (now : ℤ) (data : Option (List Company)) : List String :=
  match data with
  | none => []
  | some companies =>
    if gateClosed s now then [] else (evaluateRules s.notificationHistory now companies).marked

/-- The notification effect (lines 73-216) as a state transition. -/
def notificationEffect (now : ℤ) (data : Option (List Company)) (s : State) : State :=
  match data with
  | none => s
  | some companies =>
    if gateClosed s now then s
    else
      let out := evaluateRules s.notificationHistory now companies
      let history := out.marked.foldl (markNotificationGenerated now) s.notificationHistory
      let limitedNotifications := out.pushed.take 3
      if out.pushed.length > 0 then
        { notifications := limitedNotifications ++ s.notifications
          unreadCount := s.unreadCount + limitedNotifications.length
          lastNotificationCheck := some now
          notificationHistory := history }
      else
        { s with lastNotificationCheck := some now, notificationHistory := history }

/-! The figures behind the market concentration rule as binary64 arithmetic computes
them: every addition of the two `reduce` calls, the quotient and the product are rounded.
The revenues are the binary64 values `parseFloat` returned. -/

namespace Binary64

/-- The constant `totalRevenue` (line 94): the revenues are added in the order of
`companies`. -/
def totalRevenue (companies : List Company) : ℚ :=
  companies.foldl (fun sum company => roundBinary64 (sum + revenueOf company)) 0

/-- The constant `topThreeRevenue` (lines 150-151): the revenues are added in the order
of `sortedCompanies`. -/
def topThreeRevenue (companies : List Company) : ℚ :=
  ((sortedCompanies companies).take 3).foldl
    (fun sum company => roundBinary64 (sum + revenueOf company)) 0

/-- The constant `marketConcentration` (line 152). -/
def marketConcentration (companies : List Company) : JSNum :=
  if totalRevenue companies ≠ 0 then
    .fin (roundBinary64
      (roundBinary64 (topThreeRevenue companies / totalRevenue companies) * 100))
  else (JSNum.div (topThreeRevenue companies) (totalRevenue companies)).mulPos 100

/-- The market concentration rule (lines 150-163) on the binary64 figure. -/
def marketConcentrationRule (should : String → Bool) (now : ℤ) (companies : List Company) :
    RuleOut :=
  if (marketConcentration companies).gt 80 = true ∧ should "market-concentration" = true then
    RuleOut.fire
      (plain "market-concentration" now "warning"
        [.text "High market concentration: Top 3 companies control ",
         .fixed (marketConcentration companies) 1, .text "% of revenue"])
      "market-concentration"
  else RuleOut.skip

end Binary64

end SuperAdminDashboard

/-! ## DriverDashboard.jsx -/

namespace DriverDashboard

/-- The function `shouldGenerateNotification` of DriverDashboard (lines 49-58). -/
def shouldGenerateNotification (notificationHistory : History) (now : ℤ)
    (notificationType : String) : Bool :=
  let lastGenerated := notificationHistory notificationType
  match lastGenerated with
  | none => true
  | some t => if t = 0 then true else decide (now - t ≥ NOTIFICATION_COOLDOWN)

/-- The early return of line 75. -/
def gateClosed (s : State) (now : ℤ) : Bool :=
  match s.lastNotificationCheck with
  | none => false
  | some t => if t = 0 then false else decide (now - t < NOTIFICATION_COOLDOWN)

/-- The notification effect (lines 69-187) from the gate on, as a state transition.
The trip rules (lines 82-167) read calendar dates of the bus records; what they push and
mark in this pass is the argument `out`. -/
def notificationEffect (now : ℤ) (out : RuleOut) (s : State) : State :=
  if gateClosed s now then s
  else
    let history := out.marked.foldl (markNotificationGenerated now) s.notificationHistory
    let limitedNotifications := out.pushed.take 3
    if out.pushed.length > 0 then
      { notifications := limitedNotifications ++ s.notifications
        unreadCount := s.unreadCount + limitedNotifications.length
        lastNotificationCheck := some now
        notificationHistory := history }
    else
      { s with lastNotificationCheck := some now, notificationHistory := history }

end DriverDashboard

/-! ## NotificationSystem.jsx -/

namespace NotificationSystem

/-- The component's own `dashboardData` state (lines 25-38): every field is a number. -/
structure DashboardData where
  todaysRevenue : ℚ
  previousRevenue : ℚ
  todaysTickets : ℚ
  previousTickets : ℚ
  assignedDrivers : ℚ
  previousAssignedDrivers : ℚ
  driversRegistered : ℚ
  previousDriversRegistered : ℚ
  totalVehicles : ℚ
  previousVehicles : ℚ
  revenuePerTicket : ℚ
  previousRevenuePerTicket : ℚ

/-- The initial value of `dashboardData` (lines 25-38). -/
def initialData : DashboardData :=
  { todaysRevenue := 125000, previousRevenue := 110000, todaysTickets := 450,
    previousTickets := 420, assignedDrivers := 85, previousAssignedDrivers := 80,
    driversRegistered := 120, previousDriversRegistered := 110, totalVehicles := 100,
    previousVehicles := 95, revenuePerTicket := 278, previousRevenuePerTicket := 262 }

/-- An object literal of `checkForNotifications`: it sets `title` and `category` and has
no `icon`. -/
def note (pfx : String) (now : ℤ) (title : String) (message : List MsgPart) (type : String)
    (category : String) : Notification :=
  { id := .tagged pfx now
    type := type
    title := some title
    message := message
    timestamp := now
    read := false
    category := some category
    icon := none }

/-- The function `Math.round` on a finite number. -/
def mathRound (x : ℚ) : ℚ := (⌊x + 1 / 2⌋ : ℤ)

/-- The text `ticket` / `tickets` style plural ending chosen by `increase === 1`. -/
def pluralS (increase : ℚ) : String := if increase = 1 then "" else "s"

/-- The constant `percentChange` (line 143) as binary64 arithmetic computes it: the
quotient and the product are each rounded.  `difference` is taken exactly, the revenues of
this component being whole numbers (lines 26-27, 59-60, 828). -/
def percentChange (difference previousRevenue : ℚ) : ℚ :=
  roundBinary64 (roundBinary64 (difference / previousRevenue) * 100)

/-- The revenue rule (lines 141-166).  The message prints the digits of `percentChange`,
which is therefore the binary64 value. -/
def revenueRule (now : ℤ) (newData : DashboardData) : List Notification :=
  if newData.previousRevenue ≠ 0 ∧ newData.todaysRevenue ≠ newData.previousRevenue then
    let difference := newData.todaysRevenue - newData.previousRevenue
    let percentChange := percentChange difference newData.previousRevenue
    if difference > 5000 then
      [note "revenue-increase" now "Revenue Increase"
        [.text "Revenue increased by Rs. ", .locale (.fin difference), .text " (",
         .fixed (.fin percentChange) 1, .text "%)."]
        "success" "revenue"]
    else if difference < -5000 then
      [note "revenue-decrease" now "Revenue Alert"
        [.text "Revenue decreased by Rs. ", .locale (.fin |difference|), .text " (",
         .fixed (.fin |percentChange|) 1, .text "%)."]
        "warning" "revenue"]
    else []
  else []

/-- The ticket purchase rule (lines 169-180). -/
def ticketsRule (now : ℤ) (newData : DashboardData) : List Notification :=
  if newData.previousTickets ≠ 0 ∧ newData.todaysTickets > newData.previousTickets then
    let increase := newData.todaysTickets - newData.previousTickets
    [note "tickets" now "New Tickets"
      [.num (.fin increase), .text " new ticket", .text (pluralS increase),
       .text " purchased in the last update."]
      "info" "tickets"]
  else []

/-- The driver assignment rule (lines 183-194). -/
def driversAssignedRule (now : ℤ) (newData : DashboardData) : List Notification :=
  if newData.previousAssignedDrivers ≠ 0 ∧
      newData.assignedDrivers > newData.previousAssignedDrivers then
    let increase := newData.assignedDrivers - newData.previousAssignedDrivers
    [note "drivers-assigned" now "Driver Assignment"
      [.num (.fin increase), .text " new driver", .text (pluralS increase),
       .text " assigned."]
      "info" "drivers"]
  else []

/-- The driver registration rule (lines 197-208). -/
def driversRegisteredRule (now : ℤ) (newData : DashboardData) : List Notification :=
  if newData.previousDriversRegistered ≠ 0 ∧
      newData.driversRegistered > newData.previousDriversRegistered then
    let increase := newData.driversRegistered - newData.previousDriversRegistered
    [note "drivers-registered" now "New Driver Registration"
      [.num (.fin increase), .text " new driver", .text (pluralS increase),
       .text " registered in the system."]
      "success" "drivers"]
  else []

/-- The low driver utilization rule (lines 211-224). -/
def utilizationRule (now : ℤ) (newData : DashboardData) : List Notification :=
  if newData.driversRegistered ≠ 0 ∧ newData.assignedDrivers ≠ 0 then
    let utilization := newData.assignedDrivers / newData.driversRegistered
    if utilization < 7 / 10 then
      [note "utilization" now "Low Driver Utilization"
        [.text "Only ", .num (.fin (mathRound (utilization * 100))),
         .text "% of registered drivers are assigned. Consider optimizing schedules."]
        "warning" "utilization"]
    else []
  else []

/-- The revenue per ticket rule (lines 227-241). -/
def revenuePerTicketRule (now : ℤ) (newData : DashboardData) : List Notification :=
  if newData.previousRevenuePerTicket ≠ 0 ∧
      |newData.revenuePerTicket - newData.previousRevenuePerTicket| > 10 then
    let difference := newData.revenuePerTicket - newData.previousRevenuePerTicket
    let isIncrease : Bool := decide (difference > 0)
    [note "revenue-per-ticket" now
      (if isIncrease then "Revenue Per Ticket Increase" else "Revenue Per Ticket Decrease")
      [.text "Average revenue per ticket has ",
       .text (if isIncrease then "increased" else "decreased"), .text " by Rs. ",
       .num (.fin |difference|), .text ". New average: Rs. ",
       .num (.fin newData.revenuePerTicket)]
      (if isIncrease then "success" else "warning") "revenue"]
  else []

/-- The vehicle to driver balance rule (lines 244-268). -/
def vehicleDriverRule (now : ℤ) (newData : DashboardData) : List Notification :=
  if newData.totalVehicles > 0 ∧ newData.assignedDrivers > 0 then
    let perVehicle := newData.assignedDrivers / newData.totalVehicles
    if perVehicle < 9 / 10 then
      [note "vehicle-driver-ratio" now "Driver Shortage"
        [.text "Not enough drivers (", .num (.fin newData.assignedDrivers),
         .text ") for your total vehicles (", .num (.fin newData.totalVehicles),
         .text "). Consider assigning more drivers."]
        "warning" "drivers"]
    else if perVehicle > 6 / 5 then
      [note "excess-drivers" now "Excess Drivers"
        [.text "You have more assigned drivers (", .num (.fin newData.assignedDrivers),
         .text ") than needed for your vehicles (", .num (.fin newData.totalVehicles),
         .text "). Consider fleet expansion."]
        "info" "vehicles"]
    else []
  else []

/-- The array `newNotifications` that `checkForNotifications` builds (lines 138-268). -/
def newNotifications (now : ℤ) (newData : DashboardData) : List Notification :=
  revenueRule now newData ++ ticketsRule now newData ++ driversAssignedRule now newData ++
  driversRegisteredRule now newData ++ utilizationRule now newData ++
  revenuePerTicketRule now newData ++ vehicleDriverRule now newData

/-- The store update of lines 271-276: the updater passed to `setNotifications`, run
only for a non-empty batch. -/
def appendNotifications (fresh prevNotifications : List Notification) : List Notification :=
  if fresh.length > 0 then (fresh ++ prevNotifications).take 30 else prevNotifications

/-- The effect of `checkForNotifications` (lines 135-293) on the in-memory store
`notifications`. -/
def checkForNotifications (now : ℤ) (newData : DashboardData)
    (notifications : List Notification) : List Notification :=
  appendNotifications (newNotifications now newData) notifications

/-- The handler `markAsRead` (lines 295-300): the updater it passes to
`setNotifications`. -/
def markAsRead (id : NotifId) (prevNotifications : List Notification) : List Notification :=
  prevNotifications.map (fun notif => if notif.id = id then { notif with read := true } else notif)

/-- The handler `removeNotification` (lines 325-330): the updater it passes to
`setNotifications`. -/
def removeNotification (id : NotifId) (prevNotifications : List Notification) :
    List Notification :=
  prevNotifications.filter (fun notif => notif.id ≠ id)

/-- The handler `markAllAsRead` (lines 312-315): the updater it passes to
`setNotifications`. -/
def markAllAsRead (prevNotifications : List Notification) : List Notification :=
  prevNotifications.map (fun notif => { notif with read := true })

/-- The localStorage entry `adminNotifications`, by what `getItem` followed by
`JSON.parse` makes of it.  A serialised list is kept as the list it parses to: the records
hold strings and booleans only, which `JSON.stringify` and `JSON.parse` carry over
unchanged.  Arrays of other values and non-empty strings are not modelled. -/
inductive Persisted where
  /-- no entry: `getItem` returns `null` -/
  | absent
  /-- a text that `JSON.parse` rejects -/
  | unparseable (text : String)
  /-- a text that parses to `null`, `false`, `0` or the empty string -/
  | falsy
  /-- a text that parses to an array of notification records -/
  | list (items : List Notification)
  /-- a text that parses to a truthy value that is neither an array nor a string (a number
  other than 0, `true`, an object): spreading it, or calling `map` or `filter` on it,
  throws -/
  | other
deriving DecidableEq

/-- A value of the expression `JSON.parse(...) || []`. -/
inductive Stored where
  | list (items : List Notification)
  /-- a truthy value that is not an array -/
  | other
deriving DecidableEq

/-- An exception thrown by the persistence code; none of it is caught. -/
inductive Failure where
  /-- thrown by `JSON.parse` -/
  | parseError
  /-- thrown by an array operation on a value that is not an array -/
  | typeError
deriving DecidableEq

/-- The expression `JSON.parse(localStorage.getItem("adminNotifications")) || []`
(lines 106, 279, 303, 318, 333).  `JSON.parse(null)` reads the text `null`. -/
def storedNotifications (entry : Persisted) : Except Failure Stored :=
  match entry with
  | .absent => .ok (.list [])
  | .unparseable _ => .error .parseError
  | .falsy => .ok (.list [])
  | .list items => .ok (.list items)
  | .other => .ok .other

/-- The load effect (lines 105-108): the value handed to `setNotifications`, or the
exception that escapes the effect. -/
def loadNotifications (entry : Persisted) : Except Failure Stored :=
  storedNotifications entry

/-- The in-memory store together with the localStorage entry that mirrors it. -/
structure Mirror where
  notifications : List Notification
  adminNotifications : Persisted

/-- The write-back every mutating handler performs: read the entry, apply the array
operation `f`, store the result.  On a value that is not an array the operation is taken
to throw. -/
def replay (f : List Notification → List Notification) (entry : Persisted) :
    Except Failure Persisted :=
  match storedNotifications entry with
  | .error e => .error e
  | .ok (.list items) => .ok (.list (f items))
  | .ok .other => .error .typeError

namespace Handler

/-- The store update and the write-back of lines 271-283 for the batch `fresh`. -/
def append (fresh : List Notification) (m : Mirror) : Except Failure Mirror :=
  if fresh.length > 0 then
    match replay (fun storedNotifications => (fresh ++ storedNotifications).take 30)
        m.adminNotifications with
    | .error e => .error e
    | .ok entry => .ok ⟨(fresh ++ m.notifications).take 30, entry⟩
  else .ok m

/-- The function `checkForNotifications` (lines 135-293) on store and mirror. -/
def checkForNotifications (now : ℤ) (newData : DashboardData) (m : Mirror) :
    Except Failure Mirror :=
  append (newNotifications now newData) m

/-- The handler `markAsRead` (lines 295-310) on store and mirror. -/
def markAsRead (id : NotifId) (m : Mirror) : Except Failure Mirror :=
  match replay (fun storedNotifications =>
      storedNotifications.map
        (fun notif => if notif.id = id then { notif with read := true } else notif))
      m.adminNotifications with
  | .error e => .error e
  | .ok entry =>
    .ok ⟨m.notifications.map
      (fun notif => if notif.id = id then { notif with read := true } else notif), entry⟩

/-- The handler `markAllAsRead` (lines 312-323) on store and mirror. -/
def markAllAsRead (m : Mirror) : Except Failure Mirror :=
  match replay (fun storedNotifications =>
      storedNotifications.map (fun notif => { notif with read := true }))
      m.adminNotifications with
  | .error e => .error e
  | .ok entry => .ok ⟨m.notifications.map (fun notif => { notif with read := true }), entry⟩

/-- The handler `removeNotification` (lines 325-338) on store and mirror. -/
def removeNotification (id : NotifId) (m : Mirror) : Except Failure Mirror :=
  match replay (fun storedNotifications => storedNotifications.filter (fun notif => notif.id ≠ id))
      m.adminNotifications with
  | .error e => .error e
  | .ok entry => .ok ⟨m.notifications.filter (fun notif => notif.id ≠ id), entry⟩

/-- The handler `clearAllNotifications` (lines 340-343): it does not read the entry. -/
def clearAllNotifications (_m : Mirror) : Except Failure Mirror :=
  .ok ⟨[], .list []⟩

end Handler

/-- What mounting the component does to store and entry.  The effects run in the order of
their declaration: the effect of lines 86-88 calls `checkForNotifications` on the initial
`dashboardData` (clock reading `now`), then the load effect of lines 105-108 hands the
value read from the entry to `setNotifications`, which replaces the store.  A store that
is not an array makes the next render throw at `notifications.filter` (line 345). -/
def mount (now : ℤ) (entry : Persisted) : Except Failure Mirror :=
  match Handler.checkForNotifications now initialData ⟨[], entry⟩ with
  | .error e => .error e
  | .ok checked =>
    match loadNotifications checked.adminNotifications with
    | .error e => .error e
    | .ok (.list storedNotifications) => .ok ⟨storedNotifications, checked.adminNotifications⟩
    | .ok .other => .error .typeError

end NotificationSystem

/-! ## DailyTripsChart.jsx -/

namespace DailyTripsChart

/-- One record of `tripData` as the weekly aggregation reads it.  `sunday` is the outcome
of `new Date(day.date).getDay() === 0`; `trips` is a count. -/
structure Day where
  date : String
  sunday : Bool
  trips : ℕ
deriving DecidableEq

/-- One record of `weeklyData`.  `date` is the value of `currentWeekStart` when the record
is pushed; `displayDate` is the number printed after the word Week. -/
structure Week where
  date : Option String
  displayDate : ℕ
  trips : ℕ
deriving DecidableEq

/-- The variables of the `forEach` loop of lines 67-103. -/
structure Loop where
  weeklyResults : List Week
  currentWeekStart : Option String
  currentWeekTrips : ℕ
  weekNumber : ℕ

/-- The callback of the `forEach` (lines 72-103) for the record `day` at position
`index` of an array of `length` records. -/
def callback (length : ℕ) (acc : Loop) (day : Day) (index : ℕ) : Loop :=
  let started : Loop :=
    if acc.currentWeekStart = none ∨ day.sunday = true then
      let saved :=
        if acc.currentWeekStart ≠ none then
          acc.weeklyResults ++ [⟨acc.currentWeekStart, acc.weekNumber, acc.currentWeekTrips⟩]
        else acc.weeklyResults
      ⟨saved, some day.date, day.trips, acc.weekNumber + 1⟩
    else { acc with currentWeekTrips := acc.currentWeekTrips + day.trips }
  if index = length - 1 ∧ started.currentWeekTrips > 0 then
    { started with
      weeklyResults := started.weeklyResults ++
        [⟨started.currentWeekStart, started.weekNumber, started.currentWeekTrips⟩] }
  else started

/-- The `forEach` over the records from position `index` on. -/
def forEach (length : ℕ) (days : List Day) (index : ℕ) (acc : Loop) : Loop :=
  match days with
  | [] => acc
  | day :: rest => forEach length rest (index + 1) (callback length acc day index)

/-- The memoised array `weeklyData` (lines 64-106). -/
def weeklyData (tripData : List Day) : List Week :=
  if tripData.length = 0 then []
  else (forEach tripData.length tripData 0 ⟨[], none, 0, 0⟩).weeklyResults

end DailyTripsChart

/-! ## Analysis.jsx (PaymentTrendsAnalysis) -/

namespace PaymentTrendsAnalysis

/-- A payment record as `processAmountRanges` reads it: `amount` is the finite number
`parseFloat` returned for the amount column (lines 33-34). -/
structure Payment where
  user : String
  amount : ℚ
  status : String

/-- An entry of the array `ranges`; `max` is `none` for `Infinity`. -/
structure Range where
  range : String
  min : ℚ
  max : Option ℚ
  count : ℕ
deriving DecidableEq

/-- The literal array `ranges` (lines 174-180). -/
def ranges : List Range :=
  [⟨"0-1000", 0, some 1000, 0⟩, ⟨"1001-2000", 1001, some 2000, 0⟩,
   ⟨"2001-3000", 2001, some 3000, 0⟩, ⟨"3001-5000", 3001, some 5000, 0⟩,
   ⟨"5001+", 5001, none, 0⟩]

/-- The predicate of the `find` (line 183): `amount >= r.min && amount <= r.max`. -/
def inRange (amount : ℚ) (r : Range) : Bool :=
  decide (amount ≥ r.min) &&
    (match r.max with
     | some max => decide (amount ≤ max)
     | none => true)

/-- Lines 183-186 for one payment: the first entry the predicate accepts has its count
raised by one; nothing changes when there is none. -/
def countPayment (amount : ℚ) (rs : List Range) : List Range :=
  match rs with
  | [] => []
  | r :: rest =>
    if inRange amount r = true then { r with count := r.count + 1 } :: rest
    else r :: countPayment amount rest

/-- The function `processAmountRanges` (lines 173-190). -/
def processAmountRanges (data : List Payment) : List Range :=
  data.foldl (fun rs payment => countPayment payment.amount rs) ranges

end PaymentTrendsAnalysis

/-! ## Specification side: which rule a notification belongs to -/

/-- The rule tag of a notification id: the text before the clock reading, `none` for
the bare numeric ids of `addNotification`. -/
def NotifId.tag (id : NotifId) : Option String :=
  match id with
  | .tagged pfx _ => some pfx
  | .stamp _ => none

/-- The number of notifications of a list whose id carries the tag `pfx`. -/
def countTagged (pfx : String) (l : List Notification) : ℕ :=
  (l.filter (fun n => n.id.tag = some pfx)).length

namespace AdminDashboard

/-- The rule whose block pushes notifications carrying the id tag `pfx`. -/
def ruleOfTag (pfx : String) : Option String :=
  if pfx = "revenue-efficiency" then some "high-revenue-efficiency"
  else if pfx = "ticket-goal-achieved" ∨ pfx = "ticket-goal-close" ∨
      pfx = "ticket-goal-progress" ∨ pfx = "ticket-goal-status" then some "daily-ticket-goal"
  else if pfx = "revenue-health" then some "revenue-health-check"
  else if pfx = "revenue-comparison" then some "revenue-ticket-comparison"
  else if pfx = "revenue-milestone" ∨ pfx = "revenue-progress" then
    some "total-revenue-milestone"
  else if pfx = "ticket-volume" then some "ticket-volume-analysis"
  else if pfx = "revenue-target" then some "revenue-target"
  else if pfx = "revenue-low" then some "revenue-low"
  else if pfx = "tickets-high" then some "tickets-high"
  else if pfx = "tickets-low" then some "tickets-low"
  else if pfx = "unassigned-drivers" then some "unassigned-drivers"
  else if pfx = "driver-utilization" then some "driver-utilization-low"
  else if pfx = "driver-shortage" then some "driver-shortage"
  else if pfx = "unused-vehicles" then some "unused-vehicles"
  else if pfx = "vehicle-shortage" then some "vehicle-shortage"
  else none

/-- The rule a notification of the store was pushed by; `none` for the notifications of
`addNotification`. -/
def ruleOf (n : Notification) : Option String :=
  match n.id with
  | .tagged pfx _ => ruleOfTag pfx
  | .stamp _ => none

end AdminDashboard

namespace AdminDashboard

/-- What every rule block of a pass guarantees about its pushes and marks: a pushed
notification is unread, stamped with the pass's clock, tagged by one of the block's rules
and that rule is marked; a marked rule belongs to the block and passed its cooldown
check. -/
def Sound (should : String → Bool) (now : ℤ) (rules : List String) (o : RuleOut) : Prop :=
  (∀ n ∈ o.pushed, n.read = false ∧ n.timestamp = now ∧ (∃ pfx, n.id = .tagged pfx now) ∧
    ∃ R ∈ rules, ruleOf n = some R ∧ R ∈ o.marked) ∧
  (∀ R ∈ o.marked, R ∈ rules ∧ should R = true)

/-- The rule ids of AdminDashboard, in the program order of their blocks. -/
def ruleIds : List String :=
  ["high-revenue-efficiency", "daily-ticket-goal", "revenue-health-check",
   "revenue-ticket-comparison", "total-revenue-milestone", "ticket-volume-analysis",
   "revenue-target", "revenue-low", "tickets-high", "tickets-low", "unassigned-drivers",
   "driver-utilization-low", "driver-shortage", "unused-vehicles", "vehicle-shortage"]

/-- The trigger condition of a rule on a snapshot: the condition its block tests besides
the cooldown check (for `revenue-ticket-comparison`, the conditions under which the block
pushes). -/
def ruleCondition (R : String) (d : DashboardData) : Bool :=
  if R = "high-revenue-efficiency" then decide (avgRevenuePerTicket d > 0)
  else if R = "daily-ticket-goal" then decide (orZero d.todaysTickets ≥ 0)
  else if R = "revenue-health-check" then decide (orZero d.todaysRevenue ≥ 0)
  else if R = "revenue-ticket-comparison" then
    decide (orZero d.todaysTickets > 0 ∧ avgRevenuePerTicket d > 0 ∧
      todaysAvgRevenuePerTicket d > 0)
  else if R = "total-revenue-milestone" then decide (orZero d.totalRevenue > 0)
  else if R = "ticket-volume-analysis" then decide (orZero d.totalTickets > 0)
  else if R = "revenue-target" then
    match d.todaysRevenue with
    | some r => decide (r > 0 ∧ r ≥ targetRevenue)
    | none => false
  else if R = "revenue-low" then
    match d.todaysRevenue with
    | some r => decide (r > 0 ∧ r < targetRevenue * (1 / 2))
    | none => false
  else if R = "tickets-high" then
    match d.todaysTickets with
    | some t => (((JSNum.ofField d.totalTickets).divPos 30).mulPos (6 / 5)).lt t
    | none => false
  else if R = "tickets-low" then
    match d.todaysTickets with
    | some t =>
      (((JSNum.ofField d.totalTickets).divPos 30).mulPos (4 / 5)).gt t && decide (t > 0)
    | none => false
  else if R = "unassigned-drivers" then
    match d.driversRegistered, d.assignedDrivers with
    | some dr, some ad => decide (dr ≠ 0 ∧ ad ≠ 0 ∧ dr - ad > 3)
    | _, _ => false
  else if R = "driver-utilization-low" then
    match d.driversRegistered, d.assignedDrivers with
    | some dr, some ad => decide (dr ≠ 0 ∧ ad ≠ 0 ∧ utilizationRate dr ad < 70 ∧ dr > 5)
    | _, _ => false
  else if R = "driver-shortage" then
    match d.driversRegistered, d.assignedDrivers with
    | some dr, some ad => decide (dr ≠ 0 ∧ ad ≠ 0 ∧ utilizationRate dr ad > 95 ∧ dr > 5)
    | _, _ => false
  else if R = "unused-vehicles" then
    match d.totalVehicles, d.assignedDrivers with
    | some tv, some ad => decide (tv ≠ 0 ∧ ad ≠ 0 ∧ tv - ad > 0)
    | _, _ => false
  else if R = "vehicle-shortage" then
    match d.totalVehicles, d.assignedDrivers with
    | some tv, some ad => decide (tv ≠ 0 ∧ ad ≠ 0 ∧ ad > tv)
    | _, _ => false
  else false

end AdminDashboard

/-- The decimal number that `x.toFixed(digits)` prints, `x` being the exact value of the
finite number the method is called on: the multiple of `10 ^ (-digits)` nearest to `x`, a
tie going away from zero.  The printed digits are those of the binary64 value only when
`x` is that value, as in `NotificationSystem.percentChange` and
`SuperAdminDashboard.Binary64`; on an exact quotient the last digit can differ from the
printed one when the quotient lies on a tie. -/
def toFixed (x : ℚ) (digits : ℕ) : ℚ :=
  if x < 0 then -(((⌊(-x) * 10 ^ digits + 1 / 2⌋ : ℤ) : ℚ) / 10 ^ digits)
  else ((⌊x * 10 ^ digits + 1 / 2⌋ : ℤ) : ℚ) / 10 ^ digits

/-- A block whose marks are some of `rules`, in their order, and whose pushes and marks go
in pairs: the notifications pushed belong, one for one and in order, to the rules marked.
`owner` tells which rule a notification belongs to. -/
def Paired (owner : Notification → Option String) (rules : List String) (o : RuleOut) : Prop :=
  o.marked.Sublist rules ∧ o.pushed.map owner = o.marked.map some

/-- The rule ids of SuperAdminDashboard, in the program order of their blocks; each rule
tags its notifications with its own id. -/
def SuperAdminDashboard.ruleIds : List String :=
  ["top-performer", "low-performers", "company-growth", "revenue-milestone",
   "market-concentration", "inactive-companies", "revenue-disparity"]

/-- The number of notifications of a list that belong to rule `R` of AdminDashboard. -/
def AdminDashboard.countRule (R : String) (l : List Notification) : ℕ :=
  (l.filter (fun n => decide (AdminDashboard.ruleOf n = some R))).length

/-- The company list of scenario D of the specification: revenues 50000, 30000, 5000,
5000 and 0 under five company names. -/
def SuperAdminDashboard.scenarioCompanies (a b c d e : String) :
    List SuperAdminDashboard.Company :=
  [⟨a, some 50000⟩, ⟨b, some 30000⟩, ⟨c, some 5000⟩, ⟨d, some 5000⟩, ⟨e, some 0⟩]

/-- The mirror invariant of NotificationSystem: the list the handlers read back from the
localStorage entry is the in-memory store. -/
def NotificationSystem.InSync (m : NotificationSystem.Mirror) : Prop :=
  NotificationSystem.storedNotifications m.adminNotifications = .ok (.list m.notifications)

namespace DailyTripsChart

/-- The weeks of a run of days: `cur` holds the days of the week in progress, `days` the
days still to come; a Sunday closes the week in progress and opens the next one. -/
def weekRuns (cur : List Day) (days : List Day) : List (List Day) :=
  match days with
  | [] => [cur]
  | d :: rest => if d.sunday = true then cur :: weekRuns [d] rest else weekRuns (cur ++ [d]) rest

/-- The weekly record the specification assigns to the `n`-th week: dated by its first
day, carrying the total of its trips. -/
def weekRecord (n : ℕ) (run : List Day) : Week :=
  ⟨run.head?.map Day.date, n, (run.map Day.trips).sum⟩

/-- The weekly records of a list of weeks numbered from `n`, the last week left out when
it has no trips. -/
def weekRecords (n : ℕ) (runs : List (List Day)) : List Week :=
  match runs with
  | [] => []
  | run :: rest =>
    if rest = [] ∧ (run.map Day.trips).sum = 0 then []
    else weekRecord n run :: weekRecords (n + 1) rest

end DailyTripsChart

/-- Three companies whose revenue fields read 1250.10, 980.35 and 1999.99. -/
def SuperAdminDashboard.fractionalCompanies : List SuperAdminDashboard.Company :=
  [⟨"A", some (roundBinary64 (125010 / 100))⟩, ⟨"B", some (roundBinary64 (98035 / 100))⟩,
   ⟨"C", some (roundBinary64 (199999 / 100))⟩]

/-! ## Binary64 rounding: bounds -/

/-- With enough fuel, `log2Fuel` finds the leading binary digit. -/
theorem log2Fuel_spec : ∀ (fuel n : ℕ), 1 ≤ n → n ≤ fuel →
    2 ^ log2Fuel fuel n ≤ n ∧ n < 2 ^ (log2Fuel fuel n + 1) := by
  intro fuel
  induction fuel with
  | zero => intro n h1 h2; omega
  | succ f ih =>
    intro n h1 h2
    unfold log2Fuel
    split_ifs with h
    · obtain ⟨a, b⟩ := ih (n / 2) (by omega) (by omega)
      rw [pow_succ] at b
      constructor
      · rw [pow_succ]; omega
      · rw [pow_succ, pow_succ]; omega
    · simp
      omega

/-- The binary exponent brackets a positive rational between two powers of 2. -/
theorem exponent_spec (x : ℚ) (hx : 0 < x) :
    (2 : ℚ) ^ exponent x ≤ x ∧ x < (2 : ℚ) ^ (exponent x + 1) := by
  have hnum : 0 < x.num := Rat.num_pos.2 hx
  have hp1 : 1 ≤ x.num.natAbs := by omega
  have hq1 : 1 ≤ x.den := x.den_pos
  obtain ⟨pa, pb⟩ := log2Fuel_spec x.num.natAbs x.num.natAbs hp1 le_rfl
  obtain ⟨qa, qb⟩ := log2Fuel_spec x.den x.den hq1 le_rfl
  set a := log2Fuel x.num.natAbs x.num.natAbs with ha
  set b := log2Fuel x.den x.den with hb
  have hxe : x = (x.num.natAbs : ℚ) / (x.den : ℚ) := by
    have h1 : ((x.num.natAbs : ℤ) : ℚ) = (x.num : ℚ) := by
      rw [Int.natAbs_of_nonneg hnum.le]
    have h2 : ((x.num.natAbs : ℕ) : ℚ) = ((x.num.natAbs : ℤ) : ℚ) := (Int.cast_natCast _).symm
    rw [h2, h1]
    exact (Rat.num_div_den x).symm
  have pa' : (2 : ℚ) ^ a ≤ (x.num.natAbs : ℚ) := by exact_mod_cast pa
  have pb' : (x.num.natAbs : ℚ) < (2 : ℚ) ^ (a + 1) := by exact_mod_cast pb
  have qa' : (2 : ℚ) ^ b ≤ (x.den : ℚ) := by exact_mod_cast qa
  have qb' : (x.den : ℚ) < (2 : ℚ) ^ (b + 1) := by exact_mod_cast qb
  have hq : (0 : ℚ) < x.den := by exact_mod_cast x.den_pos
  have h2a : (0 : ℚ) < 2 ^ a := by positivity
  have h2b : (0 : ℚ) < 2 ^ b := by positivity
  have hup : x < (2 : ℚ) ^ ((a : ℤ) - (b : ℤ) + 1) := by
    have e : (2 : ℚ) ^ ((a : ℤ) - (b : ℤ) + 1) = (2 : ℚ) ^ (a + 1) / (2 : ℚ) ^ b := by
      rw [show ((a : ℤ) - (b : ℤ) + 1) = (((a + 1 : ℕ) : ℤ)) - ((b : ℕ) : ℤ) by push_cast; ring,
        zpow_sub₀ two_ne_zero, zpow_natCast, zpow_natCast]
    rw [e, hxe, div_lt_div_iff₀ hq h2b]
    nlinarith
  have hlo : (2 : ℚ) ^ ((a : ℤ) - (b : ℤ) - 1) ≤ x := by
    have e : (2 : ℚ) ^ ((a : ℤ) - (b : ℤ) - 1) = (2 : ℚ) ^ a / (2 : ℚ) ^ (b + 1) := by
      rw [show ((a : ℤ) - (b : ℤ) - 1) = (((a : ℕ) : ℤ)) - (((b + 1 : ℕ)) : ℤ) by push_cast; ring,
        zpow_sub₀ two_ne_zero, zpow_natCast, zpow_natCast]
    rw [e, hxe, div_le_div_iff₀ (by positivity) hq]
    nlinarith
  unfold exponent
  simp only [← ha, ← hb]
  split_ifs with h
  · exact ⟨h, hup⟩
  · refine ⟨hlo, ?_⟩
    rw [sub_add_cancel]
    exact not_le.1 h

/-- Rounding to an integer does not go below an integer lower bound. -/
theorem le_roundHalfEven (k : ℤ) (m : ℚ) (h : (k : ℚ) ≤ m) : k ≤ roundHalfEven m := by
  have hf : k ≤ ⌊m⌋ := Int.le_floor.2 h
  unfold roundHalfEven
  split_ifs <;> omega

/-- Rounding to an integer does not go above an integer upper bound. -/
theorem roundHalfEven_le (k : ℤ) (m : ℚ) (h : m ≤ (k : ℚ)) : roundHalfEven m ≤ k := by
  have hf : ⌊m⌋ ≤ k := Int.floor_le_iff.2 (lt_of_le_of_lt h (by simp)) |>.trans' le_rfl
  unfold roundHalfEven
  by_cases hk : ⌊m⌋ = k
  · have hm : m = (k : ℚ) := le_antisymm h (by rw [← hk]; exact Int.floor_le m)
    have : m - ⌊m⌋ < 1 / 2 := by rw [hk, hm]; norm_num
    rw [if_pos this]
    omega
  · have : ⌊m⌋ < k := lt_of_le_of_ne hf hk
    split_ifs <;> omega

/-- An integer rounds to itself. -/
theorem roundHalfEven_intCast (k : ℤ) : roundHalfEven (k : ℚ) = k :=
  le_antisymm (roundHalfEven_le k k le_rfl) (le_roundHalfEven k k le_rfl)

/-- The rounding of a positive number, with its unit in the last place. -/
theorem roundBinary64_of_pos (x : ℚ) (hx : 0 < x) :
    roundBinary64 x =
      (roundHalfEven (x / 2 ^ (exponent x - 52)) : ℚ) * 2 ^ (exponent x - 52) := by
  unfold roundBinary64
  rw [if_neg hx.ne', abs_of_pos hx]
  simp only [if_neg (not_lt.2 hx.le)]

/-- A positive number rounds to a positive number. -/
theorem roundBinary64_pos (x : ℚ) (hx : 0 < x) : 0 < roundBinary64 x := by
  rw [roundBinary64_of_pos x hx]
  obtain ⟨hlo, _⟩ := exponent_spec x hx
  have hulp : (0 : ℚ) < 2 ^ (exponent x - 52) := zpow_pos (by norm_num) _
  have hm : ((1 : ℤ) : ℚ) ≤ x / 2 ^ (exponent x - 52) := by
    rw [le_div_iff₀ hulp]
    have : (2 : ℚ) ^ (exponent x - 52) ≤ 2 ^ exponent x :=
      zpow_le_zpow_right₀ (by norm_num) (by omega)
    simp only [Int.cast_one, one_mul]
    linarith
  have hn := le_roundHalfEven 1 _ hm
  have : (1 : ℚ) ≤ (roundHalfEven (x / 2 ^ (exponent x - 52)) : ℚ) := by exact_mod_cast hn
  exact mul_pos (by linarith) hulp

/-- Rounding does not go above a whole upper bound below `2 ^ 53`. -/
theorem roundBinary64_le_natCast (x : ℚ) (K : ℕ) (hx : 0 < x) (hxK : x ≤ K)
    (hK : K < 2 ^ 53) : roundBinary64 x ≤ K := by
  rw [roundBinary64_of_pos x hx]
  obtain ⟨hlo, _⟩ := exponent_spec x hx
  have he : exponent x < 53 := by
    have h1 : (2 : ℚ) ^ exponent x < (2 : ℚ) ^ (53 : ℤ) := by
      have : (K : ℚ) < (2 : ℚ) ^ (53 : ℤ) := by
        rw [show ((53 : ℤ)) = ((53 : ℕ) : ℤ) by norm_num, zpow_natCast]
        exact_mod_cast hK
      linarith
    exact (zpow_lt_zpow_iff_right₀ (by norm_num : (1 : ℚ) < 2)).1 h1
  obtain ⟨d, hd⟩ : ∃ d : ℕ, exponent x - 52 = -(d : ℤ) := ⟨(52 - exponent x).toNat, by omega⟩
  rw [hd]
  have hulp : (2 : ℚ) ^ (-(d : ℤ)) = 1 / 2 ^ d := by
    rw [zpow_neg, zpow_natCast, one_div]
  rw [hulp]
  have hpos : (0 : ℚ) < 2 ^ d := by positivity
  have hm : x / (1 / 2 ^ d) ≤ ((K * 2 ^ d : ℤ) : ℚ) := by
    rw [div_div_eq_mul_div, div_one]
    push_cast
    exact mul_le_mul_of_nonneg_right hxK hpos.le
  have hn := roundHalfEven_le _ _ hm
  have hn' : (roundHalfEven (x / (1 / 2 ^ d)) : ℚ) ≤ (K : ℚ) * 2 ^ d := by exact_mod_cast hn
  calc (roundHalfEven (x / (1 / 2 ^ d)) : ℚ) * (1 / 2 ^ d)
      ≤ ((K : ℚ) * 2 ^ d) * (1 / 2 ^ d) :=
        mul_le_mul_of_nonneg_right hn' (by positivity)
    _ = K := by field_simp

/-- A whole number below `2 ^ 53` is a binary64 number. -/
theorem roundBinary64_natCast (K : ℕ) (hK : K < 2 ^ 53) : roundBinary64 (K : ℚ) = K := by
  rcases Nat.eq_zero_or_pos K with rfl | hpos
  · simp [roundBinary64]
  have hx : (0 : ℚ) < K := by exact_mod_cast hpos
  apply le_antisymm (roundBinary64_le_natCast _ K hx le_rfl hK)
  rw [roundBinary64_of_pos _ hx]
  obtain ⟨hlo, _⟩ := exponent_spec (K : ℚ) hx
  have he : exponent (K : ℚ) < 53 := by
    have h1 : (2 : ℚ) ^ exponent (K : ℚ) < (2 : ℚ) ^ (53 : ℤ) := by
      have : (K : ℚ) < (2 : ℚ) ^ (53 : ℤ) := by
        rw [show ((53 : ℤ)) = ((53 : ℕ) : ℤ) by norm_num, zpow_natCast]
        exact_mod_cast hK
      linarith
    exact (zpow_lt_zpow_iff_right₀ (by norm_num : (1 : ℚ) < 2)).1 h1
  obtain ⟨d, hd⟩ : ∃ d : ℕ, exponent (K : ℚ) - 52 = -(d : ℤ) :=
    ⟨(52 - exponent (K : ℚ)).toNat, by omega⟩
  rw [hd]
  have hulp : (2 : ℚ) ^ (-(d : ℤ)) = 1 / 2 ^ d := by
    rw [zpow_neg, zpow_natCast, one_div]
  rw [hulp]
  have hpos2 : (0 : ℚ) < 2 ^ d := by positivity
  have hm : ((K * 2 ^ d : ℤ) : ℚ) ≤ (K : ℚ) / (1 / 2 ^ d) := by
    rw [div_div_eq_mul_div, div_one]
    push_cast
    exact le_rfl
  have hn := le_roundHalfEven _ _ hm
  have hn' : (K : ℚ) * 2 ^ d ≤ (roundHalfEven ((K : ℚ) / (1 / 2 ^ d)) : ℚ) := by
    exact_mod_cast hn
  calc (K : ℚ) = ((K : ℚ) * 2 ^ d) * (1 / 2 ^ d) := by field_simp
    _ ≤ (roundHalfEven ((K : ℚ) / (1 / 2 ^ d)) : ℚ) * (1 / 2 ^ d) :=
        mul_le_mul_of_nonneg_right hn' (by positivity)

/-- Rounding is symmetric about 0. -/
theorem roundBinary64_neg (x : ℚ) : roundBinary64 (-x) = -roundBinary64 x := by
  rcases lt_trichotomy x 0 with h | h | h
  · unfold roundBinary64
    rw [if_neg (by intro h0; linarith), if_neg (by linarith : ¬ x = 0), abs_neg]
    simp only [if_neg (by linarith : ¬ (-x < 0)), if_pos h, neg_neg]
  · subst h
    simp [roundBinary64]
  · unfold roundBinary64
    rw [if_neg (by intro h0; linarith), if_neg (by linarith : ¬ x = 0), abs_neg]
    simp only [if_pos (by linarith : -x < 0), if_neg (by linarith : ¬ (x < 0))]

/-- A non-negative number rounds to a non-negative number. -/
theorem roundBinary64_nonneg (x : ℚ) (hx : 0 ≤ x) : 0 ≤ roundBinary64 x := by
  rcases lt_or_eq_of_le hx with h | h
  · exact (roundBinary64_pos x h).le
  · rw [← h]
    simp [roundBinary64]

/-- A whole number below 2^53 in magnitude is a binary64 value. -/
theorem roundBinary64_intCast (z : ℤ) (hz : |z| < 2 ^ 53) : roundBinary64 (z : ℚ) = z := by
  obtain ⟨n, rfl | rfl⟩ := Int.eq_nat_or_neg z
  · rw [Int.cast_natCast]
    apply roundBinary64_natCast
    rw [Nat.abs_cast] at hz
    exact_mod_cast hz
  · rw [Int.cast_neg, Int.cast_natCast, roundBinary64_neg]
    congr 1
    apply roundBinary64_natCast
    rw [abs_neg, Nat.abs_cast] at hz
    exact_mod_cast hz

/-! ## Cooldown tracker (C1, C5) -/

/-- The cooldown check in terms of the record, for every value of the record: the code
reads the record by its truthiness, so a recorded 0 would count as no record. -/
theorem shouldGenerateNotification_iff (h : History) (now : ℤ) (id : String) :
    (AdminDashboard.shouldGenerateNotification h now id = true ↔
      h id = none ∨ h id = some 0 ∨
        ∃ t, h id = some t ∧ now - t ≥ AdminDashboard.cooldownWindow id) ∧
    (AdminDashboard.cooldownWindow id =
      if id = "high-revenue-efficiency" ∨ id = "daily-ticket-goal" ∨
          id = "revenue-health-check" ∨ id = "revenue-ticket-comparison" ∨
          id = "total-revenue-milestone" ∨ id = "ticket-volume-analysis"
      then 30000 else 28800000) ∧
    (SuperAdminDashboard.shouldGenerateNotification h now id = true ↔
      h id = none ∨ h id = some 0 ∨ ∃ t, h id = some t ∧ now - t ≥ 28800000) ∧
    (DriverDashboard.shouldGenerateNotification h now id = true ↔
      h id = none ∨ h id = some 0 ∨ ∃ t, h id = some t ∧ now - t ≥ 28800000) := by
  refine ⟨?_, ?_, ?_, ?_⟩
  · unfold AdminDashboard.shouldGenerateNotification AdminDashboard.cooldownWindow
    by_cases ha : id ∈ AdminDashboard.analyticsTypes
    · cases hid : h id with
      | none => simp [ha]
      | some t =>
        by_cases ht : t = 0
        · simp [ha, ht]
        · simp [ha, ht]
    · cases hid : h id with
      | none => simp [ha]
      | some t =>
        by_cases ht : t = 0
        · simp [ha, ht]
        · simp [ha, ht, NOTIFICATION_COOLDOWN]
  · simp [AdminDashboard.cooldownWindow, AdminDashboard.analyticsTypes]
  · unfold SuperAdminDashboard.shouldGenerateNotification
    cases hid : h id with
    | none => simp
    | some t =>
      by_cases ht : t = 0
      · simp [ht]
      · simp [ht, NOTIFICATION_COOLDOWN]
  · unfold DriverDashboard.shouldGenerateNotification
    cases hid : h id with
    | none => simp
    | some t =>
      by_cases ht : t = 0
      · simp [ht]
      · simp [ht, NOTIFICATION_COOLDOWN]

/-- C1: for every rule id, cooldown history and current time, the record for `id` being
a `Date.now()` reading (hence not 0) when there is one, `shouldGenerateNotification(id)`
returns true exactly when the history holds no record for `id` or
`now - lastFired(id) >= window(id)`; the window is 30000 ms for the six analytics ids and
28800000 ms for every other id in AdminDashboard, and 28800000 ms for every id in
SuperAdminDashboard and DriverDashboard. -/
theorem shouldGenerateNotification_spec (h : History) (now : ℤ) (id : String)
    (hrec : h id ≠ some 0) :
    (AdminDashboard.shouldGenerateNotification h now id = true ↔
      h id = none ∨ ∃ t, h id = some t ∧ now - t ≥ AdminDashboard.cooldownWindow id) ∧
    (AdminDashboard.cooldownWindow id =
      if id = "high-revenue-efficiency" ∨ id = "daily-ticket-goal" ∨
          id = "revenue-health-check" ∨ id = "revenue-ticket-comparison" ∨
          id = "total-revenue-milestone" ∨ id = "ticket-volume-analysis"
      then 30000 else 28800000) ∧
    (SuperAdminDashboard.shouldGenerateNotification h now id = true ↔
      h id = none ∨ ∃ t, h id = some t ∧ now - t ≥ 28800000) ∧
    (DriverDashboard.shouldGenerateNotification h now id = true ↔
      h id = none ∨ ∃ t, h id = some t ∧ now - t ≥ 28800000) := by
  obtain ⟨h1, h2, h3, h4⟩ := shouldGenerateNotification_iff h now id
  refine ⟨?_, h2, ?_, ?_⟩
  · rw [h1]
    constructor
    · rintro (a | a | a)
      · exact Or.inl a
      · exact absurd a hrec
      · exact Or.inr a
    · rintro (a | a)
      · exact Or.inl a
      · exact Or.inr (Or.inr a)
  · rw [h3]
    constructor
    · rintro (a | a | a)
      · exact Or.inl a
      · exact absurd a hrec
      · exact Or.inr a
    · rintro (a | a)
      · exact Or.inl a
      · exact Or.inr (Or.inr a)
  · rw [h4]
    constructor
    · rintro (a | a | a)
      · exact Or.inl a
      · exact absurd a hrec
      · exact Or.inr a
    · rintro (a | a)
      · exact Or.inl a
      · exact Or.inr (Or.inr a)

/-- Witness of C1: with `revenue-target` recorded at 1000, the check at 40000 in
AdminDashboard is decided by the 8 hour window. -/
theorem shouldGenerateNotification_spec_witness :
    AdminDashboard.shouldGenerateNotification (fun _ => some 1000) 40000 "revenue-target" =
        true ↔
      (fun _ => some 1000 : History) "revenue-target" = none ∨
        ∃ t, (fun _ => some 1000 : History) "revenue-target" = some t ∧
          40000 - t ≥ AdminDashboard.cooldownWindow "revenue-target" :=
  (shouldGenerateNotification_spec (fun _ => some 1000) 40000 "revenue-target"
    (by simp)).1

/-- C5: `markNotificationGenerated(id)` at time `now` yields a history whose entry for
`id` is `now`, whose entry for every other rule id is unchanged, and in which every rule
that had an entry still has one. -/
theorem markNotificationGenerated_frame (now : ℤ) (prev : History) (id : String) :
    markNotificationGenerated now prev id id = some now ∧
    (∀ k, k ≠ id → markNotificationGenerated now prev id k = prev k) ∧
    (∀ k, prev k ≠ none → markNotificationGenerated now prev id k ≠ none) := by
  refine ⟨by simp [markNotificationGenerated], ?_, ?_⟩
  · intro k hk
    simp [markNotificationGenerated, hk]
  · intro k hk
    by_cases h : k = id
    · simp [markNotificationGenerated, h]
    · simpa [markNotificationGenerated, h] using hk

/-! ## Soundness of the rule blocks of AdminDashboard -/

namespace AdminDashboard

theorem Sound.skip (should : String → Bool) (now : ℤ) (rules : List String) :
    Sound should now rules RuleOut.skip := by
  simp [Sound, RuleOut.skip]

theorem Sound.seq {should : String → Bool} {now : ℤ} {r₁ r₂ : List String} {a b : RuleOut}
    (ha : Sound should now r₁ a) (hb : Sound should now r₂ b) :
    Sound should now (r₁ ++ r₂) (a.seq b) := by
  constructor
  · intro n hn
    simp only [RuleOut.seq, List.mem_append] at hn ⊢
    rcases hn with hn | hn
    · obtain ⟨h1, h2, h3, R, hR, hRn, hRm⟩ := ha.1 n hn
      exact ⟨h1, h2, h3, R, Or.inl hR, hRn, Or.inl hRm⟩
    · obtain ⟨h1, h2, h3, R, hR, hRn, hRm⟩ := hb.1 n hn
      exact ⟨h1, h2, h3, R, Or.inr hR, hRn, Or.inr hRm⟩
  · intro R hR
    simp only [RuleOut.seq, List.mem_append] at hR ⊢
    rcases hR with hR | hR
    · exact ⟨Or.inl (ha.2 R hR).1, (ha.2 R hR).2⟩
    · exact ⟨Or.inr (hb.2 R hR).1, (hb.2 R hR).2⟩

theorem Sound.fire {should : String → Bool} {now : ℤ} {rules : List String}
    (n : Notification) (R : String) (hread : n.read = false) (hts : n.timestamp = now)
    (hid : ∃ pfx, n.id = .tagged pfx now) (hrule : ruleOf n = some R) (hR : R ∈ rules)
    (hs : should R = true) : Sound should now rules (RuleOut.fire n R) := by
  constructor
  · intro m hm
    simp only [RuleOut.fire, List.mem_singleton] at hm
    subst hm
    exact ⟨hread, hts, hid, R, hR, hrule, by simp [RuleOut.fire]⟩
  · intro R' hR'
    simp only [RuleOut.fire, List.mem_singleton] at hR'
    subst hR'
    exact ⟨hR, hs⟩

theorem highRevenueEfficiency_sound (should : String → Bool) (now : ℤ) (d : DashboardData) :
    Sound should now ["high-revenue-efficiency"] (highRevenueEfficiency should now d) := by
  unfold highRevenueEfficiency
  dsimp only
  by_cases h : avgRevenuePerTicket d > 0 ∧ should "high-revenue-efficiency" = true
  · rw [if_pos h]
    exact Sound.fire _ _ rfl rfl ⟨_, rfl⟩ (by simp [ruleOf, ruleOfTag]) (by simp) h.2
  · rw [if_neg h]
    exact Sound.skip _ _ _

theorem dailyTicketGoalRule_sound (should : String → Bool) (now : ℤ) (d : DashboardData) :
    Sound should now ["daily-ticket-goal"] (dailyTicketGoalRule should now d) := by
  unfold dailyTicketGoalRule
  dsimp only
  by_cases h : orZero d.todaysTickets ≥ 0 ∧ should "daily-ticket-goal" = true
  · rw [if_pos h]
    refine Sound.fire _ _ ?_ ?_ ?_ ?_ (by simp) h.2
    · split_ifs <;> rfl
    · split_ifs <;> rfl
    · split_ifs <;> exact ⟨_, rfl⟩
    · split_ifs <;> simp [ruleOf, ruleOfTag]
  · rw [if_neg h]
    exact Sound.skip _ _ _

theorem revenueHealthCheck_sound (should : String → Bool) (now : ℤ) (d : DashboardData) :
    Sound should now ["revenue-health-check"] (revenueHealthCheck should now d) := by
  unfold revenueHealthCheck
  dsimp only
  by_cases h : orZero d.todaysRevenue ≥ 0 ∧ should "revenue-health-check" = true
  · rw [if_pos h]
    exact Sound.fire _ _ rfl rfl ⟨_, rfl⟩ (by simp [ruleOf, ruleOfTag]) (by simp) h.2
  · rw [if_neg h]
    exact Sound.skip _ _ _

theorem revenueTicketComparison_sound (should : String → Bool) (now : ℤ) (d : DashboardData) :
    Sound should now ["revenue-ticket-comparison"] (revenueTicketComparison should now d) := by
  unfold revenueTicketComparison
  dsimp only
  by_cases h : orZero d.todaysTickets > 0 ∧ avgRevenuePerTicket d > 0 ∧
      should "revenue-ticket-comparison" = true
  · rw [if_pos h]
    constructor
    · intro n hn
      by_cases h2 : todaysAvgRevenuePerTicket d > 0
      · rw [if_pos h2] at hn
        simp only [List.mem_singleton] at hn
        subst hn
        exact ⟨rfl, rfl, ⟨_, rfl⟩, "revenue-ticket-comparison", by simp,
          by simp [ruleOf, ruleOfTag], by simp⟩
      · rw [if_neg h2] at hn
        simp at hn
    · intro R hR
      simp only [List.mem_singleton] at hR
      subst hR
      exact ⟨by simp, h.2.2⟩
  · rw [if_neg h]
    exact Sound.skip _ _ _

theorem totalRevenueMilestone_sound (should : String → Bool) (now : ℤ) (d : DashboardData) :
    Sound should now ["total-revenue-milestone"] (totalRevenueMilestone should now d) := by
  unfold totalRevenueMilestone
  dsimp only
  by_cases h : orZero d.totalRevenue > 0 ∧ should "total-revenue-milestone" = true
  · rw [if_pos h]
    cases hm : crossedMilestone (orZero d.totalRevenue) with
    | none =>
      exact Sound.fire _ _ rfl rfl ⟨_, rfl⟩ (by simp [ruleOf, ruleOfTag]) (by simp) h.2
    | some m =>
      exact Sound.fire _ _ rfl rfl ⟨_, rfl⟩
        (by simp [ruleOf, ruleOfTag, milestoneNotification]) (by simp) h.2
  · rw [if_neg h]
    exact Sound.skip _ _ _

theorem ticketVolumeAnalysis_sound (should : String → Bool) (now : ℤ) (d : DashboardData) :
    Sound should now ["ticket-volume-analysis"] (ticketVolumeAnalysis should now d) := by
  unfold ticketVolumeAnalysis
  dsimp only
  by_cases h : orZero d.totalTickets > 0 ∧ should "ticket-volume-analysis" = true
  · rw [if_pos h]
    exact Sound.fire _ _ rfl rfl ⟨_, rfl⟩ (by simp [ruleOf, ruleOfTag]) (by simp) h.2
  · rw [if_neg h]
    exact Sound.skip _ _ _

theorem revenueTargetRules_sound (should : String → Bool) (now : ℤ) (d : DashboardData) :
    Sound should now ["revenue-target", "revenue-low"] (revenueTargetRules should now d) := by
  unfold revenueTargetRules
  cases hr : d.todaysRevenue with
  | none => exact Sound.skip _ _ _
  | some r =>
    dsimp only
    by_cases h0 : r > 0
    · rw [if_pos h0]
      by_cases h1 : r ≥ targetRevenue ∧ should "revenue-target" = true
      · rw [if_pos h1]
        exact Sound.fire _ _ rfl rfl ⟨_, rfl⟩ (by simp [ruleOf, ruleOfTag, plain]) (by simp) h1.2
      · rw [if_neg h1]
        by_cases h2 : r < targetRevenue * (1 / 2) ∧ should "revenue-low" = true
        · rw [if_pos h2]
          exact Sound.fire _ _ rfl rfl ⟨_, rfl⟩ (by simp [ruleOf, ruleOfTag, plain]) (by simp)
            h2.2
        · rw [if_neg h2]
          exact Sound.skip _ _ _
    · rw [if_neg h0]
      exact Sound.skip _ _ _

theorem ticketSalesRules_sound (should : String → Bool) (now : ℤ) (d : DashboardData) :
    Sound should now ["tickets-high", "tickets-low"] (ticketSalesRules should now d) := by
  unfold ticketSalesRules
  cases ht : d.todaysTickets with
  | none => exact Sound.skip _ _ _
  | some t =>
    dsimp only
    by_cases h1 : (((JSNum.ofField d.totalTickets).divPos 30).mulPos (6 / 5)).lt t = true ∧
        should "tickets-high" = true
    · rw [if_pos h1]
      exact Sound.fire _ _ rfl rfl ⟨_, rfl⟩ (by simp [ruleOf, ruleOfTag, plain]) (by simp) h1.2
    · rw [if_neg h1]
      by_cases h2 : (((JSNum.ofField d.totalTickets).divPos 30).mulPos (4 / 5)).gt t = true ∧
          t > 0 ∧ should "tickets-low" = true
      · rw [if_pos h2]
        exact Sound.fire _ _ rfl rfl ⟨_, rfl⟩ (by simp [ruleOf, ruleOfTag, plain]) (by simp)
          h2.2.2
      · rw [if_neg h2]
        exact Sound.skip _ _ _

theorem driverUtilizationRules_sound (should : String → Bool) (now : ℤ) (d : DashboardData) :
    Sound should now ["unassigned-drivers", "driver-utilization-low", "driver-shortage"]
      (driverUtilizationRules should now d) := by
  unfold driverUtilizationRules
  cases hdr : d.driversRegistered with
  | none => exact Sound.skip _ _ _
  | some dr =>
    cases had : d.assignedDrivers with
    | none => exact Sound.skip _ _ _
    | some ad =>
      dsimp only
      by_cases h0 : dr ≠ 0 ∧ ad ≠ 0
      · rw [if_pos h0]
        refine @Sound.seq _ _ ["unassigned-drivers"]
          ["driver-utilization-low", "driver-shortage"] _ _ ?_ ?_
        · by_cases h1 : dr - ad > 3 ∧ should "unassigned-drivers" = true
          · rw [if_pos h1]
            exact Sound.fire _ _ rfl rfl ⟨_, rfl⟩ (by simp [ruleOf, ruleOfTag, plain])
              (by simp) h1.2
          · rw [if_neg h1]
            exact Sound.skip _ _ _
        · by_cases h2 : utilizationRate dr ad < 70 ∧ dr > 5 ∧
              should "driver-utilization-low" = true
          · rw [if_pos h2]
            exact Sound.fire _ _ rfl rfl ⟨_, rfl⟩ (by simp [ruleOf, ruleOfTag, plain])
              (by simp) h2.2.2
          · rw [if_neg h2]
            by_cases h3 : utilizationRate dr ad > 95 ∧ dr > 5 ∧ should "driver-shortage" = true
            · rw [if_pos h3]
              exact Sound.fire _ _ rfl rfl ⟨_, rfl⟩ (by simp [ruleOf, ruleOfTag, plain])
                (by simp) h3.2.2
            · rw [if_neg h3]
              exact Sound.skip _ _ _
      · rw [if_neg h0]
        exact Sound.skip _ _ _

theorem vehicleUtilizationRules_sound (should : String → Bool) (now : ℤ) (d : DashboardData) :
    Sound should now ["unused-vehicles", "vehicle-shortage"]
      (vehicleUtilizationRules should now d) := by
  unfold vehicleUtilizationRules
  cases htv : d.totalVehicles with
  | none => exact Sound.skip _ _ _
  | some tv =>
    cases had : d.assignedDrivers with
    | none => exact Sound.skip _ _ _
    | some ad =>
      dsimp only
      by_cases h0 : tv ≠ 0 ∧ ad ≠ 0
      · rw [if_pos h0]
        refine @Sound.seq _ _ ["unused-vehicles"] ["vehicle-shortage"] _ _ ?_ ?_
        · by_cases h1 : tv - ad > 0 ∧ should "unused-vehicles" = true
          · rw [if_pos h1]
            exact Sound.fire _ _ rfl rfl ⟨_, rfl⟩ (by simp [ruleOf, ruleOfTag, plain])
              (by simp) h1.2
          · rw [if_neg h1]
            exact Sound.skip _ _ _
        · by_cases h2 : ad > tv ∧ should "vehicle-shortage" = true
          · rw [if_pos h2]
            exact Sound.fire _ _ rfl rfl ⟨_, rfl⟩ (by simp [ruleOf, ruleOfTag, plain])
              (by simp) h2.2
          · rw [if_neg h2]
            exact Sound.skip _ _ _
      · rw [if_neg h0]
        exact Sound.skip _ _ _

/-- Every rule id a pass of AdminDashboard can mark, in program order. -/
theorem evaluateRules_sound (h : History) (now : ℤ) (d : DashboardData) :
    Sound (shouldGenerateNotification h now) now ruleIds (evaluateRules h now d) := by
  unfold evaluateRules
  exact Sound.seq (highRevenueEfficiency_sound _ _ _) <|
    Sound.seq (dailyTicketGoalRule_sound _ _ _) <|
    Sound.seq (revenueHealthCheck_sound _ _ _) <|
    Sound.seq (revenueTicketComparison_sound _ _ _) <|
    Sound.seq (totalRevenueMilestone_sound _ _ _) <|
    Sound.seq (ticketVolumeAnalysis_sound _ _ _) <|
    Sound.seq (revenueTargetRules_sound _ _ _) <|
    Sound.seq (ticketSalesRules_sound _ _ _) <|
    Sound.seq (driverUtilizationRules_sound _ _ _) (vehicleUtilizationRules_sound _ _ _)

/-! ## Facts about one pass of AdminDashboard -/

theorem foldl_markNotificationGenerated (now : ℤ) (l : List String) (h : History)
    (k : String) :
    (l.foldl (markNotificationGenerated now) h) k = if k ∈ l then some now else h k := by
  induction l generalizing h with
  | nil => simp
  | cons a l ih =>
    rw [List.foldl_cons, ih]
    by_cases hk : k ∈ l
    · simp [hk]
    · by_cases hka : k = a
      · simp [hk, hka, markNotificationGenerated]
      · simp [hk, hka, markNotificationGenerated]

theorem notificationEffect_history (now : ℤ) (dd : Option DashboardData) (s : State)
    (k : String) :
    (notificationEffect now dd s).notificationHistory k =
      if k ∈ markedRules s now dd then some now else s.notificationHistory k := by
  cases dd with
  | none => simp [notificationEffect, markedRules]
  | some d =>
    unfold notificationEffect markedRules
    dsimp only
    by_cases hg : gateClosed s now = true
    · simp [hg]
    · simp only [hg, if_false, Bool.false_eq_true]
      split_ifs <;> simp [foldl_markNotificationGenerated] <;> simp_all

theorem markedRules_should {s : State} {now : ℤ} {dd : Option DashboardData} {R : String}
    (hR : R ∈ markedRules s now dd) :
    shouldGenerateNotification s.notificationHistory now R = true := by
  cases dd with
  | none => simp [markedRules] at hR
  | some d =>
    unfold markedRules at hR
    dsimp only at hR
    by_cases hg : gateClosed s now = true
    · simp [hg] at hR
    · simp only [hg, if_false, Bool.false_eq_true] at hR
      exact ((evaluateRules_sound s.notificationHistory now d).2 R hR).2

theorem newNotifications_sound {s : State} {now : ℤ} {dd : Option DashboardData}
    {n : Notification} (hn : n ∈ newNotifications s now dd) :
    n.read = false ∧ n.timestamp = now ∧ (∃ pfx, n.id = .tagged pfx now) ∧
      ∃ R ∈ ruleIds, ruleOf n = some R ∧ R ∈ markedRules s now dd := by
  cases dd with
  | none => simp [newNotifications] at hn
  | some d =>
    unfold newNotifications at hn
    unfold markedRules
    dsimp only at hn ⊢
    by_cases hg : gateClosed s now = true
    · simp [hg] at hn
    · simp only [hg, if_false, Bool.false_eq_true] at hn ⊢
      exact (evaluateRules_sound s.notificationHistory now d).1 n hn

theorem shouldGenerateNotification_recent {h : History} {now T : ℤ} {R : String}
    (hR : h R = some T) (hT : T ≠ 0) (hlt : now - T < cooldownWindow R) :
    shouldGenerateNotification h now R = false := by
  unfold shouldGenerateNotification
  unfold cooldownWindow at hlt
  by_cases ha : R ∈ analyticsTypes
  · simp only [ha, if_true] at hlt
    simp [ha, hR, hT, hlt]
  · simp only [ha, if_false] at hlt
    simp [ha, hR, hT, NOTIFICATION_COOLDOWN, hlt]

theorem shouldGenerateNotification_elapsed {h : History} {now T : ℤ} {R : String}
    (hR : h R = some T) (hge : now - T ≥ cooldownWindow R) :
    shouldGenerateNotification h now R = true := by
  unfold shouldGenerateNotification
  unfold cooldownWindow at hge
  by_cases ha : R ∈ analyticsTypes
  · simp only [ha, if_true] at hge
    by_cases hT : T = 0
    · simp [ha, hR, hT]
    · simp [ha, hR, hT, hge]
  · simp only [ha, if_false] at hge
    by_cases hT : T = 0
    · simp [ha, hR, hT]
    · simp [ha, hR, hT, NOTIFICATION_COOLDOWN, hge]

/-- A handler call leaves the cooldown history and `lastNotificationCheck` alone. -/
theorem step_history_of_not_pass (s : State) (op : Op) (hop : ∀ u dd, op ≠ Op.pass u dd) :
    (step s op).notificationHistory = s.notificationHistory ∧
    (step s op).lastNotificationCheck = s.lastNotificationCheck := by
  cases op with
  | mount now tokenRejected => cases tokenRejected <;> exact ⟨rfl, rfl⟩
  | pass u dd => exact absurd rfl (hop u dd)
  | add now type message => exact ⟨rfl, rfl⟩
  | read id => exact ⟨rfl, rfl⟩
  | readAll => exact ⟨rfl, rfl⟩
  | delete id => exact ⟨rfl, rfl⟩

/-- While every pass runs less than the window after `T`, a record `T ≠ 0` of rule `R`
stays in the history. -/
theorem run_keeps_record (R : String) (T : ℤ) (hT : T ≠ 0) (ops : List Op) (s : State)
    (hs : s.notificationHistory R = some T)
    (hops : ∀ u dd, Op.pass u dd ∈ ops → u - T < cooldownWindow R) :
    (run s ops).notificationHistory R = some T := by
  induction ops generalizing s with
  | nil => simpa [run] using hs
  | cons op ops ih =>
    have hstep : (step s op).notificationHistory R = some T := by
      cases op with
      | pass u dd =>
        have hlt : u - T < cooldownWindow R := hops u dd (by simp)
        have hnot : R ∉ markedRules s u dd := by
          intro hm
          have h1 := markedRules_should hm
          rw [shouldGenerateNotification_recent hs hT hlt] at h1
          exact absurd h1 (by simp)
        simp only [step]
        rw [notificationEffect_history, if_neg hnot]
        exact hs
      | mount now tokenRejected => cases tokenRejected <;> exact hs
      | add now type message => exact hs
      | read id => exact hs
      | readAll => exact hs
      | delete id => exact hs
    have := ih (step s op) hstep (fun u dd hmem => hops u dd (List.mem_cons_of_mem _ hmem))
    simpa [run] using this

/-! ## Completeness of the rule blocks: a rule whose condition and cooldown check hold pushes -/

theorem highRevenueEfficiency_fires (should : String → Bool) (now : ℤ) (d : DashboardData)
    (hc : avgRevenuePerTicket d > 0) (hs : should "high-revenue-efficiency" = true) :
    ∃ n ∈ (highRevenueEfficiency should now d).pushed,
      ruleOf n = some "high-revenue-efficiency" := by
  unfold highRevenueEfficiency
  dsimp only
  rw [if_pos ⟨hc, hs⟩]
  exact ⟨_, List.mem_singleton_self _, by simp [ruleOf, ruleOfTag]⟩

theorem dailyTicketGoalRule_fires (should : String → Bool) (now : ℤ) (d : DashboardData)
    (hc : orZero d.todaysTickets ≥ 0) (hs : should "daily-ticket-goal" = true) :
    ∃ n ∈ (dailyTicketGoalRule should now d).pushed, ruleOf n = some "daily-ticket-goal" := by
  unfold dailyTicketGoalRule
  dsimp only
  rw [if_pos ⟨hc, hs⟩]
  refine ⟨_, List.mem_singleton_self _, ?_⟩
  split_ifs <;> simp [ruleOf, ruleOfTag]

theorem revenueHealthCheck_fires (should : String → Bool) (now : ℤ) (d : DashboardData)
    (hc : orZero d.todaysRevenue ≥ 0) (hs : should "revenue-health-check" = true) :
    ∃ n ∈ (revenueHealthCheck should now d).pushed,
      ruleOf n = some "revenue-health-check" := by
  unfold revenueHealthCheck
  dsimp only
  rw [if_pos ⟨hc, hs⟩]
  exact ⟨_, List.mem_singleton_self _, by simp [ruleOf, ruleOfTag]⟩

theorem revenueTicketComparison_fires (should : String → Bool) (now : ℤ) (d : DashboardData)
    (hc : orZero d.todaysTickets > 0 ∧ avgRevenuePerTicket d > 0 ∧
      todaysAvgRevenuePerTicket d > 0)
    (hs : should "revenue-ticket-comparison" = true) :
    ∃ n ∈ (revenueTicketComparison should now d).pushed,
      ruleOf n = some "revenue-ticket-comparison" := by
  unfold revenueTicketComparison
  dsimp only
  rw [if_pos ⟨hc.1, hc.2.1, hs⟩]
  dsimp only
  rw [if_pos hc.2.2]
  exact ⟨_, List.mem_singleton_self _, by simp [ruleOf, ruleOfTag]⟩

theorem totalRevenueMilestone_fires (should : String → Bool) (now : ℤ) (d : DashboardData)
    (hc : orZero d.totalRevenue > 0) (hs : should "total-revenue-milestone" = true) :
    ∃ n ∈ (totalRevenueMilestone should now d).pushed,
      ruleOf n = some "total-revenue-milestone" := by
  unfold totalRevenueMilestone
  dsimp only
  rw [if_pos ⟨hc, hs⟩]
  cases crossedMilestone (orZero d.totalRevenue) with
  | none => exact ⟨_, List.mem_singleton_self _, by simp [ruleOf, ruleOfTag]⟩
  | some m =>
    exact ⟨_, List.mem_singleton_self _, by simp [ruleOf, ruleOfTag, milestoneNotification]⟩

theorem ticketVolumeAnalysis_fires (should : String → Bool) (now : ℤ) (d : DashboardData)
    (hc : orZero d.totalTickets > 0) (hs : should "ticket-volume-analysis" = true) :
    ∃ n ∈ (ticketVolumeAnalysis should now d).pushed,
      ruleOf n = some "ticket-volume-analysis" := by
  unfold ticketVolumeAnalysis
  dsimp only
  rw [if_pos ⟨hc, hs⟩]
  exact ⟨_, List.mem_singleton_self _, by simp [ruleOf, ruleOfTag]⟩

theorem revenueTarget_fires (should : String → Bool) (now : ℤ) (d : DashboardData) (r : ℚ)
    (hr : d.todaysRevenue = some r) (hc : r > 0 ∧ r ≥ targetRevenue)
    (hs : should "revenue-target" = true) :
    ∃ n ∈ (revenueTargetRules should now d).pushed, ruleOf n = some "revenue-target" := by
  unfold revenueTargetRules
  rw [hr]
  dsimp only
  rw [if_pos hc.1, if_pos ⟨hc.2, hs⟩]
  exact ⟨_, List.mem_singleton_self _, by simp [ruleOf, ruleOfTag, plain]⟩

theorem revenueLow_fires (should : String → Bool) (now : ℤ) (d : DashboardData) (r : ℚ)
    (hr : d.todaysRevenue = some r) (hc : r > 0 ∧ r < targetRevenue * (1 / 2))
    (hs : should "revenue-low" = true) :
    ∃ n ∈ (revenueTargetRules should now d).pushed, ruleOf n = some "revenue-low" := by
  unfold revenueTargetRules
  rw [hr]
  dsimp only
  have h1 : ¬ (r ≥ targetRevenue ∧ should "revenue-target" = true) := by
    rintro ⟨h, _⟩
    have := hc.2
    unfold targetRevenue at h this
    linarith
  rw [if_pos hc.1, if_neg h1, if_pos ⟨hc.2, hs⟩]
  exact ⟨_, List.mem_singleton_self _, by simp [ruleOf, ruleOfTag, plain]⟩

theorem ticketsHigh_fires (should : String → Bool) (now : ℤ) (d : DashboardData) (t : ℚ)
    (ht : d.todaysTickets = some t)
    (hc : (((JSNum.ofField d.totalTickets).divPos 30).mulPos (6 / 5)).lt t = true)
    (hs : should "tickets-high" = true) :
    ∃ n ∈ (ticketSalesRules should now d).pushed, ruleOf n = some "tickets-high" := by
  unfold ticketSalesRules
  rw [ht]
  dsimp only
  rw [if_pos ⟨hc, hs⟩]
  exact ⟨_, List.mem_singleton_self _, by simp [ruleOf, ruleOfTag, plain]⟩

theorem ticketsLow_fires (should : String → Bool) (now : ℤ) (d : DashboardData) (t : ℚ)
    (ht : d.todaysTickets = some t)
    (hc : (((JSNum.ofField d.totalTickets).divPos 30).mulPos (4 / 5)).gt t = true ∧ t > 0)
    (hs : should "tickets-low" = true) :
    ∃ n ∈ (ticketSalesRules should now d).pushed, ruleOf n = some "tickets-low" := by
  unfold ticketSalesRules
  rw [ht]
  dsimp only
  have h1 : ¬ ((((JSNum.ofField d.totalTickets).divPos 30).mulPos (6 / 5)).lt t = true ∧
      should "tickets-high" = true) := by
    rintro ⟨h, _⟩
    obtain ⟨hgt, hpos⟩ := hc
    cases htt : d.totalTickets with
    | none => simp [htt, JSNum.ofField, JSNum.divPos, JSNum.mulPos, JSNum.gt] at hgt
    | some q =>
      simp only [htt, JSNum.ofField, JSNum.divPos, JSNum.mulPos, JSNum.gt, JSNum.lt,
        decide_eq_true_eq] at hgt h
      linarith
  rw [if_neg h1, if_pos ⟨hc.1, hc.2, hs⟩]
  exact ⟨_, List.mem_singleton_self _, by simp [ruleOf, ruleOfTag, plain]⟩

theorem unassignedDrivers_fires (should : String → Bool) (now : ℤ) (d : DashboardData)
    (dr ad : ℚ) (hdr : d.driversRegistered = some dr) (had : d.assignedDrivers = some ad)
    (hc : dr ≠ 0 ∧ ad ≠ 0 ∧ dr - ad > 3) (hs : should "unassigned-drivers" = true) :
    ∃ n ∈ (driverUtilizationRules should now d).pushed,
      ruleOf n = some "unassigned-drivers" := by
  unfold driverUtilizationRules
  rw [hdr, had]
  dsimp only
  rw [if_pos ⟨hc.1, hc.2.1⟩, if_pos ⟨hc.2.2, hs⟩]
  exact ⟨_, List.mem_append_left _ (List.mem_singleton_self _),
    by simp [ruleOf, ruleOfTag, plain]⟩

theorem driverUtilizationLow_fires (should : String → Bool) (now : ℤ) (d : DashboardData)
    (dr ad : ℚ) (hdr : d.driversRegistered = some dr) (had : d.assignedDrivers = some ad)
    (hc : dr ≠ 0 ∧ ad ≠ 0 ∧ utilizationRate dr ad < 70 ∧ dr > 5)
    (hs : should "driver-utilization-low" = true) :
    ∃ n ∈ (driverUtilizationRules should now d).pushed,
      ruleOf n = some "driver-utilization-low" := by
  unfold driverUtilizationRules
  rw [hdr, had]
  dsimp only
  have hB : utilizationRate dr ad < 70 ∧ dr > 5 ∧ should "driver-utilization-low" = true :=
    ⟨hc.2.2.1, hc.2.2.2, hs⟩
  rw [if_pos ⟨hc.1, hc.2.1⟩, if_pos hB]
  exact ⟨_, List.mem_append_right _ (List.mem_singleton_self _),
    by simp [ruleOf, ruleOfTag, plain]⟩

theorem driverShortage_fires (should : String → Bool) (now : ℤ) (d : DashboardData)
    (dr ad : ℚ) (hdr : d.driversRegistered = some dr) (had : d.assignedDrivers = some ad)
    (hc : dr ≠ 0 ∧ ad ≠ 0 ∧ utilizationRate dr ad > 95 ∧ dr > 5)
    (hs : should "driver-shortage" = true) :
    ∃ n ∈ (driverUtilizationRules should now d).pushed,
      ruleOf n = some "driver-shortage" := by
  unfold driverUtilizationRules
  rw [hdr, had]
  dsimp only
  have h1 : ¬ (utilizationRate dr ad < 70 ∧ dr > 5 ∧
      should "driver-utilization-low" = true) := by
    rintro ⟨h, _⟩
    have := hc.2.2.1
    linarith
  have hB : utilizationRate dr ad > 95 ∧ dr > 5 ∧ should "driver-shortage" = true :=
    ⟨hc.2.2.1, hc.2.2.2, hs⟩
  rw [if_pos ⟨hc.1, hc.2.1⟩, if_neg h1, if_pos hB]
  exact ⟨_, List.mem_append_right _ (List.mem_singleton_self _),
    by simp [ruleOf, ruleOfTag, plain]⟩

theorem unusedVehicles_fires (should : String → Bool) (now : ℤ) (d : DashboardData)
    (tv ad : ℚ) (htv : d.totalVehicles = some tv) (had : d.assignedDrivers = some ad)
    (hc : tv ≠ 0 ∧ ad ≠ 0 ∧ tv - ad > 0) (hs : should "unused-vehicles" = true) :
    ∃ n ∈ (vehicleUtilizationRules should now d).pushed,
      ruleOf n = some "unused-vehicles" := by
  unfold vehicleUtilizationRules
  rw [htv, had]
  dsimp only
  rw [if_pos ⟨hc.1, hc.2.1⟩, if_pos ⟨hc.2.2, hs⟩]
  exact ⟨_, List.mem_append_left _ (List.mem_singleton_self _),
    by simp [ruleOf, ruleOfTag, plain]⟩

theorem vehicleShortage_fires (should : String → Bool) (now : ℤ) (d : DashboardData)
    (tv ad : ℚ) (htv : d.totalVehicles = some tv) (had : d.assignedDrivers = some ad)
    (hc : tv ≠ 0 ∧ ad ≠ 0 ∧ ad > tv) (hs : should "vehicle-shortage" = true) :
    ∃ n ∈ (vehicleUtilizationRules should now d).pushed,
      ruleOf n = some "vehicle-shortage" := by
  unfold vehicleUtilizationRules
  rw [htv, had]
  dsimp only
  have hB : ad > tv ∧ should "vehicle-shortage" = true := ⟨hc.2.2, hs⟩
  rw [if_pos ⟨hc.1, hc.2.1⟩, if_pos hB]
  exact ⟨_, List.mem_append_right _ (List.mem_singleton_self _),
    by simp [ruleOf, ruleOfTag, plain]⟩

theorem evaluateRules_pushed (h : History) (now : ℤ) (d : DashboardData) :
    (evaluateRules h now d).pushed =
      (highRevenueEfficiency (shouldGenerateNotification h now) now d).pushed ++
      ((dailyTicketGoalRule (shouldGenerateNotification h now) now d).pushed ++
      ((revenueHealthCheck (shouldGenerateNotification h now) now d).pushed ++
      ((revenueTicketComparison (shouldGenerateNotification h now) now d).pushed ++
      ((totalRevenueMilestone (shouldGenerateNotification h now) now d).pushed ++
      ((ticketVolumeAnalysis (shouldGenerateNotification h now) now d).pushed ++
      ((revenueTargetRules (shouldGenerateNotification h now) now d).pushed ++
      ((ticketSalesRules (shouldGenerateNotification h now) now d).pushed ++
      ((driverUtilizationRules (shouldGenerateNotification h now) now d).pushed ++
      (vehicleUtilizationRules (shouldGenerateNotification h now) now d).pushed)))))))) :=
  rfl

theorem ruleCondition_mem (R : String) (d : DashboardData) (hc : ruleCondition R d = true) :
    R ∈ ruleIds := by
  by_contra h
  simp only [ruleIds, List.mem_cons, not_or, List.mem_singleton, List.not_mem_nil,
    not_false_eq_true, and_true] at h
  obtain ⟨n1, n2, n3, n4, n5, n6, n7, n8, n9, n10, n11, n12, n13, n14, n15⟩ := h
  unfold ruleCondition at hc
  rw [if_neg n1, if_neg n2, if_neg n3, if_neg n4, if_neg n5, if_neg n6, if_neg n7, if_neg n8,
    if_neg n9, if_neg n10, if_neg n11, if_neg n12, if_neg n13, if_neg n14, if_neg n15] at hc
  exact absurd hc (by simp)

/-- A rule whose trigger condition holds and whose cooldown check passes pushes a
notification in the pass. -/
theorem evaluateRules_fires (h : History) (now : ℤ) (d : DashboardData) (R : String)
    (hc : ruleCondition R d = true) (hs : shouldGenerateNotification h now R = true) :
    ∃ n ∈ (evaluateRules h now d).pushed, ruleOf n = some R := by
  rw [evaluateRules_pushed]
  simp only [List.mem_append]
  have hR := ruleCondition_mem R d hc
  simp only [ruleIds, List.mem_cons, List.mem_singleton, List.not_mem_nil, or_false] at hR
  rcases hR with rfl | rfl | rfl | rfl | rfl | rfl | rfl | rfl | rfl | rfl | rfl | rfl | rfl |
    rfl | rfl
  · simp only [ruleCondition, String.reduceEq, if_true, if_false] at hc
    obtain ⟨n, hn, hr⟩ := highRevenueEfficiency_fires _ now d (by simpa using hc) hs
    exact ⟨n, by tauto, hr⟩
  · simp only [ruleCondition, String.reduceEq, if_true, if_false] at hc
    obtain ⟨n, hn, hr⟩ := dailyTicketGoalRule_fires _ now d (by simpa using hc) hs
    exact ⟨n, by tauto, hr⟩
  · simp only [ruleCondition, String.reduceEq, if_true, if_false] at hc
    obtain ⟨n, hn, hr⟩ := revenueHealthCheck_fires _ now d (by simpa using hc) hs
    exact ⟨n, by tauto, hr⟩
  · simp only [ruleCondition, String.reduceEq, if_true, if_false] at hc
    obtain ⟨n, hn, hr⟩ := revenueTicketComparison_fires _ now d (by simpa using hc) hs
    exact ⟨n, by tauto, hr⟩
  · simp only [ruleCondition, String.reduceEq, if_true, if_false] at hc
    obtain ⟨n, hn, hr⟩ := totalRevenueMilestone_fires _ now d (by simpa using hc) hs
    exact ⟨n, by tauto, hr⟩
  · simp only [ruleCondition, String.reduceEq, if_true, if_false] at hc
    obtain ⟨n, hn, hr⟩ := ticketVolumeAnalysis_fires _ now d (by simpa using hc) hs
    exact ⟨n, by tauto, hr⟩
  · simp only [ruleCondition, String.reduceEq, if_true, if_false] at hc
    cases hf : d.todaysRevenue with
    | none => simp [hf] at hc
    | some r =>
      obtain ⟨n, hn, hr⟩ := revenueTarget_fires _ now d r hf (by simpa [hf] using hc) hs
      exact ⟨n, by tauto, hr⟩
  · simp only [ruleCondition, String.reduceEq, if_true, if_false] at hc
    cases hf : d.todaysRevenue with
    | none => simp [hf] at hc
    | some r =>
      obtain ⟨n, hn, hr⟩ := revenueLow_fires _ now d r hf (by simpa [hf] using hc) hs
      exact ⟨n, by tauto, hr⟩
  · simp only [ruleCondition, String.reduceEq, if_true, if_false] at hc
    cases hf : d.todaysTickets with
    | none => simp [hf] at hc
    | some t =>
      obtain ⟨n, hn, hr⟩ := ticketsHigh_fires _ now d t hf (by simpa [hf] using hc) hs
      exact ⟨n, by tauto, hr⟩
  · simp only [ruleCondition, String.reduceEq, if_true, if_false] at hc
    cases hf : d.todaysTickets with
    | none => simp [hf] at hc
    | some t =>
      obtain ⟨n, hn, hr⟩ := ticketsLow_fires _ now d t hf (by simpa [hf] using hc) hs
      exact ⟨n, by tauto, hr⟩
  · simp only [ruleCondition, String.reduceEq, if_true, if_false] at hc
    cases hf : d.driversRegistered with
    | none => simp [hf] at hc
    | some dr =>
      cases had : d.assignedDrivers with
      | none => simp [hf, had] at hc
      | some ad =>
        obtain ⟨n, hn, hr⟩ := unassignedDrivers_fires _ now d dr ad hf had (by simpa [hf, had] using hc) hs
        exact ⟨n, by tauto, hr⟩
  · simp only [ruleCondition, String.reduceEq, if_true, if_false] at hc
    cases hf : d.driversRegistered with
    | none => simp [hf] at hc
    | some dr =>
      cases had : d.assignedDrivers with
      | none => simp [hf, had] at hc
      | some ad =>
        obtain ⟨n, hn, hr⟩ := driverUtilizationLow_fires _ now d dr ad hf had (by simpa [hf, had] using hc) hs
        exact ⟨n, by tauto, hr⟩
  · simp only [ruleCondition, String.reduceEq, if_true, if_false] at hc
    cases hf : d.driversRegistered with
    | none => simp [hf] at hc
    | some dr =>
      cases had : d.assignedDrivers with
      | none => simp [hf, had] at hc
      | some ad =>
        obtain ⟨n, hn, hr⟩ := driverShortage_fires _ now d dr ad hf had (by simpa [hf, had] using hc) hs
        exact ⟨n, by tauto, hr⟩
  · simp only [ruleCondition, String.reduceEq, if_true, if_false] at hc
    cases hf : d.totalVehicles with
    | none => simp [hf] at hc
    | some tv =>
      cases had : d.assignedDrivers with
      | none => simp [hf, had] at hc
      | some ad =>
        obtain ⟨n, hn, hr⟩ := unusedVehicles_fires _ now d tv ad hf had (by simpa [hf, had] using hc) hs
        exact ⟨n, by tauto, hr⟩
  · simp only [ruleCondition, String.reduceEq, if_true, if_false] at hc
    cases hf : d.totalVehicles with
    | none => simp [hf] at hc
    | some tv =>
      cases had : d.assignedDrivers with
      | none => simp [hf, had] at hc
      | some ad =>
        obtain ⟨n, hn, hr⟩ := vehicleShortage_fires _ now d tv ad hf had (by simpa [hf, had] using hc) hs
        exact ⟨n, by tauto, hr⟩

/-! ## Cooldown exclusivity and release (C2, C3) -/

/-- C2: cooldown exclusivity in AdminDashboard.  If rule `R` fires in a pass at time `T`
(it is marked, or a notification of it is pushed), `T` being a `Date.now()` reading and
hence not 0, then after any sequence of later events whose passes all run less than
`window(R)` after `T`, a pass at a time `T'` with `T' - T < window(R)` produces no
notification of `R`, whatever the snapshots are. -/
theorem cooldown_exclusivity (R : String) (T : ℤ) (hT : T ≠ 0) (s : State)
    (dd : Option DashboardData)
    (hfire : R ∈ markedRules s T dd ∨ ∃ n ∈ newNotifications s T dd, ruleOf n = some R)
    (ops : List Op) (hops : ∀ u du, Op.pass u du ∈ ops → u - T < cooldownWindow R)
    (T' : ℤ) (dd' : Option DashboardData) (hT' : T' - T < cooldownWindow R) :
    (∀ n ∈ newNotifications (run (notificationEffect T dd s) ops) T' dd', ruleOf n ≠ some R) ∧
    R ∉ markedRules (run (notificationEffect T dd s) ops) T' dd' := by
  have hmark : R ∈ markedRules s T dd := by
    rcases hfire with h | ⟨n, hn, hR⟩
    · exact h
    · obtain ⟨_, _, _, R', _, hR', hm⟩ := newNotifications_sound hn
      rw [hR] at hR'
      cases hR'
      exact hm
  have hrec : (notificationEffect T dd s).notificationHistory R = some T := by
    rw [notificationEffect_history, if_pos hmark]
  have hkeep := run_keeps_record R T hT ops _ hrec hops
  have hnot : R ∉ markedRules (run (notificationEffect T dd s) ops) T' dd' := by
    intro hm
    have h1 := markedRules_should hm
    rw [shouldGenerateNotification_recent hkeep hT hT'] at h1
    exact absurd h1 (by simp)
  refine ⟨?_, hnot⟩
  intro n hn hR
  obtain ⟨_, _, _, R', _, hR', hm⟩ := newNotifications_sound hn
  rw [hR] at hR'
  cases hR'
  exact hnot hm

/-- Witness of C2: `total-revenue-milestone` fires at time 1000 from the initial state;
after a pass at 2000, the pass at 3000 produces no notification of it. -/
theorem cooldown_exclusivity_witness :
    (∀ n ∈ newNotifications
        (run (notificationEffect 1000 (some ⟨some 20000, none, none, none, none, none, none⟩)
          State.init)
          [Op.pass 2000 (some ⟨some 20000, none, none, none, none, none, none⟩)])
        3000 (some ⟨some 20000, none, none, none, none, none, none⟩),
      ruleOf n ≠ some "total-revenue-milestone") ∧
    "total-revenue-milestone" ∉ markedRules
        (run (notificationEffect 1000 (some ⟨some 20000, none, none, none, none, none, none⟩)
          State.init)
          [Op.pass 2000 (some ⟨some 20000, none, none, none, none, none, none⟩)])
        3000 (some ⟨some 20000, none, none, none, none, none, none⟩) :=
  cooldown_exclusivity "total-revenue-milestone" 1000 (by decide) State.init
    (some ⟨some 20000, none, none, none, none, none, none⟩) (Or.inl (by decide!))
    [Op.pass 2000 (some ⟨some 20000, none, none, none, none, none, none⟩)]
    (by
      intro u du hmem
      simp only [List.mem_singleton, Op.pass.injEq] at hmem
      obtain ⟨rfl, _⟩ := hmem
      decide)
    3000 (some ⟨some 20000, none, none, none, none, none, none⟩) (by decide)

/-- C3, as stated, fails: the pass gate can skip the first pass on which the window has
elapsed.  `revenue-target` (window 28800000 ms) fires at time 1000 on a snapshot with
`todaysRevenue = 12000`; a pass at 28791000 runs before the window has elapsed; the pass at
28801000 is the first with `T' - T >= W` and the condition holds on it, yet it starts
10000 ms after the previous pass, is skipped by the gate and produces nothing. -/
theorem cooldown_release_blocked_by_gate :
    (run State.init
        [Op.pass 1000 (some ⟨none, none, some 12000, none, none, none, none⟩),
         Op.pass 28791000 (some ⟨none, none, some 12000, none, none, none, none⟩)]
      ).notificationHistory "revenue-target" = some 1000 ∧
    (28791000 : ℤ) - 1000 < cooldownWindow "revenue-target" ∧
    (28801000 : ℤ) - 1000 ≥ cooldownWindow "revenue-target" ∧
    ruleCondition "revenue-target" ⟨none, none, some 12000, none, none, none, none⟩ = true ∧
    gateClosed
      (run State.init
        [Op.pass 1000 (some ⟨none, none, some 12000, none, none, none, none⟩),
         Op.pass 28791000 (some ⟨none, none, some 12000, none, none, none, none⟩)])
      28801000 = true ∧
    newNotifications
      (run State.init
        [Op.pass 1000 (some ⟨none, none, some 12000, none, none, none, none⟩),
         Op.pass 28791000 (some ⟨none, none, some 12000, none, none, none, none⟩)])
      28801000 (some ⟨none, none, some 12000, none, none, none, none⟩) = [] := by
  decide!

/-- C3 (amended): cooldown release in AdminDashboard for passes the gate lets through.
For any rule `R` whose last firing was at `T`, on every pass at a time `T'` with
`T' - T >= window(R)` that is not skipped by the `lastNotificationCheck` gate and on which
`R`'s condition holds, `R` fires: a notification of `R` is among the pass's
`newNotifications`, `R` is marked and its cooldown entry becomes `T'`; every analytics
notification of the pass is in the store afterwards. -/
theorem cooldown_release (R : String) (s : State) (T T' : ℤ) (d : DashboardData)
    (hlast : s.notificationHistory R = some T)
    (helapsed : T' - T ≥ cooldownWindow R)
    (hcond : ruleCondition R d = true)
    (hgate : gateClosed s T' = false) :
    (∃ n ∈ newNotifications s T' (some d), ruleOf n = some R) ∧
    R ∈ markedRules s T' (some d) ∧
    (notificationEffect T' (some d) s).notificationHistory R = some T' ∧
    (∀ n ∈ newNotifications s T' (some d), n.category = some "analytics" →
      n ∈ (notificationEffect T' (some d) s).notifications) := by
  have hs := shouldGenerateNotification_elapsed hlast helapsed
  obtain ⟨n, hn, hr⟩ := evaluateRules_fires s.notificationHistory T' d R hcond hs
  have hnew : newNotifications s T' (some d) = (evaluateRules s.notificationHistory T' d).pushed := by
    simp [newNotifications, hgate]
  have hn' : n ∈ newNotifications s T' (some d) := by rw [hnew]; exact hn
  have hmark : R ∈ markedRules s T' (some d) := by
    obtain ⟨_, _, _, R', _, hR', hm⟩ := newNotifications_sound hn'
    rw [hr] at hR'
    cases hR'
    exact hm
  refine ⟨⟨n, hn', hr⟩, hmark, ?_, ?_⟩
  · rw [notificationEffect_history, if_pos hmark]
  · intro m hm hcat
    rw [hnew] at hm
    have hpos : (evaluateRules s.notificationHistory T' d).pushed.length > 0 :=
      List.length_pos_of_mem hm
    simp only [notificationEffect, hgate, Bool.false_eq_true, if_false, hpos, if_true,
      limitedNotifications, List.mem_append, List.mem_filter]
    exact Or.inl (Or.inl ⟨hm, by simpa using hcat⟩)

/-- Witness of C3: `revenue-target` last fired at 1000; the pass at 28801000, with no
pass in between, is let through by the gate and fires it again. -/
theorem cooldown_release_witness :
    (∃ n ∈ newNotifications
        (run State.init [Op.pass 1000 (some ⟨none, none, some 12000, none, none, none, none⟩)])
        28801000 (some ⟨none, none, some 12000, none, none, none, none⟩),
      ruleOf n = some "revenue-target") ∧
    "revenue-target" ∈ markedRules
        (run State.init [Op.pass 1000 (some ⟨none, none, some 12000, none, none, none, none⟩)])
        28801000 (some ⟨none, none, some 12000, none, none, none, none⟩) ∧
    (notificationEffect 28801000 (some ⟨none, none, some 12000, none, none, none, none⟩)
        (run State.init [Op.pass 1000 (some ⟨none, none, some 12000, none, none, none, none⟩)])
      ).notificationHistory "revenue-target" = some 28801000 ∧
    (∀ n ∈ newNotifications
        (run State.init [Op.pass 1000 (some ⟨none, none, some 12000, none, none, none, none⟩)])
        28801000 (some ⟨none, none, some 12000, none, none, none, none⟩),
      n.category = some "analytics" →
      n ∈ (notificationEffect 28801000
        (some ⟨none, none, some 12000, none, none, none, none⟩)
        (run State.init [Op.pass 1000 (some ⟨none, none, some 12000, none, none, none, none⟩)])
        ).notifications) :=
  cooldown_release "revenue-target"
    (run State.init [Op.pass 1000 (some ⟨none, none, some 12000, none, none, none, none⟩)])
    1000 28801000 ⟨none, none, some 12000, none, none, none, none⟩
    (by decide!) (by decide) (by decide!) (by decide!)

/-! ## Milestone selection (C7) -/

theorem crossedMilestone_spec (r : ℚ) (h : r ≥ 10000) :
    ∃ m, crossedMilestone r = some m ∧ m ∈ milestones ∧ m.amount ≤ r ∧
      ∀ m' ∈ milestones, m'.amount ≤ r → m'.amount ≤ m.amount := by
  have key : ∀ m' ∈ milestones, m'.amount = 1000000 ∨ m'.amount = 500000 ∨
      m'.amount = 250000 ∨ m'.amount = 100000 ∨ m'.amount = 50000 ∨ m'.amount = 25000 ∨
      m'.amount = 10000 := by
    intro m' hm'
    simp only [milestones, List.mem_cons, List.mem_singleton, List.not_mem_nil, or_false] at hm'
    rcases hm' with rfl | rfl | rfl | rfl | rfl | rfl | rfl <;> simp
  by_cases h1 : r ≥ 1000000
  · refine ⟨⟨1000000, "1 Million"⟩, by simp [crossedMilestone, milestones, h1],
      by simp [milestones], h1, ?_⟩
    intro m' hm' hle
    rcases key m' hm' with e | e | e | e | e | e | e <;> rw [e] <;> norm_num
  by_cases h2 : r ≥ 500000
  · refine ⟨⟨500000, "500K"⟩, by simp [crossedMilestone, milestones, h1, h2],
      by simp [milestones], h2, ?_⟩
    intro m' hm' hle
    rcases key m' hm' with e | e | e | e | e | e | e <;> rw [e] at hle ⊢ <;>
      first | (norm_num; done) | (exfalso; linarith)
  by_cases h3 : r ≥ 250000
  · refine ⟨⟨250000, "250K"⟩, by simp [crossedMilestone, milestones, h1, h2, h3],
      by simp [milestones], h3, ?_⟩
    intro m' hm' hle
    rcases key m' hm' with e | e | e | e | e | e | e <;> rw [e] at hle ⊢ <;>
      first | (norm_num; done) | (exfalso; linarith)
  by_cases h4 : r ≥ 100000
  · refine ⟨⟨100000, "100K"⟩, by simp [crossedMilestone, milestones, h1, h2, h3, h4],
      by simp [milestones], h4, ?_⟩
    intro m' hm' hle
    rcases key m' hm' with e | e | e | e | e | e | e <;> rw [e] at hle ⊢ <;>
      first | (norm_num; done) | (exfalso; linarith)
  by_cases h5 : r ≥ 50000
  · refine ⟨⟨50000, "50K"⟩, by simp [crossedMilestone, milestones, h1, h2, h3, h4, h5],
      by simp [milestones], h5, ?_⟩
    intro m' hm' hle
    rcases key m' hm' with e | e | e | e | e | e | e <;> rw [e] at hle ⊢ <;>
      first | (norm_num; done) | (exfalso; linarith)
  by_cases h6 : r ≥ 25000
  · refine ⟨⟨25000, "25K"⟩, by simp [crossedMilestone, milestones, h1, h2, h3, h4, h5, h6],
      by simp [milestones], h6, ?_⟩
    intro m' hm' hle
    rcases key m' hm' with e | e | e | e | e | e | e <;> rw [e] at hle ⊢ <;>
      first | (norm_num; done) | (exfalso; linarith)
  · refine ⟨⟨10000, "10K"⟩,
      by simp [crossedMilestone, milestones, h1, h2, h3, h4, h5, h6, h], by simp [milestones],
      h, ?_⟩
    intro m' hm' hle
    rcases key m' hm' with e | e | e | e | e | e | e <;> rw [e] at hle ⊢ <;>
      first | (norm_num; done) | (exfalso; linarith)

/-- A block none of whose rules is `R` pushes no notification of `R`. -/
theorem Sound.filter_eq_nil {should : String → Bool} {now : ℤ} {rules : List String}
    {o : RuleOut} (ho : Sound should now rules o) {R : String} (hR : R ∉ rules) :
    o.pushed.filter (fun n => decide (ruleOf n = some R)) = [] := by
  rw [List.filter_eq_nil_iff]
  intro n hn
  obtain ⟨_, _, _, R', hR', hrule, _⟩ := ho.1 n hn
  simp only [decide_eq_true_eq]
  intro hc
  rw [hc] at hrule
  cases hrule
  exact hR hR'

/-- The cap of a pass keeps every notification that satisfies a predicate met by
analytics notifications only. -/
theorem limitedNotifications_filter (l : List Notification) (p : Notification → Bool)
    (hp : ∀ n ∈ l, p n = true → n.category = some "analytics") :
    (limitedNotifications l).filter p = l.filter p := by
  unfold limitedNotifications
  dsimp only
  rw [List.filter_append, List.filter_filter]
  have h2 : ((l.filter (fun n => decide (n.category ≠ some "analytics"))).take 2).filter p =
      [] := by
    rw [List.filter_eq_nil_iff]
    intro n hn hpn
    have hmem := List.mem_of_mem_take hn
    rw [List.mem_filter] at hmem
    have := hp n hmem.1 hpn
    simp [this] at hmem
  rw [h2, List.append_nil]
  apply List.filter_congr
  intro n hn
  by_cases hpn : p n = true
  · simp [hpn, hp n hn hpn]
  · simp [hpn]

theorem mem_limitedNotifications {l : List Notification} {n : Notification}
    (hn : n ∈ limitedNotifications l) : n ∈ l := by
  unfold limitedNotifications at hn
  dsimp only at hn
  rw [List.mem_append] at hn
  rcases hn with hn | hn
  · exact (List.mem_filter.1 hn).1
  · exact (List.mem_filter.1 (List.mem_of_mem_take hn)).1

/-- C7: milestone selection in AdminDashboard.  For every `totalRevenue >= 10000`, on a pass
that is not skipped and on which `total-revenue-milestone` passes its cooldown check, the
rule's notifications among the pass's `newNotifications`, and among the notifications the
pass prepends to the store, are exactly one: the milestone notification naming the entry
of `milestones` (amounts 1000000, 500000, 250000, 100000, 50000, 25000, 10000) with the
largest amount that is `<= totalRevenue`. -/
theorem milestone_selection (s : State) (now : ℤ) (d : DashboardData) (r : ℚ)
    (hr : d.totalRevenue = some r) (h10 : r ≥ 10000)
    (hgate : gateClosed s now = false)
    (hallowed :
      shouldGenerateNotification s.notificationHistory now "total-revenue-milestone" = true) :
    ∃ m ∈ milestones,
      m.amount ≤ r ∧ (∀ m' ∈ milestones, m'.amount ≤ r → m'.amount ≤ m.amount) ∧
      (newNotifications s now (some d)).filter
          (fun n => decide (ruleOf n = some "total-revenue-milestone")) =
        [milestoneNotification now r m] ∧
      (limitedNotifications (newNotifications s now (some d))).filter
          (fun n => decide (ruleOf n = some "total-revenue-milestone")) =
        [milestoneNotification now r m] ∧
      MsgPart.text m.label ∈ (milestoneNotification now r m).message ∧
      milestones.map Milestone.amount =
        [1000000, 500000, 250000, 100000, 50000, 25000, 10000] := by
  obtain ⟨m, hm, hmem, hle, hmax⟩ := crossedMilestone_spec r h10
  have hz : orZero d.totalRevenue = r := by simp [hr, orZero]
  have hblock : (totalRevenueMilestone (shouldGenerateNotification s.notificationHistory now)
      now d).pushed = [milestoneNotification now r m] := by
    unfold totalRevenueMilestone
    dsimp only
    rw [hz, if_pos ⟨by linarith, hallowed⟩, hm]
    rfl
  have hfilter : (newNotifications s now (some d)).filter
      (fun n => decide (ruleOf n = some "total-revenue-milestone")) =
      [milestoneNotification now r m] := by
    have hnew : newNotifications s now (some d) =
        (evaluateRules s.notificationHistory now d).pushed := by
      simp [newNotifications, hgate]
    rw [hnew, evaluateRules_pushed]
    simp only [List.filter_append]
    rw [(highRevenueEfficiency_sound _ now d).filter_eq_nil (by simp),
      (dailyTicketGoalRule_sound _ now d).filter_eq_nil (by simp),
      (revenueHealthCheck_sound _ now d).filter_eq_nil (by simp),
      (revenueTicketComparison_sound _ now d).filter_eq_nil (by simp),
      (ticketVolumeAnalysis_sound _ now d).filter_eq_nil (by simp),
      (revenueTargetRules_sound _ now d).filter_eq_nil (by simp),
      (ticketSalesRules_sound _ now d).filter_eq_nil (by simp),
      (driverUtilizationRules_sound _ now d).filter_eq_nil (by simp),
      (vehicleUtilizationRules_sound _ now d).filter_eq_nil (by simp), hblock]
    simp [ruleOf, ruleOfTag, milestoneNotification]
  refine ⟨m, hmem, hle, hmax, hfilter, ?_, by simp [milestoneNotification], rfl⟩
  rw [limitedNotifications_filter, hfilter]
  intro n hn hp
  have hmemf : n ∈ (newNotifications s now (some d)).filter
      (fun n => decide (ruleOf n = some "total-revenue-milestone")) :=
    List.mem_filter.2 ⟨hn, hp⟩
  rw [hfilter, List.mem_singleton] at hmemf
  rw [hmemf]
  rfl

/-- Witness of C7: from the initial state, the pass at time 1000 on a snapshot with
`totalRevenue = 60000` reports the 50K milestone and no other. -/
theorem milestone_selection_witness :
    ∃ m ∈ milestones,
      m.amount ≤ 60000 ∧ (∀ m' ∈ milestones, m'.amount ≤ 60000 → m'.amount ≤ m.amount) ∧
      (newNotifications State.init 1000
          (some ⟨some 60000, none, none, none, none, none, none⟩)).filter
          (fun n => decide (ruleOf n = some "total-revenue-milestone")) =
        [milestoneNotification 1000 60000 m] ∧
      (limitedNotifications (newNotifications State.init 1000
          (some ⟨some 60000, none, none, none, none, none, none⟩))).filter
          (fun n => decide (ruleOf n = some "total-revenue-milestone")) =
        [milestoneNotification 1000 60000 m] ∧
      MsgPart.text m.label ∈ (milestoneNotification 1000 60000 m).message ∧
      milestones.map Milestone.amount =
        [1000000, 500000, 250000, 100000, 50000, 25000, 10000] :=
  milestone_selection State.init 1000 ⟨some 60000, none, none, none, none, none, none⟩ 60000
    rfl (by norm_num) (by decide) (by decide)

/-! ## The store of the dashboards (C9, C10) -/

theorem updateUnreadCount_append (a b : List Notification) :
    updateUnreadCount (a ++ b) = updateUnreadCount a + updateUnreadCount b := by
  simp [updateUnreadCount, List.filter_append]

theorem updateUnreadCount_of_unread (l : List Notification) (h : ∀ n ∈ l, n.read = false) :
    updateUnreadCount l = l.length := by
  unfold updateUnreadCount
  rw [List.filter_eq_self.2]
  intro n hn
  simp [h n hn]

/-- Every event other than the mount effect keeps the stored counter equal to the number
of unread notifications. -/
theorem step_unreadCount (s : State) (op : Op) (hop : ∀ u b, op ≠ Op.mount u b)
    (hs : s.unreadCount = updateUnreadCount s.notifications) :
    (step s op).unreadCount = updateUnreadCount (step s op).notifications := by
  cases op with
  | mount u b => exact absurd rfl (hop u b)
  | pass now dd =>
    cases dd with
    | none => exact hs
    | some d =>
      simp only [step, notificationEffect]
      by_cases hg : gateClosed s now = true
      · simpa [hg] using hs
      · simp only [hg, Bool.false_eq_true, if_false]
        by_cases hlen : (evaluateRules s.notificationHistory now d).pushed.length > 0
        · simp only [hlen, if_true]
          rw [updateUnreadCount_append, updateUnreadCount_of_unread, hs, Nat.add_comm]
          intro n hn
          exact ((evaluateRules_sound s.notificationHistory now d).1 n
            (mem_limitedNotifications hn)).1
        · simpa [hlen] using hs
  | add now type message => rfl
  | read id => rfl
  | readAll => rfl
  | delete id => rfl

/-- Passes and handler calls keep the counter right: from the initial state, after any
finite sequence of evaluation passes, `addNotification`, `markAsRead`, `markAllAsRead` and
`deleteNotification` calls, the stored `unreadCount` equals the number of notifications in
the store whose `read` flag is false. -/
theorem unreadCount_kept_by_handlers (ops : List Op) (hops : ∀ u b, Op.mount u b ∉ ops) :
    (run State.init ops).unreadCount =
      ((run State.init ops).notifications.filter (fun n => !n.read)).length := by
  have key : ∀ (ops : List Op) (s : State), (∀ u b, Op.mount u b ∉ ops) →
      s.unreadCount = updateUnreadCount s.notifications →
      (run s ops).unreadCount = updateUnreadCount (run s ops).notifications := by
    intro ops
    induction ops with
    | nil => intro s _ hs; simpa [run] using hs
    | cons op ops ih =>
      intro s hno hs
      have hop : ∀ u b, op ≠ Op.mount u b := by
        intro u b h
        exact hno u b (by rw [h]; exact List.mem_cons_self _ _)
      have := ih (step s op) (fun u b hm => hno u b (List.mem_cons_of_mem _ hm))
        (step_unreadCount s op hop hs)
      simpa [run] using this
  exact key ops State.init hops rfl

/-- C10 at its failing input: AdminDashboard is mounted while no token is stored, so
`jwtDecode` throws before the first `await`.  The `catch` block calls `addNotification`,
which sets `unreadCount` to 1, and the mount effect then runs `setNotifications([])`: the
store is empty and the counter stays at 1, although no notification is unread. -/
theorem mount_leaves_stale_unreadCount :
    (run State.init [Op.mount 1000 true]).notifications = [] ∧
    (run State.init [Op.mount 1000 true]).unreadCount = 1 ∧
    ((run State.init [Op.mount 1000 true]).notifications.filter (fun n => !n.read)).length =
      0 := by
  decide

/-- C9, as stated, fails: the dashboards never truncate the store.  From the initial
state, 31 calls of `addNotification` (the handler the three dashboards share) leave 31
notifications in the store. -/
theorem store_exceeds_thirty :
    (run State.init
      (List.replicate 31 (Op.add 1 "error" "Failed to fetch dashboard data"))
      ).notifications.length = 31 ∧
    30 < (run State.init
      (List.replicate 31 (Op.add 1 "error" "Failed to fetch dashboard data"))
      ).notifications.length := by
  decide

end AdminDashboard

/-- C9 (amended): the role dashboards have no retention cap.  In AdminDashboard,
SuperAdminDashboard and DriverDashboard an evaluation pass prepends its limited list (every
analytics notification and at most two others in AdminDashboard, at most three
notifications in the other two) to the store and `addNotification` prepends one
notification; the earlier store is kept whole, so nothing is ever discarded and the length
never decreases. -/
theorem dashboards_store_uncapped (now : ℤ) (s : State) :
    (∀ dd, (AdminDashboard.notificationEffect now dd s).notifications =
      AdminDashboard.limitedNotifications (AdminDashboard.newNotifications s now dd) ++
        s.notifications) ∧
    (∀ data, (SuperAdminDashboard.notificationEffect now data s).notifications =
      (SuperAdminDashboard.newNotifications s now data).take 3 ++ s.notifications) ∧
    (∀ out, (DriverDashboard.notificationEffect now out s).notifications =
      (if DriverDashboard.gateClosed s now then [] else out.pushed.take 3) ++
        s.notifications) ∧
    (∀ type message, ∃ n, (addNotification now type message s).notifications =
      n :: s.notifications) ∧
    (∀ dd, s.notifications.length ≤
      (AdminDashboard.notificationEffect now dd s).notifications.length) ∧
    (∀ data, s.notifications.length ≤
      (SuperAdminDashboard.notificationEffect now data s).notifications.length) ∧
    (∀ out, s.notifications.length ≤
      (DriverDashboard.notificationEffect now out s).notifications.length) ∧
    (∀ type message,
      (addNotification now type message s).notifications.length =
        s.notifications.length + 1) := by
  have hA : ∀ dd, (AdminDashboard.notificationEffect now dd s).notifications =
      AdminDashboard.limitedNotifications (AdminDashboard.newNotifications s now dd) ++
        s.notifications := by
    intro dd
    cases dd with
    | none => simp [AdminDashboard.notificationEffect, AdminDashboard.newNotifications,
        AdminDashboard.limitedNotifications]
    | some d =>
      simp only [AdminDashboard.notificationEffect, AdminDashboard.newNotifications]
      by_cases hg : AdminDashboard.gateClosed s now = true
      · simp [hg, AdminDashboard.limitedNotifications]
      · simp only [hg, Bool.false_eq_true, if_false]
        by_cases hlen : (AdminDashboard.evaluateRules s.notificationHistory now d).pushed.length
            > 0
        · simp [hlen]
        · have hnil : (AdminDashboard.evaluateRules s.notificationHistory now d).pushed = [] :=
            List.length_eq_zero.1 (by omega)
          simp [hnil, AdminDashboard.limitedNotifications]
  have hS : ∀ data, (SuperAdminDashboard.notificationEffect now data s).notifications =
      (SuperAdminDashboard.newNotifications s now data).take 3 ++ s.notifications := by
    intro data
    cases data with
    | none => simp [SuperAdminDashboard.notificationEffect, SuperAdminDashboard.newNotifications]
    | some companies =>
      simp only [SuperAdminDashboard.notificationEffect, SuperAdminDashboard.newNotifications]
      by_cases hg : SuperAdminDashboard.gateClosed s now = true
      · simp [hg]
      · simp only [hg, Bool.false_eq_true, if_false]
        by_cases hlen : (SuperAdminDashboard.evaluateRules s.notificationHistory now
            companies).pushed.length > 0
        · simp [hlen]
        · have hnil : (SuperAdminDashboard.evaluateRules s.notificationHistory now
              companies).pushed = [] := List.length_eq_zero.1 (by omega)
          simp [hnil]
  have hD : ∀ out, (DriverDashboard.notificationEffect now out s).notifications =
      (if DriverDashboard.gateClosed s now then [] else out.pushed.take 3) ++
        s.notifications := by
    intro out
    simp only [DriverDashboard.notificationEffect]
    by_cases hg : DriverDashboard.gateClosed s now = true
    · simp [hg]
    · simp only [hg, Bool.false_eq_true, if_false]
      by_cases hlen : out.pushed.length > 0
      · simp [hlen]
      · have hnil : out.pushed = [] := List.length_eq_zero.1 (by omega)
        simp [hnil]
  refine ⟨hA, hS, hD, fun type message => ⟨_, rfl⟩, ?_, ?_, ?_, fun type message => rfl⟩
  · intro dd
    rw [hA dd, List.length_append]
    omega
  · intro data
    rw [hS data, List.length_append]
    omega
  · intro out
    rw [hD out, List.length_append]
    omega

/-! ## NotificationSystem: no cooldown, retention cap (C4, C8) -/

namespace NotificationSystem

/-- C4, as stated, fails: `checkForNotifications` has no cooldown.  On the component's
initial snapshot (revenue 110000 to 125000) the revenue rule fires at time 1000, and
evaluating the identical snapshot again 1000 ms later adds a second `revenue-increase`
notification to the store. -/
theorem revenue_rule_fires_twice :
    countTagged "revenue-increase" (checkForNotifications 1000 initialData []) = 1 ∧
    countTagged "revenue-increase"
      (checkForNotifications 2000 initialData (checkForNotifications 1000 initialData [])) =
      2 := by
  decide!

/-- C4 (amended): the standalone engine has no cooldown.  Whenever the revenue rule's
condition holds on a snapshot (`previousRevenue` is not 0 and the revenue changed by more
than 5000), every evaluation of `checkForNotifications`, whatever the store already holds
and also when the snapshot is identical to the previous one, puts one new revenue
notification stamped with the current time at the head of the store. -/
theorem checkForNotifications_no_cooldown (now : ℤ) (d : DashboardData)
    (store : List Notification) (hprev : d.previousRevenue ≠ 0)
    (hdiff : |d.todaysRevenue - d.previousRevenue| > 5000) :
    ∃ n, revenueRule now d = [n] ∧
      n.id = .tagged
        (if d.todaysRevenue - d.previousRevenue > 5000 then "revenue-increase"
          else "revenue-decrease") now ∧
      n.read = false ∧
      (checkForNotifications now d store).head? = some n := by
  have hne : d.todaysRevenue ≠ d.previousRevenue := by
    intro h
    rw [h, sub_self, abs_zero] at hdiff
    norm_num at hdiff
  have hhead : ∀ n, revenueRule now d = [n] →
      (checkForNotifications now d store).head? = some n := by
    intro n hn
    simp [checkForNotifications, appendNotifications, newNotifications, hn]
  by_cases hup : d.todaysRevenue - d.previousRevenue > 5000
  · have hrule : revenueRule now d = [note "revenue-increase" now "Revenue Increase"
        [.text "Revenue increased by Rs. ",
         .locale (.fin (d.todaysRevenue - d.previousRevenue)), .text " (",
         .fixed (.fin (percentChange (d.todaysRevenue - d.previousRevenue)
           d.previousRevenue)) 1,
         .text "%)."]
        "success" "revenue"] := by
      unfold revenueRule
      dsimp only
      rw [if_pos ⟨hprev, hne⟩, if_pos hup]
    exact ⟨_, hrule, by simp [note, hup], rfl, hhead _ hrule⟩
  · have hdown : d.todaysRevenue - d.previousRevenue < -5000 := by
      rcases lt_abs.1 hdiff with h | h
      · exact absurd h hup
      · linarith
    have hrule : revenueRule now d = [note "revenue-decrease" now "Revenue Alert"
        [.text "Revenue decreased by Rs. ",
         .locale (.fin |d.todaysRevenue - d.previousRevenue|), .text " (",
         .fixed (.fin |percentChange (d.todaysRevenue - d.previousRevenue)
           d.previousRevenue|) 1,
         .text "%)."]
        "warning" "revenue"] := by
      unfold revenueRule
      dsimp only
      rw [if_pos ⟨hprev, hne⟩, if_neg hup, if_pos hdown]
    exact ⟨_, hrule, by simp [note, hup], rfl, hhead _ hrule⟩

/-- Witness of C4: the initial snapshot, evaluated at time 2000 on the store left by its
evaluation at time 1000. -/
theorem checkForNotifications_no_cooldown_witness :
    ∃ n, revenueRule 2000 initialData = [n] ∧
      n.id = .tagged
        (if initialData.todaysRevenue - initialData.previousRevenue > 5000
          then "revenue-increase" else "revenue-decrease") 2000 ∧
      n.read = false ∧
      (checkForNotifications 2000 initialData
        (checkForNotifications 1000 initialData [])).head? = some n :=
  checkForNotifications_no_cooldown 2000 initialData
    (checkForNotifications 1000 initialData []) (by decide!) (by decide!)

/-- C8: retention cap in NotificationSystem.  For every prior store `prev` and every
non-empty batch `fresh`, the store after the append is the first 30 elements of
`fresh ++ prev`; its length is `min 30 (|fresh| + |prev|)`; the batch stays at the front in
firing order; what is discarded is the tail beyond position 30, the oldest entries; and the
outcome does not depend on read flags: resetting every read flag by any function before the
append gives the same store with the flags reset. -/
theorem appendNotifications_cap (fresh prev : List Notification) (hne : fresh ≠ []) :
    appendNotifications fresh prev = (fresh ++ prev).take 30 ∧
    (appendNotifications fresh prev).length = min 30 (fresh.length + prev.length) ∧
    (appendNotifications fresh prev).take fresh.length = fresh.take 30 ∧
    appendNotifications fresh prev ++ (fresh ++ prev).drop 30 = fresh ++ prev ∧
    (∀ g : Notification → Bool,
      appendNotifications (fresh.map (fun n => { n with read := g n }))
          (prev.map (fun n => { n with read := g n })) =
        (appendNotifications fresh prev).map (fun n => { n with read := g n })) := by
  have hpos : fresh.length > 0 := List.length_pos.2 hne
  have heq : appendNotifications fresh prev = (fresh ++ prev).take 30 := by
    simp [appendNotifications, hpos]
  refine ⟨heq, ?_, ?_, ?_, ?_⟩
  · rw [heq, List.length_take, List.length_append]
  · rw [heq, List.take_take, List.take_append_eq_append_take]
    by_cases h30 : fresh.length ≤ 30
    · have h1 : min fresh.length 30 = fresh.length := min_eq_left h30
      rw [h1, List.take_length, Nat.sub_self, List.take_zero, List.append_nil]
      exact (List.take_of_length_le h30).symm
    · have h1 : min fresh.length 30 = 30 := min_eq_right (by omega)
      have h2 : 30 - fresh.length = 0 := by omega
      rw [h1, h2, List.take_zero, List.append_nil]
  · rw [heq, List.take_append_drop]
  · intro g
    have hpos' : (fresh.map (fun n => { n with read := g n })).length > 0 := by
      simpa using hpos
    simp only [appendNotifications, hpos, hpos', if_true, ← List.map_append, List.map_take]

/-- Witness of C8: a batch of one notification appended to an empty store. -/
theorem appendNotifications_cap_witness :
    appendNotifications (revenueRule 1000 initialData) [] =
      (revenueRule 1000 initialData ++ []).take 30 ∧
    (appendNotifications (revenueRule 1000 initialData) []).length =
      min 30 ((revenueRule 1000 initialData).length + ([] : List Notification).length) ∧
    (appendNotifications (revenueRule 1000 initialData) []).take
        (revenueRule 1000 initialData).length = (revenueRule 1000 initialData).take 30 ∧
    appendNotifications (revenueRule 1000 initialData) [] ++
        (revenueRule 1000 initialData ++ []).drop 30 = revenueRule 1000 initialData ++ [] ∧
    (∀ g : Notification → Bool,
      appendNotifications ((revenueRule 1000 initialData).map (fun n => { n with read := g n }))
          (([] : List Notification).map (fun n => { n with read := g n })) =
        (appendNotifications (revenueRule 1000 initialData) []).map
          (fun n => { n with read := g n })) :=
  appendNotifications_cap (revenueRule 1000 initialData) [] (by decide!)

end NotificationSystem

/-! ## Zero denominators (C6) -/

/-- C6 at its failing input: in SuperAdminDashboard the divisor of `marketConcentration` is
not guarded.  For the company revenues 100, 50, 25 and -175 the total revenue is 0, the
quotient is `Infinity`, the comparison with 80 succeeds and the pass at time 1000 from the
initial state pushes a `market-concentration` notification. -/
theorem marketConcentration_fires_on_zero_total :
    SuperAdminDashboard.totalRevenue
      [⟨"A", some 100⟩, ⟨"B", some 50⟩, ⟨"C", some 25⟩, ⟨"D", some (-175)⟩] = 0 ∧
    SuperAdminDashboard.marketConcentration
      [⟨"A", some 100⟩, ⟨"B", some 50⟩, ⟨"C", some 25⟩, ⟨"D", some (-175)⟩] = JSNum.posInf ∧
    SuperAdminDashboard.plain "market-concentration" 1000 "warning"
      [.text "High market concentration: Top 3 companies control ",
       .fixed JSNum.posInf 1, .text "% of revenue"] ∈
      SuperAdminDashboard.newNotifications State.init 1000
        (some [⟨"A", some 100⟩, ⟨"B", some 50⟩, ⟨"C", some 25⟩, ⟨"D", some (-175)⟩]) := by
  decide!

/-- The AdminDashboard part of C6 holds: with `driversRegistered` 0 or missing a pass
pushes neither a `driver-utilization-low` nor a `driver-shortage` notification, and with
`totalTickets` 0 or missing neither a `high-revenue-efficiency` nor a
`revenue-ticket-comparison` notification. -/
theorem AdminDashboard.admin_zero_denominator_safe (s : State) (now : ℤ)
    (d : AdminDashboard.DashboardData) :
    (AdminDashboard.orZero d.driversRegistered = 0 →
      ∀ n ∈ AdminDashboard.newNotifications s now (some d),
        AdminDashboard.ruleOf n ≠ some "driver-utilization-low" ∧
        AdminDashboard.ruleOf n ≠ some "driver-shortage") ∧
    (AdminDashboard.orZero d.totalTickets = 0 →
      ∀ n ∈ AdminDashboard.newNotifications s now (some d),
        AdminDashboard.ruleOf n ≠ some "high-revenue-efficiency" ∧
        AdminDashboard.ruleOf n ≠ some "revenue-ticket-comparison") := by
  have hmem : ∀ n ∈ AdminDashboard.newNotifications s now (some d),
      n ∈ (AdminDashboard.evaluateRules s.notificationHistory now d).pushed := by
    intro n hn
    unfold AdminDashboard.newNotifications at hn
    dsimp only at hn
    by_cases hg : AdminDashboard.gateClosed s now = true
    · simp [hg] at hn
    · simpa [hg] using hn
  have hnone : ∀ R : String,
      (AdminDashboard.evaluateRules s.notificationHistory now d).pushed.filter
        (fun n => decide (AdminDashboard.ruleOf n = some R)) = [] →
      ∀ n ∈ AdminDashboard.newNotifications s now (some d),
        AdminDashboard.ruleOf n ≠ some R := by
    intro R hnil n hn hR
    have : n ∈ (AdminDashboard.evaluateRules s.notificationHistory now d).pushed.filter
        (fun n => decide (AdminDashboard.ruleOf n = some R)) :=
      List.mem_filter.2 ⟨hmem n hn, by simpa using hR⟩
    rw [hnil] at this
    exact absurd this (List.not_mem_nil _)
  constructor
  · intro h0
    have hskip : AdminDashboard.driverUtilizationRules
        (AdminDashboard.shouldGenerateNotification s.notificationHistory now) now d =
        RuleOut.skip := by
      unfold AdminDashboard.driverUtilizationRules
      cases hdr : d.driversRegistered with
      | none => rfl
      | some dr =>
        have hdr0 : dr = 0 := by simpa [hdr, AdminDashboard.orZero] using h0
        cases had : d.assignedDrivers with
        | none => rfl
        | some ad => simp [hdr0]
    have key : ∀ R : String, R = "driver-utilization-low" ∨ R = "driver-shortage" →
        (AdminDashboard.evaluateRules s.notificationHistory now d).pushed.filter
          (fun n => decide (AdminDashboard.ruleOf n = some R)) = [] := by
      intro R hR
      rw [AdminDashboard.evaluateRules_pushed, hskip]
      simp only [List.filter_append]
      rw [(AdminDashboard.highRevenueEfficiency_sound _ now d).filter_eq_nil
          (by rcases hR with rfl | rfl <;> simp),
        (AdminDashboard.dailyTicketGoalRule_sound _ now d).filter_eq_nil
          (by rcases hR with rfl | rfl <;> simp),
        (AdminDashboard.revenueHealthCheck_sound _ now d).filter_eq_nil
          (by rcases hR with rfl | rfl <;> simp),
        (AdminDashboard.revenueTicketComparison_sound _ now d).filter_eq_nil
          (by rcases hR with rfl | rfl <;> simp),
        (AdminDashboard.totalRevenueMilestone_sound _ now d).filter_eq_nil
          (by rcases hR with rfl | rfl <;> simp),
        (AdminDashboard.ticketVolumeAnalysis_sound _ now d).filter_eq_nil
          (by rcases hR with rfl | rfl <;> simp),
        (AdminDashboard.revenueTargetRules_sound _ now d).filter_eq_nil
          (by rcases hR with rfl | rfl <;> simp),
        (AdminDashboard.ticketSalesRules_sound _ now d).filter_eq_nil
          (by rcases hR with rfl | rfl <;> simp),
        (AdminDashboard.vehicleUtilizationRules_sound _ now d).filter_eq_nil
          (by rcases hR with rfl | rfl <;> simp)]
      simp [RuleOut.skip]
    intro n hn
    exact ⟨hnone _ (key _ (Or.inl rfl)) n hn, hnone _ (key _ (Or.inr rfl)) n hn⟩
  · intro h0
    have havg : AdminDashboard.avgRevenuePerTicket d = 0 := by
      simp [AdminDashboard.avgRevenuePerTicket, h0]
    have hskip1 : AdminDashboard.highRevenueEfficiency
        (AdminDashboard.shouldGenerateNotification s.notificationHistory now) now d =
        RuleOut.skip := by
      simp [AdminDashboard.highRevenueEfficiency, havg]
    have hskip4 : AdminDashboard.revenueTicketComparison
        (AdminDashboard.shouldGenerateNotification s.notificationHistory now) now d =
        RuleOut.skip := by
      simp [AdminDashboard.revenueTicketComparison, havg]
    have key : ∀ R : String, R = "high-revenue-efficiency" ∨ R = "revenue-ticket-comparison" →
        (AdminDashboard.evaluateRules s.notificationHistory now d).pushed.filter
          (fun n => decide (AdminDashboard.ruleOf n = some R)) = [] := by
      intro R hR
      rw [AdminDashboard.evaluateRules_pushed, hskip1, hskip4]
      simp only [List.filter_append]
      rw [(AdminDashboard.dailyTicketGoalRule_sound _ now d).filter_eq_nil
          (by rcases hR with rfl | rfl <;> simp),
        (AdminDashboard.revenueHealthCheck_sound _ now d).filter_eq_nil
          (by rcases hR with rfl | rfl <;> simp),
        (AdminDashboard.totalRevenueMilestone_sound _ now d).filter_eq_nil
          (by rcases hR with rfl | rfl <;> simp),
        (AdminDashboard.ticketVolumeAnalysis_sound _ now d).filter_eq_nil
          (by rcases hR with rfl | rfl <;> simp),
        (AdminDashboard.revenueTargetRules_sound _ now d).filter_eq_nil
          (by rcases hR with rfl | rfl <;> simp),
        (AdminDashboard.ticketSalesRules_sound _ now d).filter_eq_nil
          (by rcases hR with rfl | rfl <;> simp),
        (AdminDashboard.driverUtilizationRules_sound _ now d).filter_eq_nil
          (by rcases hR with rfl | rfl <;> simp),
        (AdminDashboard.vehicleUtilizationRules_sound _ now d).filter_eq_nil
          (by rcases hR with rfl | rfl <;> simp)]
      simp [RuleOut.skip]
    intro n hn
    exact ⟨hnone _ (key _ (Or.inl rfl)) n hn, hnone _ (key _ (Or.inr rfl)) n hn⟩

/-- The NotificationSystem part of C6 holds: a zero `previousRevenue`,
`driversRegistered` or `totalVehicles` makes the revenue, utilization or vehicle rule push
nothing. -/
theorem NotificationSystem.engine_zero_denominator_safe (now : ℤ)
    (d : NotificationSystem.DashboardData) :
    (d.previousRevenue = 0 → NotificationSystem.revenueRule now d = []) ∧
    (d.driversRegistered = 0 → NotificationSystem.utilizationRule now d = []) ∧
    (d.totalVehicles = 0 → NotificationSystem.vehicleDriverRule now d = []) := by
  refine ⟨?_, ?_, ?_⟩
  · intro h
    simp [NotificationSystem.revenueRule, h]
  · intro h
    simp [NotificationSystem.utilizationRule, h]
  · intro h
    simp [NotificationSystem.vehicleDriverRule, h]

theorem SuperAdminDashboard.foldl_revenue (l : List SuperAdminDashboard.Company) (a : ℚ) :
    l.foldl (fun sum company => sum + SuperAdminDashboard.revenueOf company) a =
      a + (l.map SuperAdminDashboard.revenueOf).sum := by
  induction l generalizing a with
  | nil => simp
  | cons c l ih =>
    rw [List.foldl_cons, ih, List.map_cons, List.sum_cons]
    ring

theorem SuperAdminDashboard.revenue_zero_of_total_zero
    (l : List SuperAdminDashboard.Company)
    (hnn : ∀ c ∈ l, 0 ≤ SuperAdminDashboard.revenueOf c)
    (hsum : (l.map SuperAdminDashboard.revenueOf).sum = 0) :
    ∀ c ∈ l, SuperAdminDashboard.revenueOf c = 0 := by
  induction l with
  | nil => intro c hc; simp at hc
  | cons a l ih =>
    rw [List.map_cons, List.sum_cons] at hsum
    have ha : 0 ≤ SuperAdminDashboard.revenueOf a := hnn a (by simp)
    have hl : 0 ≤ (l.map SuperAdminDashboard.revenueOf).sum :=
      List.sum_nonneg (by
        intro x hx
        obtain ⟨c, hc, rfl⟩ := List.mem_map.1 hx
        exact hnn c (List.mem_cons_of_mem _ hc))
    intro c hc
    rcases List.mem_cons.1 hc with rfl | hc
    · linarith
    · exact ih (fun c hc => hnn c (List.mem_cons_of_mem _ hc)) (by linarith) c hc

/-- The SuperAdminDashboard part of C6 holds when no revenue is negative: a company list
with non-negative revenues and total revenue 0 makes `marketConcentration` `NaN` and the
market concentration rule pushes nothing. -/
theorem SuperAdminDashboard.zero_total_safe_of_nonneg (should : String → Bool) (now : ℤ)
    (companies : List SuperAdminDashboard.Company)
    (hnn : ∀ c ∈ companies, 0 ≤ SuperAdminDashboard.revenueOf c)
    (htotal : SuperAdminDashboard.totalRevenue companies = 0) :
    SuperAdminDashboard.marketConcentration companies = JSNum.nan ∧
    SuperAdminDashboard.marketConcentrationRule should now companies = RuleOut.skip := by
  have hsum : (companies.map SuperAdminDashboard.revenueOf).sum = 0 := by
    have := SuperAdminDashboard.foldl_revenue companies 0
    rw [zero_add] at this
    rw [← this]
    exact htotal
  have hzero := SuperAdminDashboard.revenue_zero_of_total_zero companies hnn hsum
  have htop : SuperAdminDashboard.topThreeRevenue companies = 0 := by
    unfold SuperAdminDashboard.topThreeRevenue
    rw [SuperAdminDashboard.foldl_revenue, zero_add]
    apply List.sum_eq_zero
    intro x hx
    obtain ⟨c, hc, rfl⟩ := List.mem_map.1 hx
    have hc' : c ∈ SuperAdminDashboard.sortedCompanies companies := List.mem_of_mem_take hc
    unfold SuperAdminDashboard.sortedCompanies at hc'
    exact hzero c ((List.perm_insertionSort _ companies).mem_iff.1 hc')
  have hmc : SuperAdminDashboard.marketConcentration companies = JSNum.nan := by
    simp [SuperAdminDashboard.marketConcentration, htop, htotal, JSNum.div, JSNum.mulPos]
  refine ⟨hmc, ?_⟩
  simp [SuperAdminDashboard.marketConcentrationRule, hmc, JSNum.gt]

/-! ## Store handlers: mark as read, delete (C11, C12) -/

/-- C11: `markAsRead(id)`, in AdminDashboard and in NotificationSystem, returns a store of
the same length and order in which every notification whose id equals `id` has
`read = true` with all its other fields unchanged and every other notification is
unchanged; if no notification has that id the store is returned unchanged. -/
theorem markAsRead_frame (id : NotifId) (s : State) (store : List Notification) :
    ((markAsRead id s).notifications =
      s.notifications.map (fun n => if n.id = id then { n with read := true } else n)) ∧
    (NotificationSystem.markAsRead id store =
      store.map (fun n => if n.id = id then { n with read := true } else n)) ∧
    (markAsRead id s).notifications.length = s.notifications.length ∧
    (NotificationSystem.markAsRead id store).length = store.length ∧
    (∀ (i : ℕ) (n : Notification), store[i]? = some n →
      (NotificationSystem.markAsRead id store)[i]? =
        some (if n.id = id then
          { id := n.id, type := n.type, title := n.title, message := n.message,
            timestamp := n.timestamp, read := true, category := n.category, icon := n.icon }
          else n)) ∧
    (∀ (i : ℕ) (n : Notification), s.notifications[i]? = some n →
      (markAsRead id s).notifications[i]? =
        some (if n.id = id then
          { id := n.id, type := n.type, title := n.title, message := n.message,
            timestamp := n.timestamp, read := true, category := n.category, icon := n.icon }
          else n)) ∧
    ((∀ n ∈ store, n.id ≠ id) → NotificationSystem.markAsRead id store = store) ∧
    ((∀ n ∈ s.notifications, n.id ≠ id) → (markAsRead id s).notifications = s.notifications) := by
  have hmap : ∀ l : List Notification, (∀ n ∈ l, n.id ≠ id) →
      l.map (fun n => if n.id = id then { n with read := true } else n) = l := by
    intro l hl
    conv_rhs => rw [← List.map_id l]
    apply List.map_congr_left
    intro n hn
    simp [hl n hn]
  have hget : ∀ (l : List Notification) (i : ℕ) (n : Notification), l[i]? = some n →
      (l.map (fun n => if n.id = id then { n with read := true } else n))[i]? =
        some (if n.id = id then
          { id := n.id, type := n.type, title := n.title, message := n.message,
            timestamp := n.timestamp, read := true, category := n.category, icon := n.icon }
          else n) := by
    intro l i n hn
    rw [List.getElem?_map, hn]
    rfl
  refine ⟨rfl, rfl, ?_, ?_, ?_, ?_, ?_, ?_⟩
  · simp [markAsRead]
  · simp [NotificationSystem.markAsRead]
  · intro i n hn
    exact hget store i n hn
  · intro i n hn
    exact hget s.notifications i n hn
  · intro h
    exact hmap store h
  · intro h
    exact hmap s.notifications h

/-- C12: after `deleteNotification(id)` (AdminDashboard) or `removeNotification(id)`
(NotificationSystem) the store contains no notification with that id; the notifications
with a different id are all still present, unchanged and in their original relative order
(the new store is the old one with exactly the matching entries left out); removing an id
that is absent leaves the store unchanged. -/
theorem deleteNotification_spec (id : NotifId) (s : State) (store : List Notification) :
    (∀ n ∈ (deleteNotification id s).notifications, n.id ≠ id) ∧
    (∀ n ∈ NotificationSystem.removeNotification id store, n.id ≠ id) ∧
    (∀ n ∈ s.notifications, n.id ≠ id → n ∈ (deleteNotification id s).notifications) ∧
    (∀ n ∈ store, n.id ≠ id → n ∈ NotificationSystem.removeNotification id store) ∧
    (deleteNotification id s).notifications.Sublist s.notifications ∧
    (NotificationSystem.removeNotification id store).Sublist store ∧
    (deleteNotification id s).notifications =
      s.notifications.filter (fun n => decide (n.id ≠ id)) ∧
    NotificationSystem.removeNotification id store =
      store.filter (fun n => decide (n.id ≠ id)) ∧
    ((∀ n ∈ s.notifications, n.id ≠ id) →
      (deleteNotification id s).notifications = s.notifications) ∧
    ((∀ n ∈ store, n.id ≠ id) → NotificationSystem.removeNotification id store = store) := by
  refine ⟨?_, ?_, ?_, ?_, ?_, ?_, rfl, rfl, ?_, ?_⟩
  · intro n hn
    simpa using (List.mem_filter.1 hn).2
  · intro n hn
    simpa using (List.mem_filter.1 hn).2
  · intro n hn hid
    exact List.mem_filter.2 ⟨hn, by simpa using hid⟩
  · intro n hn hid
    exact List.mem_filter.2 ⟨hn, by simpa using hid⟩
  · exact List.filter_sublist _
  · exact List.filter_sublist _
  · intro h
    apply List.filter_eq_self.2
    intro n hn
    simpa using h n hn
  · intro h
    apply List.filter_eq_self.2
    intro n hn
    simpa using h n hn

/-! ## Locating a notification in its rule block -/

namespace AdminDashboard

theorem Sound.rule_mem {should : String → Bool} {now : ℤ} {rules : List String} {o : RuleOut}
    (ho : Sound should now rules o) {n : Notification} {R : String} (hn : n ∈ o.pushed)
    (hR : ruleOf n = some R) : R ∈ rules := by
  obtain ⟨_, _, _, R', hR', hrule, _⟩ := ho.1 n hn
  rw [hR] at hrule
  cases hrule
  exact hR'

/-- A notification of rule `R` pushed in a pass was pushed by the block of `R`. -/
theorem pushed_block {h : History} {now : ℤ} {d : DashboardData} {n : Notification}
    {R : String} (hn : n ∈ (evaluateRules h now d).pushed) (hR : ruleOf n = some R) :
    (R ∈ ["high-revenue-efficiency"] → n ∈ (highRevenueEfficiency (shouldGenerateNotification h now) now d).pushed) ∧
    (R ∈ ["daily-ticket-goal"] → n ∈ (dailyTicketGoalRule (shouldGenerateNotification h now) now d).pushed) ∧
    (R ∈ ["revenue-health-check"] → n ∈ (revenueHealthCheck (shouldGenerateNotification h now) now d).pushed) ∧
    (R ∈ ["revenue-ticket-comparison"] → n ∈ (revenueTicketComparison (shouldGenerateNotification h now) now d).pushed) ∧
    (R ∈ ["total-revenue-milestone"] → n ∈ (totalRevenueMilestone (shouldGenerateNotification h now) now d).pushed) ∧
    (R ∈ ["ticket-volume-analysis"] → n ∈ (ticketVolumeAnalysis (shouldGenerateNotification h now) now d).pushed) ∧
    (R ∈ ["revenue-target", "revenue-low"] → n ∈ (revenueTargetRules (shouldGenerateNotification h now) now d).pushed) ∧
    (R ∈ ["tickets-high", "tickets-low"] → n ∈ (ticketSalesRules (shouldGenerateNotification h now) now d).pushed) ∧
    (R ∈ ["unassigned-drivers", "driver-utilization-low", "driver-shortage"] → n ∈ (driverUtilizationRules (shouldGenerateNotification h now) now d).pushed) ∧
    (R ∈ ["unused-vehicles", "vehicle-shortage"] → n ∈ (vehicleUtilizationRules (shouldGenerateNotification h now) now d).pushed) := by
  rw [evaluateRules_pushed] at hn
  simp only [List.mem_append] at hn
  refine ⟨?_, ?_, ?_, ?_, ?_, ?_, ?_, ?_, ?_, ?_⟩
  · intro hRi
    rcases hn with h0 | h1 | h2 | h3 | h4 | h5 | h6 | h7 | h8 | h9
    · exact h0
    · exact absurd ((dailyTicketGoalRule_sound _ now d).rule_mem h1 hR)
        ((by decide : ∀ a ∈ ["high-revenue-efficiency"], a ∉ ["daily-ticket-goal"]) R hRi)
    · exact absurd ((revenueHealthCheck_sound _ now d).rule_mem h2 hR)
        ((by decide : ∀ a ∈ ["high-revenue-efficiency"], a ∉ ["revenue-health-check"]) R hRi)
    · exact absurd ((revenueTicketComparison_sound _ now d).rule_mem h3 hR)
        ((by decide : ∀ a ∈ ["high-revenue-efficiency"], a ∉ ["revenue-ticket-comparison"]) R hRi)
    · exact absurd ((totalRevenueMilestone_sound _ now d).rule_mem h4 hR)
        ((by decide : ∀ a ∈ ["high-revenue-efficiency"], a ∉ ["total-revenue-milestone"]) R hRi)
    · exact absurd ((ticketVolumeAnalysis_sound _ now d).rule_mem h5 hR)
        ((by decide : ∀ a ∈ ["high-revenue-efficiency"], a ∉ ["ticket-volume-analysis"]) R hRi)
    · exact absurd ((revenueTargetRules_sound _ now d).rule_mem h6 hR)
        ((by decide : ∀ a ∈ ["high-revenue-efficiency"], a ∉ ["revenue-target", "revenue-low"]) R hRi)
    · exact absurd ((ticketSalesRules_sound _ now d).rule_mem h7 hR)
        ((by decide : ∀ a ∈ ["high-revenue-efficiency"], a ∉ ["tickets-high", "tickets-low"]) R hRi)
    · exact absurd ((driverUtilizationRules_sound _ now d).rule_mem h8 hR)
        ((by decide : ∀ a ∈ ["high-revenue-efficiency"], a ∉ ["unassigned-drivers", "driver-utilization-low", "driver-shortage"]) R hRi)
    · exact absurd ((vehicleUtilizationRules_sound _ now d).rule_mem h9 hR)
        ((by decide : ∀ a ∈ ["high-revenue-efficiency"], a ∉ ["unused-vehicles", "vehicle-shortage"]) R hRi)
  · intro hRi
    rcases hn with h0 | h1 | h2 | h3 | h4 | h5 | h6 | h7 | h8 | h9
    · exact absurd ((highRevenueEfficiency_sound _ now d).rule_mem h0 hR)
        ((by decide : ∀ a ∈ ["daily-ticket-goal"], a ∉ ["high-revenue-efficiency"]) R hRi)
    · exact h1
    · exact absurd ((revenueHealthCheck_sound _ now d).rule_mem h2 hR)
        ((by decide : ∀ a ∈ ["daily-ticket-goal"], a ∉ ["revenue-health-check"]) R hRi)
    · exact absurd ((revenueTicketComparison_sound _ now d).rule_mem h3 hR)
        ((by decide : ∀ a ∈ ["daily-ticket-goal"], a ∉ ["revenue-ticket-comparison"]) R hRi)
    · exact absurd ((totalRevenueMilestone_sound _ now d).rule_mem h4 hR)
        ((by decide : ∀ a ∈ ["daily-ticket-goal"], a ∉ ["total-revenue-milestone"]) R hRi)
    · exact absurd ((ticketVolumeAnalysis_sound _ now d).rule_mem h5 hR)
        ((by decide : ∀ a ∈ ["daily-ticket-goal"], a ∉ ["ticket-volume-analysis"]) R hRi)
    · exact absurd ((revenueTargetRules_sound _ now d).rule_mem h6 hR)
        ((by decide : ∀ a ∈ ["daily-ticket-goal"], a ∉ ["revenue-target", "revenue-low"]) R hRi)
    · exact absurd ((ticketSalesRules_sound _ now d).rule_mem h7 hR)
        ((by decide : ∀ a ∈ ["daily-ticket-goal"], a ∉ ["tickets-high", "tickets-low"]) R hRi)
    · exact absurd ((driverUtilizationRules_sound _ now d).rule_mem h8 hR)
        ((by decide : ∀ a ∈ ["daily-ticket-goal"], a ∉ ["unassigned-drivers", "driver-utilization-low", "driver-shortage"]) R hRi)
    · exact absurd ((vehicleUtilizationRules_sound _ now d).rule_mem h9 hR)
        ((by decide : ∀ a ∈ ["daily-ticket-goal"], a ∉ ["unused-vehicles", "vehicle-shortage"]) R hRi)
  · intro hRi
    rcases hn with h0 | h1 | h2 | h3 | h4 | h5 | h6 | h7 | h8 | h9
    · exact absurd ((highRevenueEfficiency_sound _ now d).rule_mem h0 hR)
        ((by decide : ∀ a ∈ ["revenue-health-check"], a ∉ ["high-revenue-efficiency"]) R hRi)
    · exact absurd ((dailyTicketGoalRule_sound _ now d).rule_mem h1 hR)
        ((by decide : ∀ a ∈ ["revenue-health-check"], a ∉ ["daily-ticket-goal"]) R hRi)
    · exact h2
    · exact absurd ((revenueTicketComparison_sound _ now d).rule_mem h3 hR)
        ((by decide : ∀ a ∈ ["revenue-health-check"], a ∉ ["revenue-ticket-comparison"]) R hRi)
    · exact absurd ((totalRevenueMilestone_sound _ now d).rule_mem h4 hR)
        ((by decide : ∀ a ∈ ["revenue-health-check"], a ∉ ["total-revenue-milestone"]) R hRi)
    · exact absurd ((ticketVolumeAnalysis_sound _ now d).rule_mem h5 hR)
        ((by decide : ∀ a ∈ ["revenue-health-check"], a ∉ ["ticket-volume-analysis"]) R hRi)
    · exact absurd ((revenueTargetRules_sound _ now d).rule_mem h6 hR)
        ((by decide : ∀ a ∈ ["revenue-health-check"], a ∉ ["revenue-target", "revenue-low"]) R hRi)
    · exact absurd ((ticketSalesRules_sound _ now d).rule_mem h7 hR)
        ((by decide : ∀ a ∈ ["revenue-health-check"], a ∉ ["tickets-high", "tickets-low"]) R hRi)
    · exact absurd ((driverUtilizationRules_sound _ now d).rule_mem h8 hR)
        ((by decide : ∀ a ∈ ["revenue-health-check"], a ∉ ["unassigned-drivers", "driver-utilization-low", "driver-shortage"]) R hRi)
    · exact absurd ((vehicleUtilizationRules_sound _ now d).rule_mem h9 hR)
        ((by decide : ∀ a ∈ ["revenue-health-check"], a ∉ ["unused-vehicles", "vehicle-shortage"]) R hRi)
  · intro hRi
    rcases hn with h0 | h1 | h2 | h3 | h4 | h5 | h6 | h7 | h8 | h9
    · exact absurd ((highRevenueEfficiency_sound _ now d).rule_mem h0 hR)
        ((by decide : ∀ a ∈ ["revenue-ticket-comparison"], a ∉ ["high-revenue-efficiency"]) R hRi)
    · exact absurd ((dailyTicketGoalRule_sound _ now d).rule_mem h1 hR)
        ((by decide : ∀ a ∈ ["revenue-ticket-comparison"], a ∉ ["daily-ticket-goal"]) R hRi)
    · exact absurd ((revenueHealthCheck_sound _ now d).rule_mem h2 hR)
        ((by decide : ∀ a ∈ ["revenue-ticket-comparison"], a ∉ ["revenue-health-check"]) R hRi)
    · exact h3
    · exact absurd ((totalRevenueMilestone_sound _ now d).rule_mem h4 hR)
        ((by decide : ∀ a ∈ ["revenue-ticket-comparison"], a ∉ ["total-revenue-milestone"]) R hRi)
    · exact absurd ((ticketVolumeAnalysis_sound _ now d).rule_mem h5 hR)
        ((by decide : ∀ a ∈ ["revenue-ticket-comparison"], a ∉ ["ticket-volume-analysis"]) R hRi)
    · exact absurd ((revenueTargetRules_sound _ now d).rule_mem h6 hR)
        ((by decide : ∀ a ∈ ["revenue-ticket-comparison"], a ∉ ["revenue-target", "revenue-low"]) R hRi)
    · exact absurd ((ticketSalesRules_sound _ now d).rule_mem h7 hR)
        ((by decide : ∀ a ∈ ["revenue-ticket-comparison"], a ∉ ["tickets-high", "tickets-low"]) R hRi)
    · exact absurd ((driverUtilizationRules_sound _ now d).rule_mem h8 hR)
        ((by decide : ∀ a ∈ ["revenue-ticket-comparison"], a ∉ ["unassigned-drivers", "driver-utilization-low", "driver-shortage"]) R hRi)
    · exact absurd ((vehicleUtilizationRules_sound _ now d).rule_mem h9 hR)
        ((by decide : ∀ a ∈ ["revenue-ticket-comparison"], a ∉ ["unused-vehicles", "vehicle-shortage"]) R hRi)
  · intro hRi
    rcases hn with h0 | h1 | h2 | h3 | h4 | h5 | h6 | h7 | h8 | h9
    · exact absurd ((highRevenueEfficiency_sound _ now d).rule_mem h0 hR)
        ((by decide : ∀ a ∈ ["total-revenue-milestone"], a ∉ ["high-revenue-efficiency"]) R hRi)
    · exact absurd ((dailyTicketGoalRule_sound _ now d).rule_mem h1 hR)
        ((by decide : ∀ a ∈ ["total-revenue-milestone"], a ∉ ["daily-ticket-goal"]) R hRi)
    · exact absurd ((revenueHealthCheck_sound _ now d).rule_mem h2 hR)
        ((by decide : ∀ a ∈ ["total-revenue-milestone"], a ∉ ["revenue-health-check"]) R hRi)
    · exact absurd ((revenueTicketComparison_sound _ now d).rule_mem h3 hR)
        ((by decide : ∀ a ∈ ["total-revenue-milestone"], a ∉ ["revenue-ticket-comparison"]) R hRi)
    · exact h4
    · exact absurd ((ticketVolumeAnalysis_sound _ now d).rule_mem h5 hR)
        ((by decide : ∀ a ∈ ["total-revenue-milestone"], a ∉ ["ticket-volume-analysis"]) R hRi)
    · exact absurd ((revenueTargetRules_sound _ now d).rule_mem h6 hR)
        ((by decide : ∀ a ∈ ["total-revenue-milestone"], a ∉ ["revenue-target", "revenue-low"]) R hRi)
    · exact absurd ((ticketSalesRules_sound _ now d).rule_mem h7 hR)
        ((by decide : ∀ a ∈ ["total-revenue-milestone"], a ∉ ["tickets-high", "tickets-low"]) R hRi)
    · exact absurd ((driverUtilizationRules_sound _ now d).rule_mem h8 hR)
        ((by decide : ∀ a ∈ ["total-revenue-milestone"], a ∉ ["unassigned-drivers", "driver-utilization-low", "driver-shortage"]) R hRi)
    · exact absurd ((vehicleUtilizationRules_sound _ now d).rule_mem h9 hR)
        ((by decide : ∀ a ∈ ["total-revenue-milestone"], a ∉ ["unused-vehicles", "vehicle-shortage"]) R hRi)
  · intro hRi
    rcases hn with h0 | h1 | h2 | h3 | h4 | h5 | h6 | h7 | h8 | h9
    · exact absurd ((highRevenueEfficiency_sound _ now d).rule_mem h0 hR)
        ((by decide : ∀ a ∈ ["ticket-volume-analysis"], a ∉ ["high-revenue-efficiency"]) R hRi)
    · exact absurd ((dailyTicketGoalRule_sound _ now d).rule_mem h1 hR)
        ((by decide : ∀ a ∈ ["ticket-volume-analysis"], a ∉ ["daily-ticket-goal"]) R hRi)
    · exact absurd ((revenueHealthCheck_sound _ now d).rule_mem h2 hR)
        ((by decide : ∀ a ∈ ["ticket-volume-analysis"], a ∉ ["revenue-health-check"]) R hRi)
    · exact absurd ((revenueTicketComparison_sound _ now d).rule_mem h3 hR)
        ((by decide : ∀ a ∈ ["ticket-volume-analysis"], a ∉ ["revenue-ticket-comparison"]) R hRi)
    · exact absurd ((totalRevenueMilestone_sound _ now d).rule_mem h4 hR)
        ((by decide : ∀ a ∈ ["ticket-volume-analysis"], a ∉ ["total-revenue-milestone"]) R hRi)
    · exact h5
    · exact absurd ((revenueTargetRules_sound _ now d).rule_mem h6 hR)
        ((by decide : ∀ a ∈ ["ticket-volume-analysis"], a ∉ ["revenue-target", "revenue-low"]) R hRi)
    · exact absurd ((ticketSalesRules_sound _ now d).rule_mem h7 hR)
        ((by decide : ∀ a ∈ ["ticket-volume-analysis"], a ∉ ["tickets-high", "tickets-low"]) R hRi)
    · exact absurd ((driverUtilizationRules_sound _ now d).rule_mem h8 hR)
        ((by decide : ∀ a ∈ ["ticket-volume-analysis"], a ∉ ["unassigned-drivers", "driver-utilization-low", "driver-shortage"]) R hRi)
    · exact absurd ((vehicleUtilizationRules_sound _ now d).rule_mem h9 hR)
        ((by decide : ∀ a ∈ ["ticket-volume-analysis"], a ∉ ["unused-vehicles", "vehicle-shortage"]) R hRi)
  · intro hRi
    rcases hn with h0 | h1 | h2 | h3 | h4 | h5 | h6 | h7 | h8 | h9
    · exact absurd ((highRevenueEfficiency_sound _ now d).rule_mem h0 hR)
        ((by decide : ∀ a ∈ ["revenue-target", "revenue-low"], a ∉ ["high-revenue-efficiency"]) R hRi)
    · exact absurd ((dailyTicketGoalRule_sound _ now d).rule_mem h1 hR)
        ((by decide : ∀ a ∈ ["revenue-target", "revenue-low"], a ∉ ["daily-ticket-goal"]) R hRi)
    · exact absurd ((revenueHealthCheck_sound _ now d).rule_mem h2 hR)
        ((by decide : ∀ a ∈ ["revenue-target", "revenue-low"], a ∉ ["revenue-health-check"]) R hRi)
    · exact absurd ((revenueTicketComparison_sound _ now d).rule_mem h3 hR)
        ((by decide : ∀ a ∈ ["revenue-target", "revenue-low"], a ∉ ["revenue-ticket-comparison"]) R hRi)
    · exact absurd ((totalRevenueMilestone_sound _ now d).rule_mem h4 hR)
        ((by decide : ∀ a ∈ ["revenue-target", "revenue-low"], a ∉ ["total-revenue-milestone"]) R hRi)
    · exact absurd ((ticketVolumeAnalysis_sound _ now d).rule_mem h5 hR)
        ((by decide : ∀ a ∈ ["revenue-target", "revenue-low"], a ∉ ["ticket-volume-analysis"]) R hRi)
    · exact h6
    · exact absurd ((ticketSalesRules_sound _ now d).rule_mem h7 hR)
        ((by decide : ∀ a ∈ ["revenue-target", "revenue-low"], a ∉ ["tickets-high", "tickets-low"]) R hRi)
    · exact absurd ((driverUtilizationRules_sound _ now d).rule_mem h8 hR)
        ((by decide : ∀ a ∈ ["revenue-target", "revenue-low"], a ∉ ["unassigned-drivers", "driver-utilization-low", "driver-shortage"]) R hRi)
    · exact absurd ((vehicleUtilizationRules_sound _ now d).rule_mem h9 hR)
        ((by decide : ∀ a ∈ ["revenue-target", "revenue-low"], a ∉ ["unused-vehicles", "vehicle-shortage"]) R hRi)
  · intro hRi
    rcases hn with h0 | h1 | h2 | h3 | h4 | h5 | h6 | h7 | h8 | h9
    · exact absurd ((highRevenueEfficiency_sound _ now d).rule_mem h0 hR)
        ((by decide : ∀ a ∈ ["tickets-high", "tickets-low"], a ∉ ["high-revenue-efficiency"]) R hRi)
    · exact absurd ((dailyTicketGoalRule_sound _ now d).rule_mem h1 hR)
        ((by decide : ∀ a ∈ ["tickets-high", "tickets-low"], a ∉ ["daily-ticket-goal"]) R hRi)
    · exact absurd ((revenueHealthCheck_sound _ now d).rule_mem h2 hR)
        ((by decide : ∀ a ∈ ["tickets-high", "tickets-low"], a ∉ ["revenue-health-check"]) R hRi)
    · exact absurd ((revenueTicketComparison_sound _ now d).rule_mem h3 hR)
        ((by decide : ∀ a ∈ ["tickets-high", "tickets-low"], a ∉ ["revenue-ticket-comparison"]) R hRi)
    · exact absurd ((totalRevenueMilestone_sound _ now d).rule_mem h4 hR)
        ((by decide : ∀ a ∈ ["tickets-high", "tickets-low"], a ∉ ["total-revenue-milestone"]) R hRi)
    · exact absurd ((ticketVolumeAnalysis_sound _ now d).rule_mem h5 hR)
        ((by decide : ∀ a ∈ ["tickets-high", "tickets-low"], a ∉ ["ticket-volume-analysis"]) R hRi)
    · exact absurd ((revenueTargetRules_sound _ now d).rule_mem h6 hR)
        ((by decide : ∀ a ∈ ["tickets-high", "tickets-low"], a ∉ ["revenue-target", "revenue-low"]) R hRi)
    · exact h7
    · exact absurd ((driverUtilizationRules_sound _ now d).rule_mem h8 hR)
        ((by decide : ∀ a ∈ ["tickets-high", "tickets-low"], a ∉ ["unassigned-drivers", "driver-utilization-low", "driver-shortage"]) R hRi)
    · exact absurd ((vehicleUtilizationRules_sound _ now d).rule_mem h9 hR)
        ((by decide : ∀ a ∈ ["tickets-high", "tickets-low"], a ∉ ["unused-vehicles", "vehicle-shortage"]) R hRi)
  · intro hRi
    rcases hn with h0 | h1 | h2 | h3 | h4 | h5 | h6 | h7 | h8 | h9
    · exact absurd ((highRevenueEfficiency_sound _ now d).rule_mem h0 hR)
        ((by decide : ∀ a ∈ ["unassigned-drivers", "driver-utilization-low", "driver-shortage"], a ∉ ["high-revenue-efficiency"]) R hRi)
    · exact absurd ((dailyTicketGoalRule_sound _ now d).rule_mem h1 hR)
        ((by decide : ∀ a ∈ ["unassigned-drivers", "driver-utilization-low", "driver-shortage"], a ∉ ["daily-ticket-goal"]) R hRi)
    · exact absurd ((revenueHealthCheck_sound _ now d).rule_mem h2 hR)
        ((by decide : ∀ a ∈ ["unassigned-drivers", "driver-utilization-low", "driver-shortage"], a ∉ ["revenue-health-check"]) R hRi)
    · exact absurd ((revenueTicketComparison_sound _ now d).rule_mem h3 hR)
        ((by decide : ∀ a ∈ ["unassigned-drivers", "driver-utilization-low", "driver-shortage"], a ∉ ["revenue-ticket-comparison"]) R hRi)
    · exact absurd ((totalRevenueMilestone_sound _ now d).rule_mem h4 hR)
        ((by decide : ∀ a ∈ ["unassigned-drivers", "driver-utilization-low", "driver-shortage"], a ∉ ["total-revenue-milestone"]) R hRi)
    · exact absurd ((ticketVolumeAnalysis_sound _ now d).rule_mem h5 hR)
        ((by decide : ∀ a ∈ ["unassigned-drivers", "driver-utilization-low", "driver-shortage"], a ∉ ["ticket-volume-analysis"]) R hRi)
    · exact absurd ((revenueTargetRules_sound _ now d).rule_mem h6 hR)
        ((by decide : ∀ a ∈ ["unassigned-drivers", "driver-utilization-low", "driver-shortage"], a ∉ ["revenue-target", "revenue-low"]) R hRi)
    · exact absurd ((ticketSalesRules_sound _ now d).rule_mem h7 hR)
        ((by decide : ∀ a ∈ ["unassigned-drivers", "driver-utilization-low", "driver-shortage"], a ∉ ["tickets-high", "tickets-low"]) R hRi)
    · exact h8
    · exact absurd ((vehicleUtilizationRules_sound _ now d).rule_mem h9 hR)
        ((by decide : ∀ a ∈ ["unassigned-drivers", "driver-utilization-low", "driver-shortage"], a ∉ ["unused-vehicles", "vehicle-shortage"]) R hRi)
  · intro hRi
    rcases hn with h0 | h1 | h2 | h3 | h4 | h5 | h6 | h7 | h8 | h9
    · exact absurd ((highRevenueEfficiency_sound _ now d).rule_mem h0 hR)
        ((by decide : ∀ a ∈ ["unused-vehicles", "vehicle-shortage"], a ∉ ["high-revenue-efficiency"]) R hRi)
    · exact absurd ((dailyTicketGoalRule_sound _ now d).rule_mem h1 hR)
        ((by decide : ∀ a ∈ ["unused-vehicles", "vehicle-shortage"], a ∉ ["daily-ticket-goal"]) R hRi)
    · exact absurd ((revenueHealthCheck_sound _ now d).rule_mem h2 hR)
        ((by decide : ∀ a ∈ ["unused-vehicles", "vehicle-shortage"], a ∉ ["revenue-health-check"]) R hRi)
    · exact absurd ((revenueTicketComparison_sound _ now d).rule_mem h3 hR)
        ((by decide : ∀ a ∈ ["unused-vehicles", "vehicle-shortage"], a ∉ ["revenue-ticket-comparison"]) R hRi)
    · exact absurd ((totalRevenueMilestone_sound _ now d).rule_mem h4 hR)
        ((by decide : ∀ a ∈ ["unused-vehicles", "vehicle-shortage"], a ∉ ["total-revenue-milestone"]) R hRi)
    · exact absurd ((ticketVolumeAnalysis_sound _ now d).rule_mem h5 hR)
        ((by decide : ∀ a ∈ ["unused-vehicles", "vehicle-shortage"], a ∉ ["ticket-volume-analysis"]) R hRi)
    · exact absurd ((revenueTargetRules_sound _ now d).rule_mem h6 hR)
        ((by decide : ∀ a ∈ ["unused-vehicles", "vehicle-shortage"], a ∉ ["revenue-target", "revenue-low"]) R hRi)
    · exact absurd ((ticketSalesRules_sound _ now d).rule_mem h7 hR)
        ((by decide : ∀ a ∈ ["unused-vehicles", "vehicle-shortage"], a ∉ ["tickets-high", "tickets-low"]) R hRi)
    · exact absurd ((driverUtilizationRules_sound _ now d).rule_mem h8 hR)
        ((by decide : ∀ a ∈ ["unused-vehicles", "vehicle-shortage"], a ∉ ["unassigned-drivers", "driver-utilization-low", "driver-shortage"]) R hRi)
    · exact h9

end AdminDashboard

/-! ## Pushes and marks go in pairs -/

theorem countP_eq_le_one {l : List String} (hl : l.Nodup) (R : String) :
    l.countP (fun r => decide (r = R)) ≤ 1 := by
  induction l with
  | nil => simp
  | cons a l ih =>
    rw [List.nodup_cons] at hl
    rw [List.countP_cons]
    by_cases ha : a = R
    · subst ha
      have h0 : l.countP (fun r => decide (r = a)) = 0 := by
        rw [List.countP_eq_zero]
        intro r hr
        simp only [decide_eq_true_eq]
        intro hra
        exact hl.1 (hra ▸ hr)
      simp [h0]
    · have := ih hl.2
      simp [ha, this]

theorem Paired.nothing (owner : Notification → Option String) (rules : List String) :
    Paired owner rules RuleOut.skip := by
  simp [Paired, RuleOut.skip]

theorem Paired.single {owner : Notification → Option String} {rules : List String}
    (n : Notification) (R : String) (hrule : owner n = some R) (hR : R ∈ rules) :
    Paired owner rules (RuleOut.fire n R) := by
  constructor
  · exact List.singleton_sublist.2 hR
  · simp [RuleOut.fire, hrule]

theorem Paired.append {owner : Notification → Option String} {r₁ r₂ : List String}
    {a b : RuleOut} (ha : Paired owner r₁ a) (hb : Paired owner r₂ b) :
    Paired owner (r₁ ++ r₂) (a.seq b) := by
  constructor
  · exact ha.1.append hb.1
  · simp [RuleOut.seq, ha.2, hb.2]

namespace AdminDashboard

theorem highRevenueEfficiency_paired (should : String → Bool) (now : ℤ) (d : DashboardData) :
    Paired ruleOf ["high-revenue-efficiency"] (highRevenueEfficiency should now d) := by
  unfold highRevenueEfficiency
  dsimp only
  by_cases h : avgRevenuePerTicket d > 0 ∧ should "high-revenue-efficiency" = true
  · rw [if_pos h]
    exact Paired.single _ _ (by simp [ruleOf, ruleOfTag]) (by simp)
  · rw [if_neg h]
    exact Paired.nothing _ _

theorem dailyTicketGoalRule_paired (should : String → Bool) (now : ℤ) (d : DashboardData) :
    Paired ruleOf ["daily-ticket-goal"] (dailyTicketGoalRule should now d) := by
  unfold dailyTicketGoalRule
  dsimp only
  by_cases h : orZero d.todaysTickets ≥ 0 ∧ should "daily-ticket-goal" = true
  · rw [if_pos h]
    refine Paired.single _ _ ?_ (by simp)
    split_ifs <;> simp [ruleOf, ruleOfTag]
  · rw [if_neg h]
    exact Paired.nothing _ _

theorem revenueHealthCheck_paired (should : String → Bool) (now : ℤ) (d : DashboardData) :
    Paired ruleOf ["revenue-health-check"] (revenueHealthCheck should now d) := by
  unfold revenueHealthCheck
  dsimp only
  by_cases h : orZero d.todaysRevenue ≥ 0 ∧ should "revenue-health-check" = true
  · rw [if_pos h]
    exact Paired.single _ _ (by simp [ruleOf, ruleOfTag]) (by simp)
  · rw [if_neg h]
    exact Paired.nothing _ _

theorem totalRevenueMilestone_paired (should : String → Bool) (now : ℤ) (d : DashboardData) :
    Paired ruleOf ["total-revenue-milestone"] (totalRevenueMilestone should now d) := by
  unfold totalRevenueMilestone
  dsimp only
  by_cases h : orZero d.totalRevenue > 0 ∧ should "total-revenue-milestone" = true
  · rw [if_pos h]
    cases hm : crossedMilestone (orZero d.totalRevenue) with
    | none =>
      exact Paired.single _ _ (by simp [ruleOf, ruleOfTag]) (by simp)
    | some m =>
      exact Paired.single _ _ (by simp [ruleOf, ruleOfTag, milestoneNotification]) (by simp)
  · rw [if_neg h]
    exact Paired.nothing _ _

theorem ticketVolumeAnalysis_paired (should : String → Bool) (now : ℤ) (d : DashboardData) :
    Paired ruleOf ["ticket-volume-analysis"] (ticketVolumeAnalysis should now d) := by
  unfold ticketVolumeAnalysis
  dsimp only
  by_cases h : orZero d.totalTickets > 0 ∧ should "ticket-volume-analysis" = true
  · rw [if_pos h]
    exact Paired.single _ _ (by simp [ruleOf, ruleOfTag]) (by simp)
  · rw [if_neg h]
    exact Paired.nothing _ _

theorem revenueTargetRules_paired (should : String → Bool) (now : ℤ) (d : DashboardData) :
    Paired ruleOf ["revenue-target", "revenue-low"] (revenueTargetRules should now d) := by
  unfold revenueTargetRules
  cases hr : d.todaysRevenue with
  | none => exact Paired.nothing _ _
  | some r =>
    dsimp only
    by_cases h0 : r > 0
    · rw [if_pos h0]
      by_cases h1 : r ≥ targetRevenue ∧ should "revenue-target" = true
      · rw [if_pos h1]
        exact Paired.single _ _ (by simp [ruleOf, ruleOfTag, plain]) (by simp)
      · rw [if_neg h1]
        by_cases h2 : r < targetRevenue * (1 / 2) ∧ should "revenue-low" = true
        · rw [if_pos h2]
          exact Paired.single _ _ (by simp [ruleOf, ruleOfTag, plain]) (by simp)
        · rw [if_neg h2]
          exact Paired.nothing _ _
    · rw [if_neg h0]
      exact Paired.nothing _ _

theorem ticketSalesRules_paired (should : String → Bool) (now : ℤ) (d : DashboardData) :
    Paired ruleOf ["tickets-high", "tickets-low"] (ticketSalesRules should now d) := by
  unfold ticketSalesRules
  cases ht : d.todaysTickets with
  | none => exact Paired.nothing _ _
  | some t =>
    dsimp only
    by_cases h1 : (((JSNum.ofField d.totalTickets).divPos 30).mulPos (6 / 5)).lt t = true ∧
        should "tickets-high" = true
    · rw [if_pos h1]
      exact Paired.single _ _ (by simp [ruleOf, ruleOfTag, plain]) (by simp)
    · rw [if_neg h1]
      by_cases h2 : (((JSNum.ofField d.totalTickets).divPos 30).mulPos (4 / 5)).gt t = true ∧
          t > 0 ∧ should "tickets-low" = true
      · rw [if_pos h2]
        exact Paired.single _ _ (by simp [ruleOf, ruleOfTag, plain]) (by simp)
      · rw [if_neg h2]
        exact Paired.nothing _ _

theorem driverUtilizationRules_paired (should : String → Bool) (now : ℤ) (d : DashboardData) :
    Paired ruleOf ["unassigned-drivers", "driver-utilization-low", "driver-shortage"]
      (driverUtilizationRules should now d) := by
  unfold driverUtilizationRules
  cases hdr : d.driversRegistered with
  | none => exact Paired.nothing _ _
  | some dr =>
    cases had : d.assignedDrivers with
    | none => exact Paired.nothing _ _
    | some ad =>
      dsimp only
      by_cases h0 : dr ≠ 0 ∧ ad ≠ 0
      · rw [if_pos h0]
        refine @Paired.append _ ["unassigned-drivers"]
          ["driver-utilization-low", "driver-shortage"] _ _ ?_ ?_
        · by_cases h1 : dr - ad > 3 ∧ should "unassigned-drivers" = true
          · rw [if_pos h1]
            exact Paired.single _ _ (by simp [ruleOf, ruleOfTag, plain]) (by simp)
          · rw [if_neg h1]
            exact Paired.nothing _ _
        · by_cases h2 : utilizationRate dr ad < 70 ∧ dr > 5 ∧
              should "driver-utilization-low" = true
          · rw [if_pos h2]
            exact Paired.single _ _ (by simp [ruleOf, ruleOfTag, plain]) (by simp)
          · rw [if_neg h2]
            by_cases h3 : utilizationRate dr ad > 95 ∧ dr > 5 ∧ should "driver-shortage" = true
            · rw [if_pos h3]
              exact Paired.single _ _ (by simp [ruleOf, ruleOfTag, plain]) (by simp)
            · rw [if_neg h3]
              exact Paired.nothing _ _
      · rw [if_neg h0]
        exact Paired.nothing _ _

theorem vehicleUtilizationRules_paired (should : String → Bool) (now : ℤ) (d : DashboardData) :
    Paired ruleOf ["unused-vehicles", "vehicle-shortage"]
      (vehicleUtilizationRules should now d) := by
  unfold vehicleUtilizationRules
  cases htv : d.totalVehicles with
  | none => exact Paired.nothing _ _
  | some tv =>
    cases had : d.assignedDrivers with
    | none => exact Paired.nothing _ _
    | some ad =>
      dsimp only
      by_cases h0 : tv ≠ 0 ∧ ad ≠ 0
      · rw [if_pos h0]
        refine @Paired.append _ ["unused-vehicles"] ["vehicle-shortage"] _ _ ?_ ?_
        · by_cases h1 : tv - ad > 0 ∧ should "unused-vehicles" = true
          · rw [if_pos h1]
            exact Paired.single _ _ (by simp [ruleOf, ruleOfTag, plain]) (by simp)
          · rw [if_neg h1]
            exact Paired.nothing _ _
        · by_cases h2 : ad > tv ∧ should "vehicle-shortage" = true
          · rw [if_pos h2]
            exact Paired.single _ _ (by simp [ruleOf, ruleOfTag, plain]) (by simp)
          · rw [if_neg h2]
            exact Paired.nothing _ _
      · rw [if_neg h0]
        exact Paired.nothing _ _


/-- The comparison block marks its rule whenever its outer condition holds and pushes at
most the one notification of that rule. -/
theorem revenueTicketComparison_marked (should : String → Bool) (now : ℤ)
    (d : DashboardData) :
    (revenueTicketComparison should now d).marked.Sublist ["revenue-ticket-comparison"] ∧
    ((revenueTicketComparison should now d).pushed.map ruleOf).Sublist
      ((revenueTicketComparison should now d).marked.map some) := by
  unfold revenueTicketComparison
  dsimp only
  by_cases h : orZero d.todaysTickets > 0 ∧ avgRevenuePerTicket d > 0 ∧
      should "revenue-ticket-comparison" = true
  · rw [if_pos h]
    refine ⟨List.Sublist.refl _, ?_⟩
    by_cases h2 : todaysAvgRevenuePerTicket d > 0
    · rw [if_pos h2]
      simp [ruleOf, ruleOfTag]
    · rw [if_neg h2]
      simp
  · rw [if_neg h]
    simp [RuleOut.skip]

/-- In a pass the marks are some of the rule ids in program order, each at most once, and
the notifications pushed belong, in order, to rules that are marked. -/
theorem evaluateRules_paired (h : History) (now : ℤ) (d : DashboardData) :
    (evaluateRules h now d).marked.Sublist ruleIds ∧
    ((evaluateRules h now d).pushed.map ruleOf).Sublist
      ((evaluateRules h now d).marked.map some) := by
  have h1 := highRevenueEfficiency_paired (shouldGenerateNotification h now) now d
  have h2 := dailyTicketGoalRule_paired (shouldGenerateNotification h now) now d
  have h3 := revenueHealthCheck_paired (shouldGenerateNotification h now) now d
  have h4 := revenueTicketComparison_marked (shouldGenerateNotification h now) now d
  have hrest := Paired.append (totalRevenueMilestone_paired (shouldGenerateNotification h now) now d) <|
    Paired.append (ticketVolumeAnalysis_paired (shouldGenerateNotification h now) now d) <|
    Paired.append (revenueTargetRules_paired (shouldGenerateNotification h now) now d) <|
    Paired.append (ticketSalesRules_paired (shouldGenerateNotification h now) now d) <|
    Paired.append (driverUtilizationRules_paired (shouldGenerateNotification h now) now d)
      (vehicleUtilizationRules_paired (shouldGenerateNotification h now) now d)
  constructor
  · exact h1.1.append (h2.1.append (h3.1.append (h4.1.append hrest.1)))
  · have e1 := h1.2
    have e2 := h2.2
    have e3 := h3.2
    have e5 := hrest.2
    unfold evaluateRules
    simp only [RuleOut.seq, List.map_append] at e5 ⊢
    rw [e1, e2, e3]
    exact (List.Sublist.refl _).append ((List.Sublist.refl _).append
      ((List.Sublist.refl _).append (h4.2.append (by rw [e5]))))

theorem ruleIds_nodup : ruleIds.Nodup := by decide

/-- A pass pushes at most one notification per rule. -/
theorem countRule_pushed_le_one (h : History) (now : ℤ) (d : DashboardData) (R : String) :
    countRule R (evaluateRules h now d).pushed ≤ 1 := by
  obtain ⟨hm, hp⟩ := evaluateRules_paired h now d
  have e1 : countRule R (evaluateRules h now d).pushed =
      ((evaluateRules h now d).pushed.map ruleOf).countP (fun o => decide (o = some R)) := by
    unfold countRule
    rw [← List.countP_eq_length_filter, List.countP_map]
    rfl
  have e2 : ((evaluateRules h now d).marked.map some).countP (fun o => decide (o = some R)) =
      (evaluateRules h now d).marked.countP (fun r => decide (r = R)) := by
    rw [List.countP_map]
    apply List.countP_congr
    intro r _
    simp
  rw [e1]
  calc ((evaluateRules h now d).pushed.map ruleOf).countP (fun o => decide (o = some R))
      ≤ ((evaluateRules h now d).marked.map some).countP (fun o => decide (o = some R)) :=
        hp.countP_le _
    _ = (evaluateRules h now d).marked.countP (fun r => decide (r = R)) := e2
    _ ≤ ruleIds.countP (fun r => decide (r = R)) := hm.countP_le _
    _ ≤ 1 := countP_eq_le_one ruleIds_nodup R

end AdminDashboard

namespace SuperAdminDashboard

theorem topPerformer_paired (should : String → Bool) (now : ℤ) (companies : List Company) :
    Paired (fun n => n.id.tag) ["top-performer"] (topPerformer should now companies) := by
  unfold topPerformer
  cases (sortedCompanies companies).head? with
  | none => exact Paired.nothing _ _
  | some topCompany =>
    dsimp only
    by_cases h : (JSNum.ofField topCompany.revenue).gt (avgRevenue companies * (3 / 2)) = true ∧
        should "top-performer" = true
    · rw [if_pos h]
      exact Paired.single _ _ (by simp [plain, NotifId.tag]) (by simp)
    · rw [if_neg h]
      exact Paired.nothing _ _

theorem lowPerformersRule_paired (should : String → Bool) (now : ℤ) (companies : List Company) :
    Paired (fun n => n.id.tag) ["low-performers"] (lowPerformersRule should now companies) := by
  unfold lowPerformersRule
  dsimp only
  by_cases h : (companies.filter (fun company =>
      decide (revenueOf company < avgRevenue companies * (1 / 2)))).length > 0 ∧
      should "low-performers" = true
  · rw [if_pos h]
    exact Paired.single _ _ (by simp [plain, NotifId.tag]) (by simp)
  · rw [if_neg h]
    exact Paired.nothing _ _

theorem companyGrowth_paired (should : String → Bool) (now : ℤ) (companies : List Company) :
    Paired (fun n => n.id.tag) ["company-growth"] (companyGrowth should now companies) := by
  unfold companyGrowth
  by_cases h : companies.length > 5 ∧ should "company-growth" = true
  · rw [if_pos h]
    exact Paired.single _ _ (by simp [plain, NotifId.tag]) (by simp)
  · rw [if_neg h]
    exact Paired.nothing _ _

theorem revenueMilestone_paired (should : String → Bool) (now : ℤ) (companies : List Company) :
    Paired (fun n => n.id.tag) ["revenue-milestone"] (revenueMilestone should now companies) := by
  unfold revenueMilestone
  by_cases h : totalRevenue companies > 100000 ∧ should "revenue-milestone" = true
  · rw [if_pos h]
    exact Paired.single _ _ (by simp [plain, NotifId.tag]) (by simp)
  · rw [if_neg h]
    exact Paired.nothing _ _

theorem marketConcentrationRule_paired (should : String → Bool) (now : ℤ) (companies : List Company) :
    Paired (fun n => n.id.tag) ["market-concentration"] (marketConcentrationRule should now companies) := by
  unfold marketConcentrationRule
  by_cases h : (marketConcentration companies).gt 80 = true ∧
      should "market-concentration" = true
  · rw [if_pos h]
    exact Paired.single _ _ (by simp [plain, NotifId.tag]) (by simp)
  · rw [if_neg h]
    exact Paired.nothing _ _

theorem inactiveCompaniesRule_paired (should : String → Bool) (now : ℤ) (companies : List Company) :
    Paired (fun n => n.id.tag) ["inactive-companies"] (inactiveCompaniesRule should now companies) := by
  unfold inactiveCompaniesRule
  dsimp only
  by_cases h : (companies.filter (fun company => decide (revenueOf company = 0))).length > 0 ∧
      should "inactive-companies" = true
  · rw [if_pos h]
    exact Paired.single _ _ (by simp [plain, NotifId.tag]) (by simp)
  · rw [if_neg h]
    exact Paired.nothing _ _

theorem revenueDisparity_paired (should : String → Bool) (now : ℤ) (companies : List Company) :
    Paired (fun n => n.id.tag) ["revenue-disparity"] (revenueDisparity should now companies) := by
  unfold revenueDisparity
  by_cases h : sqrtGt (avgSquaredDiff (companies.map revenueOf)) (avgRevenue companies) = true ∧
      should "revenue-disparity" = true
  · rw [if_pos h]
    exact Paired.single _ _ (by simp [plain, NotifId.tag]) (by simp)
  · rw [if_neg h]
    exact Paired.nothing _ _

/-- In a pass of SuperAdminDashboard the marks are some of the rule ids in program order
and the notifications pushed are, one for one and in order, those of the rules marked. -/
theorem superEvaluateRules_paired (h : History) (now : ℤ) (companies : List Company) :
    Paired (fun n => n.id.tag) ruleIds (evaluateRules h now companies) := by
  unfold evaluateRules
  dsimp only
  by_cases hlen : companies.length > 0
  · rw [if_pos hlen]
    exact Paired.append (topPerformer_paired _ now companies) <|
      Paired.append (lowPerformersRule_paired _ now companies) <|
      Paired.append (companyGrowth_paired _ now companies) <|
      Paired.append (revenueMilestone_paired _ now companies) <|
      Paired.append (marketConcentrationRule_paired _ now companies) <|
      Paired.append (inactiveCompaniesRule_paired _ now companies)
        (revenueDisparity_paired _ now companies)
  · rw [if_neg hlen]
    exact Paired.nothing _ _

theorem superRuleIds_nodup : ruleIds.Nodup := by decide

/-- A rule marked in a pass of SuperAdminDashboard has exactly one notification among
those the pass pushes. -/
theorem countTagged_pushed (h : History) (now : ℤ) (companies : List Company) (R : String)
    (hR : R ∈ (evaluateRules h now companies).marked) :
    countTagged R (evaluateRules h now companies).pushed = 1 := by
  obtain ⟨hm, hp⟩ := superEvaluateRules_paired h now companies
  have e1 : countTagged R (evaluateRules h now companies).pushed =
      (evaluateRules h now companies).marked.countP (fun r => decide (r = R)) := by
    unfold countTagged
    rw [← List.countP_eq_length_filter]
    have : (evaluateRules h now companies).pushed.countP
        (fun n => decide (n.id.tag = some R)) =
        ((evaluateRules h now companies).pushed.map (fun n => n.id.tag)).countP
          (fun o => decide (o = some R)) := by
      rw [List.countP_map]
      rfl
    rw [this, hp, List.countP_map]
    apply List.countP_congr
    intro r _
    simp
  rw [e1]
  apply le_antisymm
  · exact le_trans (hm.countP_le _) (countP_eq_le_one superRuleIds_nodup R)
  · exact List.countP_pos_iff.2 ⟨R, hR, by simp⟩

end SuperAdminDashboard

/-! ## Per-pass prioritisation and what reaches the store (C13, C14, C15) -/

namespace AdminDashboard

theorem highRevenueEfficiency_category (should : String → Bool) (now : ℤ) (d : DashboardData) :
    ∀ n ∈ (highRevenueEfficiency should now d).pushed, n.category = some "analytics" := by
  intro n hn
  unfold highRevenueEfficiency at hn
  dsimp only at hn
  by_cases h : avgRevenuePerTicket d > 0 ∧ should "high-revenue-efficiency" = true
  · rw [if_pos h] at hn
    simp only [RuleOut.fire, List.mem_singleton] at hn
    rw [hn]
  · rw [if_neg h] at hn
    simp [RuleOut.skip] at hn

theorem revenueHealthCheck_category (should : String → Bool) (now : ℤ) (d : DashboardData) :
    ∀ n ∈ (revenueHealthCheck should now d).pushed, n.category = some "analytics" := by
  intro n hn
  unfold revenueHealthCheck at hn
  dsimp only at hn
  by_cases h : orZero d.todaysRevenue ≥ 0 ∧ should "revenue-health-check" = true
  · rw [if_pos h] at hn
    simp only [RuleOut.fire, List.mem_singleton] at hn
    rw [hn]
  · rw [if_neg h] at hn
    simp [RuleOut.skip] at hn

theorem ticketVolumeAnalysis_category (should : String → Bool) (now : ℤ) (d : DashboardData) :
    ∀ n ∈ (ticketVolumeAnalysis should now d).pushed, n.category = some "analytics" := by
  intro n hn
  unfold ticketVolumeAnalysis at hn
  dsimp only at hn
  by_cases h : orZero d.totalTickets > 0 ∧ should "ticket-volume-analysis" = true
  · rw [if_pos h] at hn
    simp only [RuleOut.fire, List.mem_singleton] at hn
    rw [hn]
  · rw [if_neg h] at hn
    simp [RuleOut.skip] at hn

theorem dailyTicketGoalRule_category (should : String → Bool) (now : ℤ) (d : DashboardData) :
    ∀ n ∈ (dailyTicketGoalRule should now d).pushed, n.category = some "analytics" := by
  intro n hn
  unfold dailyTicketGoalRule at hn
  dsimp only at hn
  by_cases h : orZero d.todaysTickets ≥ 0 ∧ should "daily-ticket-goal" = true
  · rw [if_pos h] at hn
    simp only [RuleOut.fire, List.mem_singleton] at hn
    rw [hn]
    split_ifs <;> rfl
  · rw [if_neg h] at hn
    simp [RuleOut.skip] at hn

theorem revenueTicketComparison_category (should : String → Bool) (now : ℤ)
    (d : DashboardData) :
    ∀ n ∈ (revenueTicketComparison should now d).pushed, n.category = some "analytics" := by
  intro n hn
  unfold revenueTicketComparison at hn
  dsimp only at hn
  by_cases h : orZero d.todaysTickets > 0 ∧ avgRevenuePerTicket d > 0 ∧
      should "revenue-ticket-comparison" = true
  · rw [if_pos h] at hn
    by_cases h2 : todaysAvgRevenuePerTicket d > 0
    · rw [if_pos h2] at hn
      simp only [List.mem_singleton] at hn
      rw [hn]
    · rw [if_neg h2] at hn
      simp at hn
  · rw [if_neg h] at hn
    simp [RuleOut.skip] at hn

theorem totalRevenueMilestone_category (should : String → Bool) (now : ℤ)
    (d : DashboardData) :
    ∀ n ∈ (totalRevenueMilestone should now d).pushed, n.category = some "analytics" := by
  intro n hn
  unfold totalRevenueMilestone at hn
  dsimp only at hn
  by_cases h : orZero d.totalRevenue > 0 ∧ should "total-revenue-milestone" = true
  · rw [if_pos h] at hn
    cases hm : crossedMilestone (orZero d.totalRevenue) with
    | none =>
      rw [hm] at hn
      simp only [RuleOut.fire, List.mem_singleton] at hn
      rw [hn]
    | some m =>
      rw [hm] at hn
      simp only [RuleOut.fire, List.mem_singleton] at hn
      rw [hn]
      rfl
  · rw [if_neg h] at hn
    simp [RuleOut.skip] at hn

/-- A notification of one of the six analytics rules carries the category `analytics`. -/
theorem category_of_analytics_rule {h : History} {now : ℤ} {d : DashboardData}
    {n : Notification} {R : String} (hn : n ∈ (evaluateRules h now d).pushed)
    (hR : ruleOf n = some R) (ha : R ∈ analyticsTypes) : n.category = some "analytics" := by
  obtain ⟨b1, b2, b3, b4, b5, b6, _, _, _, _⟩ := pushed_block hn hR
  simp only [analyticsTypes, List.mem_cons, List.mem_singleton, List.not_mem_nil,
    or_false] at ha
  rcases ha with rfl | rfl | rfl | rfl | rfl | rfl
  · exact highRevenueEfficiency_category _ now d n (b1 (by simp))
  · exact dailyTicketGoalRule_category _ now d n (b2 (by simp))
  · exact revenueHealthCheck_category _ now d n (b3 (by simp))
  · exact revenueTicketComparison_category _ now d n (b4 (by simp))
  · exact totalRevenueMilestone_category _ now d n (b5 (by simp))
  · exact ticketVolumeAnalysis_category _ now d n (b6 (by simp))

theorem notificationEffect_notifications (now : ℤ) (dd : Option DashboardData) (s : State) :
    (notificationEffect now dd s).notifications =
      limitedNotifications (newNotifications s now dd) ++ s.notifications := by
  cases dd with
  | none => simp [notificationEffect, newNotifications, limitedNotifications]
  | some d =>
    simp only [notificationEffect, newNotifications]
    by_cases hg : gateClosed s now = true
    · simp [hg, limitedNotifications]
    · simp only [hg, Bool.false_eq_true, if_false]
      by_cases hlen : (evaluateRules s.notificationHistory now d).pushed.length > 0
      · simp [hlen]
      · have hnil : (evaluateRules s.notificationHistory now d).pushed = [] :=
          List.length_eq_zero.1 (by omega)
        simp [hnil, limitedNotifications]

theorem newNotifications_eq_nil_or (s : State) (now : ℤ) (dd : Option DashboardData) :
    (newNotifications s now dd = [] ∧ markedRules s now dd = []) ∨
    ∃ d, dd = some d ∧
      newNotifications s now dd = (evaluateRules s.notificationHistory now d).pushed ∧
      markedRules s now dd = (evaluateRules s.notificationHistory now d).marked := by
  cases dd with
  | none => exact Or.inl ⟨rfl, rfl⟩
  | some d =>
    by_cases hg : gateClosed s now = true
    · exact Or.inl ⟨by simp [newNotifications, hg], by simp [markedRules, hg]⟩
    · exact Or.inr ⟨d, rfl, by simp [newNotifications, hg], by simp [markedRules, hg]⟩

/-- The cap of a pass never increases the number of notifications of a rule. -/
theorem countRule_limited_le (R : String) (l : List Notification) :
    countRule R (limitedNotifications l) ≤ countRule R l := by
  unfold countRule limitedNotifications
  dsimp only
  rw [List.filter_append, List.length_append, ← List.countP_eq_length_filter,
    ← List.countP_eq_length_filter, ← List.countP_eq_length_filter,
    List.countP_eq_countP_filter_add l _ (fun n => decide (n.category = some "analytics"))]
  apply Nat.add_le_add_left
  have hsub : ((l.filter (fun n => decide (n.category ≠ some "analytics"))).take 2).Sublist
      (l.filter (fun a => !decide (a.category = some "analytics"))) := by
    have e : (fun n : Notification => decide (n.category ≠ some "analytics")) =
        (fun a => !decide (a.category = some "analytics")) := by
      funext a
      simp
    rw [e]
    exact List.take_sublist _ _
  exact hsub.countP_le _

/-- C13: per-pass prioritisation in AdminDashboard.  For every list `newNotifications`, the
list prepended to the store is every notification of category `analytics`, in firing order,
followed by the first two notifications of any other category, in firing order: no
analytics notification is dropped and at most two others are kept. -/
theorem limitedNotifications_spec (l : List Notification) (s : State) (now : ℤ)
    (dd : Option DashboardData) :
    limitedNotifications l =
      l.filter (fun n => decide (n.category = some "analytics")) ++
        (l.filter (fun n => decide (n.category ≠ some "analytics"))).take 2 ∧
    (∀ n ∈ l, n.category = some "analytics" → n ∈ limitedNotifications l) ∧
    (limitedNotifications l).filter (fun n => decide (n.category = some "analytics")) =
      l.filter (fun n => decide (n.category = some "analytics")) ∧
    (limitedNotifications l).filter (fun n => decide (n.category ≠ some "analytics")) =
      (l.filter (fun n => decide (n.category ≠ some "analytics"))).take 2 ∧
    ((limitedNotifications l).filter
      (fun n => decide (n.category ≠ some "analytics"))).length ≤ 2 ∧
    (notificationEffect now dd s).notifications =
      limitedNotifications (newNotifications s now dd) ++ s.notifications := by
  have hA : (l.filter (fun n => decide (n.category = some "analytics"))).filter
      (fun n => decide (n.category ≠ some "analytics")) = [] := by
    rw [List.filter_eq_nil_iff]
    intro n hn
    have := (List.mem_filter.1 hn).2
    simpa using this
  have hB : ((l.filter (fun n => decide (n.category ≠ some "analytics"))).take 2).filter
      (fun n => decide (n.category = some "analytics")) = [] := by
    rw [List.filter_eq_nil_iff]
    intro n hn
    have := (List.mem_filter.1 (List.mem_of_mem_take hn)).2
    simpa using this
  have hB' : ((l.filter (fun n => decide (n.category ≠ some "analytics"))).take 2).filter
      (fun n => decide (n.category ≠ some "analytics")) =
      (l.filter (fun n => decide (n.category ≠ some "analytics"))).take 2 := by
    rw [List.filter_eq_self]
    intro n hn
    exact (List.mem_filter.1 (List.mem_of_mem_take hn)).2
  have hnon : (limitedNotifications l).filter
      (fun n => decide (n.category ≠ some "analytics")) =
      (l.filter (fun n => decide (n.category ≠ some "analytics"))).take 2 := by
    unfold limitedNotifications
    dsimp only
    rw [List.filter_append, hA, hB', List.nil_append]
  refine ⟨rfl, ?_, ?_, hnon, ?_, notificationEffect_notifications now dd s⟩
  · intro n hn hcat
    unfold limitedNotifications
    dsimp only
    exact List.mem_append_left _ (List.mem_filter.2 ⟨hn, by simpa using hcat⟩)
  · unfold limitedNotifications
    dsimp only
    rw [List.filter_append, hB, List.append_nil, List.filter_filter]
    apply List.filter_congr
    intro n _
    simp
  · rw [hnon, List.length_take]
    exact Nat.min_le_left _ _

end AdminDashboard

/-- C14, as stated, fails: the per-pass cap drops notifications of rules that fired.
From the initial state, the pass at time 1000 on a snapshot with `todaysRevenue = 12000`,
`todaysTickets = 100`, `totalTickets = 300`, `driversRegistered = 10` and
`assignedDrivers = 2` marks `unassigned-drivers` and writes its cooldown entry, but the
rule's notification is the third non-analytics one and is not in the list prepended to
the store. -/
theorem AdminDashboard.fired_rule_dropped_by_cap :
    "unassigned-drivers" ∈ AdminDashboard.markedRules State.init 1000
      (some ⟨none, some 300, some 12000, some 100, some 10, some 2, none⟩) ∧
    (AdminDashboard.notificationEffect 1000
      (some ⟨none, some 300, some 12000, some 100, some 10, some 2, none⟩)
      State.init).notificationHistory "unassigned-drivers" = some 1000 ∧
    AdminDashboard.countRule "unassigned-drivers"
      (AdminDashboard.newNotifications State.init 1000
        (some ⟨none, some 300, some 12000, some 100, some 10, some 2, none⟩)) = 1 ∧
    AdminDashboard.countRule "unassigned-drivers"
      (AdminDashboard.limitedNotifications (AdminDashboard.newNotifications State.init 1000
        (some ⟨none, some 300, some 12000, some 100, some 10, some 2, none⟩))) = 0 := by
  decide!

/-- C14 (amended): what a firing rule leaves in a pass, before and after the cap.
In AdminDashboard every rule that pushes a notification in a pass is marked and has exactly
one notification among the pass's `newNotifications`; the list prepended to the store holds
at most one notification of it, and exactly one when the rule is one of the six analytics
rules.  In SuperAdminDashboard every rule marked in a pass has exactly one notification
among the pass's `newNotifications`; the list prepended to the store is their first three,
so it holds at most one notification of the rule, and exactly one when the pass pushed at
most three. -/
theorem fired_rule_notifications (s : State) (now : ℤ) :
    (∀ (dd : Option AdminDashboard.DashboardData) (R : String),
      (∃ n ∈ AdminDashboard.newNotifications s now dd, AdminDashboard.ruleOf n = some R) →
      R ∈ AdminDashboard.markedRules s now dd ∧
      AdminDashboard.countRule R (AdminDashboard.newNotifications s now dd) = 1 ∧
      AdminDashboard.countRule R
        (AdminDashboard.limitedNotifications (AdminDashboard.newNotifications s now dd)) ≤ 1 ∧
      (R ∈ AdminDashboard.analyticsTypes →
        AdminDashboard.countRule R
          (AdminDashboard.limitedNotifications (AdminDashboard.newNotifications s now dd)) =
          1)) ∧
    (∀ (data : Option (List SuperAdminDashboard.Company)) (R : String),
      R ∈ SuperAdminDashboard.markedRules s now data →
      countTagged R (SuperAdminDashboard.newNotifications s now data) = 1 ∧
      countTagged R ((SuperAdminDashboard.newNotifications s now data).take 3) ≤ 1 ∧
      ((SuperAdminDashboard.newNotifications s now data).length ≤ 3 →
        countTagged R ((SuperAdminDashboard.newNotifications s now data).take 3) = 1)) := by
  constructor
  · intro dd R hex
    obtain ⟨n, hn, hR⟩ := hex
    have hmark : R ∈ AdminDashboard.markedRules s now dd := by
      obtain ⟨_, _, _, R', _, hR', hm⟩ := AdminDashboard.newNotifications_sound hn
      rw [hR] at hR'
      cases hR'
      exact hm
    rcases AdminDashboard.newNotifications_eq_nil_or s now dd with ⟨hnil, _⟩ | ⟨d, _, hnew, _⟩
    · rw [hnil] at hn
      exact absurd hn (List.not_mem_nil _)
    · have hle : AdminDashboard.countRule R (AdminDashboard.newNotifications s now dd) ≤ 1 := by
        rw [hnew]
        exact AdminDashboard.countRule_pushed_le_one _ now d R
      have hge : 1 ≤ AdminDashboard.countRule R (AdminDashboard.newNotifications s now dd) := by
        unfold AdminDashboard.countRule
        exact List.length_pos_of_mem (List.mem_filter.2 ⟨hn, by simpa using hR⟩)
      have hone : AdminDashboard.countRule R (AdminDashboard.newNotifications s now dd) = 1 :=
        le_antisymm hle hge
      refine ⟨hmark, hone, le_trans (AdminDashboard.countRule_limited_le R _) hle, ?_⟩
      intro ha
      unfold AdminDashboard.countRule at hone ⊢
      rw [AdminDashboard.limitedNotifications_filter, hone]
      intro m hm hp
      rw [hnew] at hm
      exact AdminDashboard.category_of_analytics_rule hm (by simpa using hp) ha
  · intro data R hR
    cases data with
    | none => simp [SuperAdminDashboard.markedRules] at hR
    | some companies =>
      by_cases hg : SuperAdminDashboard.gateClosed s now = true
      · simp [SuperAdminDashboard.markedRules, hg] at hR
      · have hnew : SuperAdminDashboard.newNotifications s now (some companies) =
            (SuperAdminDashboard.evaluateRules s.notificationHistory now companies).pushed := by
          simp [SuperAdminDashboard.newNotifications, hg]
        have hR' : R ∈
            (SuperAdminDashboard.evaluateRules s.notificationHistory now companies).marked := by
          simpa [SuperAdminDashboard.markedRules, hg] using hR
        have hone := SuperAdminDashboard.countTagged_pushed _ now companies R hR'
        rw [hnew]
        refine ⟨hone, ?_, ?_⟩
        · rw [← hone]
          unfold countTagged
          rw [← List.countP_eq_length_filter, ← List.countP_eq_length_filter]
          exact (List.take_sublist _ _).countP_le _
        · intro hlen
          rw [List.take_of_length_le hlen]
          exact hone

/-- C15 at its failing input: the comparison rule consumes its cooldown without pushing.
From the initial state, the pass at time 1000 on a snapshot with `totalRevenue = 1000`,
`totalTickets = 10`, `todaysRevenue = 0` and `todaysTickets = 5` marks
`revenue-ticket-comparison` and writes its cooldown entry although no notification of the
rule is pushed. -/
theorem AdminDashboard.comparison_marked_without_push :
    "revenue-ticket-comparison" ∈ AdminDashboard.markedRules State.init 1000
      (some ⟨some 1000, some 10, some 0, some 5, none, none, none⟩) ∧
    (AdminDashboard.notificationEffect 1000
      (some ⟨some 1000, some 10, some 0, some 5, none, none, none⟩)
      State.init).notificationHistory "revenue-ticket-comparison" = some 1000 ∧
    AdminDashboard.countRule "revenue-ticket-comparison"
      (AdminDashboard.newNotifications State.init 1000
        (some ⟨some 1000, some 10, some 0, some 5, none, none, none⟩)) = 0 := by
  decide!

theorem Paired.pushed_of_marked {owner : Notification → Option String} {rules : List String}
    {o : RuleOut} (ho : Paired owner rules o) {R : String} (hR : R ∈ o.marked) :
    ∃ n ∈ o.pushed, owner n = some R := by
  have : some R ∈ o.pushed.map owner := by
    rw [ho.2]
    exact List.mem_map.2 ⟨R, hR, rfl⟩
  obtain ⟨n, hn, hrn⟩ := List.mem_map.1 this
  exact ⟨n, hn, hrn⟩

/-- Apart from `revenue-ticket-comparison`, marks and pushes coincide in a pass of
AdminDashboard: a rule that pushes is marked, a marked rule other than the comparison rule
pushed a notification, and no rule is marked twice. -/
theorem AdminDashboard.marks_match_pushes (s : State) (now : ℤ)
    (dd : Option AdminDashboard.DashboardData) (R : String) :
    ((∃ n ∈ AdminDashboard.newNotifications s now dd, AdminDashboard.ruleOf n = some R) →
      R ∈ AdminDashboard.markedRules s now dd) ∧
    (R ≠ "revenue-ticket-comparison" → R ∈ AdminDashboard.markedRules s now dd →
      ∃ n ∈ AdminDashboard.newNotifications s now dd, AdminDashboard.ruleOf n = some R) ∧
    (AdminDashboard.markedRules s now dd).Nodup := by
  refine ⟨?_, ?_, ?_⟩
  · rintro ⟨n, hn, hR⟩
    obtain ⟨_, _, _, R', _, hR', hm⟩ := AdminDashboard.newNotifications_sound hn
    rw [hR] at hR'
    cases hR'
    exact hm
  · intro hne hR
    rcases AdminDashboard.newNotifications_eq_nil_or s now dd with ⟨_, hnil⟩ | ⟨d, _, hnew, hmk⟩
    · rw [hnil] at hR
      exact absurd hR (List.not_mem_nil _)
    · rw [hmk] at hR
      rw [hnew, AdminDashboard.evaluateRules_pushed]
      have hR' : R ∈
          (AdminDashboard.highRevenueEfficiency
            (AdminDashboard.shouldGenerateNotification s.notificationHistory now) now d).marked ++
          ((AdminDashboard.dailyTicketGoalRule
            (AdminDashboard.shouldGenerateNotification s.notificationHistory now) now d).marked ++
          ((AdminDashboard.revenueHealthCheck
            (AdminDashboard.shouldGenerateNotification s.notificationHistory now) now d).marked ++
          ((AdminDashboard.revenueTicketComparison
            (AdminDashboard.shouldGenerateNotification s.notificationHistory now) now d).marked ++
          ((AdminDashboard.totalRevenueMilestone
            (AdminDashboard.shouldGenerateNotification s.notificationHistory now) now d).marked ++
          ((AdminDashboard.ticketVolumeAnalysis
            (AdminDashboard.shouldGenerateNotification s.notificationHistory now) now d).marked ++
          ((AdminDashboard.revenueTargetRules
            (AdminDashboard.shouldGenerateNotification s.notificationHistory now) now d).marked ++
          ((AdminDashboard.ticketSalesRules
            (AdminDashboard.shouldGenerateNotification s.notificationHistory now) now d).marked ++
          ((AdminDashboard.driverUtilizationRules
            (AdminDashboard.shouldGenerateNotification s.notificationHistory now) now d).marked ++
          (AdminDashboard.vehicleUtilizationRules
            (AdminDashboard.shouldGenerateNotification s.notificationHistory now) now
            d).marked)))))))) := hR
      simp only [List.mem_append] at hR' ⊢
      rcases hR' with h | h | h | h | h | h | h | h | h | h
      · obtain ⟨n, hn, hr⟩ := (AdminDashboard.highRevenueEfficiency_paired _ now d).pushed_of_marked h
        exact ⟨n, by tauto, hr⟩
      · obtain ⟨n, hn, hr⟩ := (AdminDashboard.dailyTicketGoalRule_paired _ now d).pushed_of_marked h
        exact ⟨n, by tauto, hr⟩
      · obtain ⟨n, hn, hr⟩ := (AdminDashboard.revenueHealthCheck_paired _ now d).pushed_of_marked h
        exact ⟨n, by tauto, hr⟩
      · have := (AdminDashboard.revenueTicketComparison_marked _ now d).1.subset h
        simp only [List.mem_singleton] at this
        exact absurd this hne
      · obtain ⟨n, hn, hr⟩ := (AdminDashboard.totalRevenueMilestone_paired _ now d).pushed_of_marked h
        exact ⟨n, by tauto, hr⟩
      · obtain ⟨n, hn, hr⟩ := (AdminDashboard.ticketVolumeAnalysis_paired _ now d).pushed_of_marked h
        exact ⟨n, by tauto, hr⟩
      · obtain ⟨n, hn, hr⟩ := (AdminDashboard.revenueTargetRules_paired _ now d).pushed_of_marked h
        exact ⟨n, by tauto, hr⟩
      · obtain ⟨n, hn, hr⟩ := (AdminDashboard.ticketSalesRules_paired _ now d).pushed_of_marked h
        exact ⟨n, by tauto, hr⟩
      · obtain ⟨n, hn, hr⟩ := (AdminDashboard.driverUtilizationRules_paired _ now d).pushed_of_marked h
        exact ⟨n, by tauto, hr⟩
      · obtain ⟨n, hn, hr⟩ := (AdminDashboard.vehicleUtilizationRules_paired _ now d).pushed_of_marked h
        exact ⟨n, by tauto, hr⟩
  · rcases AdminDashboard.newNotifications_eq_nil_or s now dd with ⟨_, hnil⟩ | ⟨d, _, _, hmk⟩
    · rw [hnil]
      exact List.nodup_nil
    · rw [hmk]
      exact (AdminDashboard.evaluateRules_paired _ now d).1.nodup AdminDashboard.ruleIds_nodup

/-! ## A rule pushes only when its condition holds -/

namespace AdminDashboard

theorem highRevenueEfficiency_only_if (should : String → Bool) (now : ℤ) (d : DashboardData) :
    ∀ n ∈ (highRevenueEfficiency should now d).pushed, ∀ R, ruleOf n = some R →
      ruleCondition R d = true := by
  intro n hn R hR
  unfold highRevenueEfficiency at hn
  dsimp only at hn
  by_cases h : avgRevenuePerTicket d > 0 ∧ should "high-revenue-efficiency" = true
  · rw [if_pos h] at hn
    simp only [RuleOut.fire, List.mem_singleton] at hn
    subst hn
    simp only [ruleOf, ruleOfTag, String.reduceEq, if_true, if_false, Option.some.injEq] at hR
    subst hR
    simp only [ruleCondition, String.reduceEq, if_true, if_false]
    simpa using h.1
  · rw [if_neg h] at hn
    simp [RuleOut.skip] at hn

theorem dailyTicketGoalRule_only_if (should : String → Bool) (now : ℤ) (d : DashboardData) :
    ∀ n ∈ (dailyTicketGoalRule should now d).pushed, ∀ R, ruleOf n = some R →
      ruleCondition R d = true := by
  intro n hn R hR
  have hsound := (dailyTicketGoalRule_sound should now d).rule_mem hn hR
  simp only [List.mem_singleton] at hsound
  subst hsound
  unfold dailyTicketGoalRule at hn
  dsimp only at hn
  by_cases h : orZero d.todaysTickets ≥ 0 ∧ should "daily-ticket-goal" = true
  · simp only [ruleCondition, String.reduceEq, if_true, if_false]
    simpa using h.1
  · rw [if_neg h] at hn
    simp [RuleOut.skip] at hn

theorem revenueHealthCheck_only_if (should : String → Bool) (now : ℤ) (d : DashboardData) :
    ∀ n ∈ (revenueHealthCheck should now d).pushed, ∀ R, ruleOf n = some R →
      ruleCondition R d = true := by
  intro n hn R hR
  have hsound := (revenueHealthCheck_sound should now d).rule_mem hn hR
  simp only [List.mem_singleton] at hsound
  subst hsound
  unfold revenueHealthCheck at hn
  dsimp only at hn
  by_cases h : orZero d.todaysRevenue ≥ 0 ∧ should "revenue-health-check" = true
  · simp only [ruleCondition, String.reduceEq, if_true, if_false]
    simpa using h.1
  · rw [if_neg h] at hn
    simp [RuleOut.skip] at hn

theorem totalRevenueMilestone_only_if (should : String → Bool) (now : ℤ) (d : DashboardData) :
    ∀ n ∈ (totalRevenueMilestone should now d).pushed, ∀ R, ruleOf n = some R →
      ruleCondition R d = true := by
  intro n hn R hR
  have hsound := (totalRevenueMilestone_sound should now d).rule_mem hn hR
  simp only [List.mem_singleton] at hsound
  subst hsound
  unfold totalRevenueMilestone at hn
  dsimp only at hn
  by_cases h : orZero d.totalRevenue > 0 ∧ should "total-revenue-milestone" = true
  · simp only [ruleCondition, String.reduceEq, if_true, if_false]
    simpa using h.1
  · rw [if_neg h] at hn
    simp [RuleOut.skip] at hn

theorem ticketVolumeAnalysis_only_if (should : String → Bool) (now : ℤ) (d : DashboardData) :
    ∀ n ∈ (ticketVolumeAnalysis should now d).pushed, ∀ R, ruleOf n = some R →
      ruleCondition R d = true := by
  intro n hn R hR
  have hsound := (ticketVolumeAnalysis_sound should now d).rule_mem hn hR
  simp only [List.mem_singleton] at hsound
  subst hsound
  unfold ticketVolumeAnalysis at hn
  dsimp only at hn
  by_cases h : orZero d.totalTickets > 0 ∧ should "ticket-volume-analysis" = true
  · simp only [ruleCondition, String.reduceEq, if_true, if_false]
    simpa using h.1
  · rw [if_neg h] at hn
    simp [RuleOut.skip] at hn

theorem revenueTicketComparison_only_if (should : String → Bool) (now : ℤ)
    (d : DashboardData) :
    ∀ n ∈ (revenueTicketComparison should now d).pushed, ∀ R, ruleOf n = some R →
      ruleCondition R d = true := by
  intro n hn R hR
  have hsound := (revenueTicketComparison_sound should now d).rule_mem hn hR
  simp only [List.mem_singleton] at hsound
  subst hsound
  unfold revenueTicketComparison at hn
  dsimp only at hn
  by_cases h : orZero d.todaysTickets > 0 ∧ avgRevenuePerTicket d > 0 ∧
      should "revenue-ticket-comparison" = true
  · rw [if_pos h] at hn
    by_cases h2 : todaysAvgRevenuePerTicket d > 0
    · simp only [ruleCondition, String.reduceEq, if_true, if_false]
      simpa using ⟨h.1, h.2.1, h2⟩
    · rw [if_neg h2] at hn
      simp at hn
  · rw [if_neg h] at hn
    simp [RuleOut.skip] at hn

theorem revenueTargetRules_only_if (should : String → Bool) (now : ℤ) (d : DashboardData) :
    ∀ n ∈ (revenueTargetRules should now d).pushed, ∀ R, ruleOf n = some R →
      ruleCondition R d = true := by
  intro n hn R hR
  unfold revenueTargetRules at hn
  cases hr : d.todaysRevenue with
  | none => simp [hr, RuleOut.skip] at hn
  | some r =>
    rw [hr] at hn
    dsimp only at hn
    by_cases h0 : r > 0
    · rw [if_pos h0] at hn
      by_cases h1 : r ≥ targetRevenue ∧ should "revenue-target" = true
      · rw [if_pos h1] at hn
        simp only [RuleOut.fire, List.mem_singleton] at hn
        subst hn
        simp only [ruleOf, ruleOfTag, plain, String.reduceEq, or_self, if_true, if_false,
          Option.some.injEq] at hR
        subst hR
        simp only [ruleCondition, String.reduceEq, if_true, if_false]
        simpa [hr] using ⟨h0, h1.1⟩
      · rw [if_neg h1] at hn
        by_cases h2 : r < targetRevenue * (1 / 2) ∧ should "revenue-low" = true
        · rw [if_pos h2] at hn
          simp only [RuleOut.fire, List.mem_singleton] at hn
          subst hn
          simp only [ruleOf, ruleOfTag, plain, String.reduceEq, or_self, if_true, if_false,
          Option.some.injEq] at hR
          subst hR
          simp only [ruleCondition, String.reduceEq, if_true, if_false]
          simpa [hr] using ⟨h0, by simpa using h2.1⟩
        · rw [if_neg h2] at hn
          simp [RuleOut.skip] at hn
    · rw [if_neg h0] at hn
      simp [RuleOut.skip] at hn

theorem ticketSalesRules_only_if (should : String → Bool) (now : ℤ) (d : DashboardData) :
    ∀ n ∈ (ticketSalesRules should now d).pushed, ∀ R, ruleOf n = some R →
      ruleCondition R d = true := by
  intro n hn R hR
  unfold ticketSalesRules at hn
  cases ht : d.todaysTickets with
  | none => simp [ht, RuleOut.skip] at hn
  | some t =>
    rw [ht] at hn
    dsimp only at hn
    by_cases h1 : (((JSNum.ofField d.totalTickets).divPos 30).mulPos (6 / 5)).lt t = true ∧
        should "tickets-high" = true
    · rw [if_pos h1] at hn
      simp only [RuleOut.fire, List.mem_singleton] at hn
      subst hn
      simp only [ruleOf, ruleOfTag, plain, String.reduceEq, or_self, if_true, if_false,
          Option.some.injEq] at hR
      subst hR
      simp only [ruleCondition, String.reduceEq, if_true, if_false]
      simpa [ht] using h1.1
    · rw [if_neg h1] at hn
      by_cases h2 : (((JSNum.ofField d.totalTickets).divPos 30).mulPos (4 / 5)).gt t = true ∧
          t > 0 ∧ should "tickets-low" = true
      · rw [if_pos h2] at hn
        simp only [RuleOut.fire, List.mem_singleton] at hn
        subst hn
        simp only [ruleOf, ruleOfTag, plain, String.reduceEq, or_self, if_true, if_false,
          Option.some.injEq] at hR
        subst hR
        simp only [ruleCondition, String.reduceEq, if_true, if_false]
        simpa [ht] using ⟨h2.1, h2.2.1⟩
      · rw [if_neg h2] at hn
        simp [RuleOut.skip] at hn

theorem driverUtilizationRules_only_if (should : String → Bool) (now : ℤ)
    (d : DashboardData) :
    ∀ n ∈ (driverUtilizationRules should now d).pushed, ∀ R, ruleOf n = some R →
      ruleCondition R d = true := by
  intro n hn R hR
  unfold driverUtilizationRules at hn
  cases hdr : d.driversRegistered with
  | none => simp [hdr, RuleOut.skip] at hn
  | some dr =>
    cases had : d.assignedDrivers with
    | none => simp [hdr, had, RuleOut.skip] at hn
    | some ad =>
      rw [hdr, had] at hn
      dsimp only at hn
      by_cases h0 : dr ≠ 0 ∧ ad ≠ 0
      · rw [if_pos h0] at hn
        simp only [RuleOut.seq, List.mem_append] at hn
        rcases hn with hn | hn
        · by_cases h1 : dr - ad > 3 ∧ should "unassigned-drivers" = true
          · rw [if_pos h1] at hn
            simp only [RuleOut.fire, List.mem_singleton] at hn
            subst hn
            simp only [ruleOf, ruleOfTag, plain, String.reduceEq, or_self, if_true, if_false,
          Option.some.injEq] at hR
            subst hR
            simp only [ruleCondition, String.reduceEq, if_true, if_false]
            simpa [hdr, had] using ⟨h0.1, h0.2, h1.1⟩
          · rw [if_neg h1] at hn
            simp [RuleOut.skip] at hn
        · by_cases h2 : utilizationRate dr ad < 70 ∧ dr > 5 ∧
              should "driver-utilization-low" = true
          · rw [if_pos h2] at hn
            simp only [RuleOut.fire, List.mem_singleton] at hn
            subst hn
            simp only [ruleOf, ruleOfTag, plain, String.reduceEq, or_self, if_true, if_false,
          Option.some.injEq] at hR
            subst hR
            simp only [ruleCondition, String.reduceEq, if_true, if_false]
            simpa [hdr, had] using ⟨h0.1, h0.2, h2.1, h2.2.1⟩
          · rw [if_neg h2] at hn
            by_cases h3 : utilizationRate dr ad > 95 ∧ dr > 5 ∧ should "driver-shortage" = true
            · rw [if_pos h3] at hn
              simp only [RuleOut.fire, List.mem_singleton] at hn
              subst hn
              simp only [ruleOf, ruleOfTag, plain, String.reduceEq, or_self, if_true, if_false,
          Option.some.injEq] at hR
              subst hR
              simp only [ruleCondition, String.reduceEq, if_true, if_false]
              simpa [hdr, had] using ⟨h0.1, h0.2, h3.1, h3.2.1⟩
            · rw [if_neg h3] at hn
              simp [RuleOut.skip] at hn
      · rw [if_neg h0] at hn
        simp [RuleOut.skip] at hn

theorem vehicleUtilizationRules_only_if (should : String → Bool) (now : ℤ)
    (d : DashboardData) :
    ∀ n ∈ (vehicleUtilizationRules should now d).pushed, ∀ R, ruleOf n = some R →
      ruleCondition R d = true := by
  intro n hn R hR
  unfold vehicleUtilizationRules at hn
  cases htv : d.totalVehicles with
  | none => simp [htv, RuleOut.skip] at hn
  | some tv =>
    cases had : d.assignedDrivers with
    | none => simp [htv, had, RuleOut.skip] at hn
    | some ad =>
      rw [htv, had] at hn
      dsimp only at hn
      by_cases h0 : tv ≠ 0 ∧ ad ≠ 0
      · rw [if_pos h0] at hn
        simp only [RuleOut.seq, List.mem_append] at hn
        rcases hn with hn | hn
        · by_cases h1 : tv - ad > 0 ∧ should "unused-vehicles" = true
          · rw [if_pos h1] at hn
            simp only [RuleOut.fire, List.mem_singleton] at hn
            subst hn
            simp only [ruleOf, ruleOfTag, plain, String.reduceEq, or_self, if_true, if_false,
          Option.some.injEq] at hR
            subst hR
            simp only [ruleCondition, String.reduceEq, if_true, if_false]
            simpa [htv, had] using ⟨h0.1, h0.2, by simpa using h1.1⟩
          · rw [if_neg h1] at hn
            simp [RuleOut.skip] at hn
        · by_cases h2 : ad > tv ∧ should "vehicle-shortage" = true
          · rw [if_pos h2] at hn
            simp only [RuleOut.fire, List.mem_singleton] at hn
            subst hn
            simp only [ruleOf, ruleOfTag, plain, String.reduceEq, or_self, if_true, if_false,
          Option.some.injEq] at hR
            subst hR
            simp only [ruleCondition, String.reduceEq, if_true, if_false]
            simpa [htv, had] using ⟨h0.1, h0.2, h2.1⟩
          · rw [if_neg h2] at hn
            simp [RuleOut.skip] at hn
      · rw [if_neg h0] at hn
        simp [RuleOut.skip] at hn

/-- A rule fires in a pass exactly when its condition holds and its cooldown check
passes: a notification of rule `R` is pushed iff `ruleCondition R` holds on the snapshot
and `shouldGenerateNotification R` is true. -/
theorem evaluateRules_fires_iff (h : History) (now : ℤ) (d : DashboardData) (R : String) :
    (∃ n ∈ (evaluateRules h now d).pushed, ruleOf n = some R) ↔
      ruleCondition R d = true ∧ shouldGenerateNotification h now R = true := by
  constructor
  · rintro ⟨n, hn, hR⟩
    constructor
    · obtain ⟨b1, b2, b3, b4, b5, b6, b7, b8, b9, b10⟩ := pushed_block hn hR
      have hmem := (evaluateRules_sound h now d).rule_mem hn hR
      simp only [ruleIds, List.mem_cons, List.mem_singleton, List.not_mem_nil,
        or_false] at hmem
      rcases hmem with e | e | e | e | e | e | e | e | e | e | e | e | e | e | e
      · exact highRevenueEfficiency_only_if _ now d n (b1 (by simp [e])) R hR
      · exact dailyTicketGoalRule_only_if _ now d n (b2 (by simp [e])) R hR
      · exact revenueHealthCheck_only_if _ now d n (b3 (by simp [e])) R hR
      · exact revenueTicketComparison_only_if _ now d n (b4 (by simp [e])) R hR
      · exact totalRevenueMilestone_only_if _ now d n (b5 (by simp [e])) R hR
      · exact ticketVolumeAnalysis_only_if _ now d n (b6 (by simp [e])) R hR
      · exact revenueTargetRules_only_if _ now d n (b7 (by simp [e])) R hR
      · exact revenueTargetRules_only_if _ now d n (b7 (by simp [e])) R hR
      · exact ticketSalesRules_only_if _ now d n (b8 (by simp [e])) R hR
      · exact ticketSalesRules_only_if _ now d n (b8 (by simp [e])) R hR
      · exact driverUtilizationRules_only_if _ now d n (b9 (by simp [e])) R hR
      · exact driverUtilizationRules_only_if _ now d n (b9 (by simp [e])) R hR
      · exact driverUtilizationRules_only_if _ now d n (b9 (by simp [e])) R hR
      · exact vehicleUtilizationRules_only_if _ now d n (b10 (by simp [e])) R hR
      · exact vehicleUtilizationRules_only_if _ now d n (b10 (by simp [e])) R hR
    · obtain ⟨_, _, _, R', _, hR', hm⟩ := (evaluateRules_sound h now d).1 n hn
      rw [hR] at hR'
      cases hR'
      exact ((evaluateRules_sound h now d).2 R hm).2
  · rintro ⟨hc, hs⟩
    exact evaluateRules_fires h now d R hc hs

theorem newNotifications_of_open {s : State} {now : ℤ} (d : DashboardData)
    (hgate : gateClosed s now = false) :
    newNotifications s now (some d) = (evaluateRules s.notificationHistory now d).pushed := by
  simp [newNotifications, hgate]

theorem not_fired_of_condition_false {s : State} {now : ℤ} {dd : Option DashboardData}
    {d : DashboardData} (hdd : dd = some d) {R : String} (hc : ruleCondition R d = false) :
    ∀ n ∈ newNotifications s now dd, ruleOf n ≠ some R := by
  intro n hn hR
  rcases newNotifications_eq_nil_or s now dd with ⟨hnil, _⟩ | ⟨d', hd', hnew, _⟩
  · rw [hnil] at hn
    exact absurd hn (List.not_mem_nil _)
  · rw [hdd] at hd'
    cases hd'
    rw [hnew] at hn
    have := ((evaluateRules_fires_iff s.notificationHistory now d R).1 ⟨n, hn, hR⟩).1
    rw [hc] at this
    exact absurd this (by simp)

theorem shouldGenerateNotification_of_empty {h : History} (now : ℤ) (R : String)
    (hR : h R = none) : shouldGenerateNotification h now R = true := by
  unfold shouldGenerateNotification
  simp [hR]

/-! ## Scenario A: the revenue target is met (C16) -/

/-- C16: scenario A generalised.  For every AdminDashboard snapshot with
`todaysRevenue >= 10000`, on a pass that evaluates its rules (it is not skipped by the gate,
as on first load) with an empty cooldown history, the pass produces, and prepends to the
store, a notification of type `success` and category `analytics` whose message carries the
revenue figure: the one of the `revenue-health-check` rule. -/
theorem scenario_revenue_target_met (s : State) (now : ℤ) (d : DashboardData) (r : ℚ)
    (hr : d.todaysRevenue = some r) (h10 : r ≥ 10000)
    (hempty : ∀ k, s.notificationHistory k = none) (hgate : gateClosed s now = false) :
    ∃ n ∈ newNotifications s now (some d),
      n ∈ (notificationEffect now (some d) s).notifications ∧
      n.type = "success" ∧
      (n.category = some "analytics" ∨ n.category = some "revenue") ∧
      MsgPart.locale (.fin r) ∈ n.message ∧
      ruleOf n = some "revenue-health-check" := by
  have hz : orZero d.todaysRevenue = r := by simp [hr, orZero]
  have hs := @shouldGenerateNotification_of_empty s.notificationHistory now
    "revenue-health-check" (hempty _)
  have hblock : (revenueHealthCheck (shouldGenerateNotification s.notificationHistory now)
      now d).pushed =
      [{ id := .tagged "revenue-health" now
         type := (revenueHealth r).2
         title := none
         message := (revenueHealth r).1
         timestamp := now
         read := false
         category := some "analytics"
         icon := some "dollar" }] := by
    unfold revenueHealthCheck
    dsimp only
    rw [hz, if_pos ⟨by linarith, hs⟩]
    rfl
  have hmem : ({ id := .tagged "revenue-health" now
                 type := (revenueHealth r).2
                 title := none
                 message := (revenueHealth r).1
                 timestamp := now
                 read := false
                 category := some "analytics"
                 icon := some "dollar" } : Notification) ∈
      newNotifications s now (some d) := by
    rw [newNotifications_of_open d hgate, evaluateRules_pushed, hblock]
    simp
  refine ⟨_, hmem, ?_, ?_, Or.inl rfl, ?_, by simp [ruleOf, ruleOfTag]⟩
  · rw [notificationEffect_notifications]
    apply List.mem_append_left
    unfold limitedNotifications
    dsimp only
    exact List.mem_append_left _ (List.mem_filter.2 ⟨hmem, by simp⟩)
  · show (revenueHealth r).2 = "success"
    unfold revenueHealth
    by_cases h15 : r ≥ 15000
    · rw [if_pos h15]
    · rw [if_neg h15, if_pos h10]
  · show MsgPart.locale (.fin r) ∈ (revenueHealth r).1
    unfold revenueHealth
    by_cases h15 : r ≥ 15000
    · rw [if_pos h15]
      simp
    · rw [if_neg h15, if_pos h10]
      simp

/-- Witness of C16: `todaysRevenue = 12000` against the target 10000, from the initial
state. -/
theorem scenario_revenue_target_met_witness :
    ∃ n ∈ newNotifications State.init 1000
        (some ⟨none, none, some 12000, none, none, none, none⟩),
      n ∈ (notificationEffect 1000 (some ⟨none, none, some 12000, none, none, none, none⟩)
        State.init).notifications ∧
      n.type = "success" ∧
      (n.category = some "analytics" ∨ n.category = some "revenue") ∧
      MsgPart.locale (.fin 12000) ∈ n.message ∧
      ruleOf n = some "revenue-health-check" :=
  scenario_revenue_target_met State.init 1000 ⟨none, none, some 12000, none, none, none, none⟩
    12000 rfl (by norm_num) (fun _ => rfl) (by decide)

/-! ## Scenario B: utilization bands (C17) -/

/-- C17: utilization bands in AdminDashboard.  For every snapshot with
`driversRegistered > 5` and `assignedDrivers > 0`, on a pass that is not skipped and on
which both rules pass their cooldown check, with `rate = assignedDrivers /
driversRegistered * 100` compared exactly, the pass pushes the low-utilization warning iff
`rate < 70`, the high-utilization (shortage) warning iff `rate > 95`, neither iff
`70 <= rate <= 95`, and never both; each warning reports `rate.toFixed(1)`. -/
theorem utilization_bands (s : State) (now : ℤ) (d : DashboardData) (dr ad : ℚ)
    (hdr : d.driversRegistered = some dr) (had : d.assignedDrivers = some ad)
    (h5 : dr > 5) (hpos : ad > 0) (hgate : gateClosed s now = false)
    (hlow : shouldGenerateNotification s.notificationHistory now "driver-utilization-low" =
      true)
    (hhigh : shouldGenerateNotification s.notificationHistory now "driver-shortage" = true) :
    ((∃ n ∈ newNotifications s now (some d), ruleOf n = some "driver-utilization-low") ↔
      ad / dr * 100 < 70) ∧
    ((∃ n ∈ newNotifications s now (some d), ruleOf n = some "driver-shortage") ↔
      ad / dr * 100 > 95) ∧
    ((∀ n ∈ newNotifications s now (some d),
        ruleOf n ≠ some "driver-utilization-low" ∧ ruleOf n ≠ some "driver-shortage") ↔
      70 ≤ ad / dr * 100 ∧ ad / dr * 100 ≤ 95) ∧
    ¬ ((∃ n ∈ newNotifications s now (some d), ruleOf n = some "driver-utilization-low") ∧
       (∃ n ∈ newNotifications s now (some d), ruleOf n = some "driver-shortage")) ∧
    (ad / dr * 100 < 70 →
      plain "driver-utilization" now "warning"
        [.text "Driver utilization rate is only ", .fixed (.fin (ad / dr * 100)) 1,
         .text "%"] ∈ newNotifications s now (some d)) ∧
    (ad / dr * 100 > 95 →
      plain "driver-shortage" now "warning"
        [.text "High driver utilization (", .fixed (.fin (ad / dr * 100)) 1,
         .text "%) - consider recruiting"] ∈ newNotifications s now (some d)) := by
  have hdr0 : dr ≠ 0 := by linarith
  have had0 : ad ≠ 0 := by linarith
  have hrate : utilizationRate dr ad = ad / dr * 100 := by
    unfold utilizationRate
    rw [if_pos (by linarith)]
  have hnew := newNotifications_of_open d hgate
  have hA : (∃ n ∈ newNotifications s now (some d), ruleOf n = some "driver-utilization-low") ↔
      ad / dr * 100 < 70 := by
    rw [hnew, evaluateRules_fires_iff]
    simp only [ruleCondition, String.reduceEq, if_true, if_false, hdr, had, hlow, and_true]
    simp [hdr0, had0, hrate, h5]
  have hB : (∃ n ∈ newNotifications s now (some d), ruleOf n = some "driver-shortage") ↔
      ad / dr * 100 > 95 := by
    rw [hnew, evaluateRules_fires_iff]
    simp only [ruleCondition, String.reduceEq, if_true, if_false, hdr, had, hhigh, and_true]
    simp [hdr0, had0, hrate, h5]
  have hblock : ∀ n, n ∈ (driverUtilizationRules
      (shouldGenerateNotification s.notificationHistory now) now d).pushed →
      n ∈ newNotifications s now (some d) := by
    intro n hn
    rw [hnew, evaluateRules_pushed]
    simp only [List.mem_append]
    tauto
  refine ⟨hA, hB, ?_, ?_, ?_, ?_⟩
  · constructor
    · intro hnone
      constructor
      · by_contra hlt
        obtain ⟨n, hn, hR⟩ := hA.2 (not_le.1 hlt)
        exact (hnone n hn).1 hR
      · by_contra hgt
        obtain ⟨n, hn, hR⟩ := hB.2 (not_le.1 hgt)
        exact (hnone n hn).2 hR
    · rintro ⟨h70, h95⟩ n hn
      constructor
      · intro hR
        have := hA.1 ⟨n, hn, hR⟩
        linarith
      · intro hR
        have := hB.1 ⟨n, hn, hR⟩
        linarith
  · rintro ⟨h1, h2⟩
    have a := hA.1 h1
    have b := hB.1 h2
    linarith
  · intro hlt
    apply hblock
    unfold driverUtilizationRules
    rw [hdr, had]
    dsimp only
    have hcond : utilizationRate dr ad < 70 ∧ dr > 5 ∧
        shouldGenerateNotification s.notificationHistory now "driver-utilization-low" = true :=
      ⟨by rw [hrate]; exact hlt, h5, hlow⟩
    rw [if_pos ⟨hdr0, had0⟩, if_pos hcond, hrate]
    exact List.mem_append_right _ (List.mem_singleton_self _)
  · intro hgt
    apply hblock
    unfold driverUtilizationRules
    rw [hdr, had]
    dsimp only
    have hnot : ¬ (utilizationRate dr ad < 70 ∧ dr > 5 ∧
        shouldGenerateNotification s.notificationHistory now "driver-utilization-low" =
          true) := by
      rintro ⟨h, _⟩
      rw [hrate] at h
      linarith
    have hcond : utilizationRate dr ad > 95 ∧ dr > 5 ∧
        shouldGenerateNotification s.notificationHistory now "driver-shortage" = true :=
      ⟨by rw [hrate]; exact hgt, h5, hhigh⟩
    rw [if_pos ⟨hdr0, had0⟩, if_neg hnot, if_pos hcond, hrate]
    exact List.mem_append_right _ (List.mem_singleton_self _)

/-- Witness of C17: 70 of 120 drivers assigned gives the low-utilization warning reporting
58.3, and 115 of 120 gives the high-utilization warning reporting 95.8. -/
theorem utilization_bands_witness :
    plain "driver-utilization" 1000 "warning"
      [.text "Driver utilization rate is only ", .fixed (.fin (70 / 120 * 100)) 1,
       .text "%"] ∈
      newNotifications State.init 1000 (some ⟨none, none, none, none, some 120, some 70, none⟩) ∧
    toFixed (70 / 120 * 100) 1 = 583 / 10 ∧
    plain "driver-shortage" 1000 "warning"
      [.text "High driver utilization (", .fixed (.fin (115 / 120 * 100)) 1,
       .text "%) - consider recruiting"] ∈
      newNotifications State.init 1000
        (some ⟨none, none, none, none, some 120, some 115, none⟩) ∧
    toFixed (115 / 120 * 100) 1 = 958 / 10 :=
  ⟨(utilization_bands State.init 1000 ⟨none, none, none, none, some 120, some 70, none⟩ 120 70
      rfl rfl (by norm_num) (by norm_num) (by decide) (by decide) (by decide)).2.2.2.2.1
      (by norm_num),
    by decide!,
    (utilization_bands State.init 1000 ⟨none, none, none, none, some 120, some 115, none⟩ 120
      115 rfl rfl (by norm_num) (by norm_num) (by decide) (by decide) (by decide)).2.2.2.2.2
      (by norm_num),
    by decide!⟩

/-! ## Snapshots with missing fields (C20) -/

/-- C20, as stated, fails: a missing field is read as 0 and the two rules whose condition
is `>= 0` still fire.  From the initial state, the pass at time 1000 on a snapshot with
every field missing pushes one `revenue-health-check` and one `daily-ticket-goal`
notification. -/
theorem missing_fields_still_fire :
    (⟨none, none, none, none, none, none, none⟩ : DashboardData).todaysRevenue = none ∧
    (⟨none, none, none, none, none, none, none⟩ : DashboardData).todaysTickets = none ∧
    countRule "revenue-health-check"
      (newNotifications State.init 1000 (some ⟨none, none, none, none, none, none, none⟩)) =
      1 ∧
    countRule "daily-ticket-goal"
      (newNotifications State.init 1000 (some ⟨none, none, none, none, none, none, none⟩)) =
      1 := by
  decide!

/-- C20 (amended): a snapshot with missing fields never stops a pass, and a missing field
is read as 0 by the analytics rules.  On a pass that is not skipped: without
`todaysRevenue` the `revenue-health-check` rule (condition `>= 0`) still fires when its
cooldown allows, reporting 0, while `revenue-target` and `revenue-low` push nothing;
without `todaysTickets` the `daily-ticket-goal` rule still fires, reporting 0 tickets,
while `tickets-high`, `tickets-low` and `revenue-ticket-comparison` push nothing; without
`totalTickets` or `totalRevenue` the rules dividing by or testing them push nothing;
without a driver or vehicle count the driver and vehicle rules push nothing; and every
rule whose condition holds and whose cooldown allows still fires. -/
theorem missing_fields (s : State) (now : ℤ) (d : DashboardData)
    (hgate : gateClosed s now = false) :
    (d.todaysRevenue = none →
      shouldGenerateNotification s.notificationHistory now "revenue-health-check" = true →
      ∃ n ∈ newNotifications s now (some d),
        ruleOf n = some "revenue-health-check" ∧ n.type = "info" ∧
        n.message = [.text "Revenue tracking started for today. Current: Rs. ",
          .locale (.fin 0)]) ∧
    (d.todaysTickets = none →
      shouldGenerateNotification s.notificationHistory now "daily-ticket-goal" = true →
      ∃ n ∈ newNotifications s now (some d),
        ruleOf n = some "daily-ticket-goal" ∧ n.id = .tagged "ticket-goal-status" now ∧
        n.type = "info") ∧
    (d.todaysRevenue = none → ∀ n ∈ newNotifications s now (some d),
      ruleOf n ≠ some "revenue-target" ∧ ruleOf n ≠ some "revenue-low") ∧
    (d.todaysTickets = none → ∀ n ∈ newNotifications s now (some d),
      ruleOf n ≠ some "tickets-high" ∧ ruleOf n ≠ some "tickets-low" ∧
      ruleOf n ≠ some "revenue-ticket-comparison") ∧
    (d.totalTickets = none → ∀ n ∈ newNotifications s now (some d),
      ruleOf n ≠ some "high-revenue-efficiency" ∧
      ruleOf n ≠ some "revenue-ticket-comparison" ∧
      ruleOf n ≠ some "ticket-volume-analysis" ∧
      ruleOf n ≠ some "tickets-high" ∧ ruleOf n ≠ some "tickets-low") ∧
    (d.totalRevenue = none → ∀ n ∈ newNotifications s now (some d),
      ruleOf n ≠ some "total-revenue-milestone" ∧
      ruleOf n ≠ some "high-revenue-efficiency" ∧
      ruleOf n ≠ some "revenue-ticket-comparison") ∧
    (d.driversRegistered = none ∨ d.assignedDrivers = none →
      ∀ n ∈ newNotifications s now (some d),
        ruleOf n ≠ some "unassigned-drivers" ∧ ruleOf n ≠ some "driver-utilization-low" ∧
        ruleOf n ≠ some "driver-shortage") ∧
    (d.totalVehicles = none ∨ d.assignedDrivers = none →
      ∀ n ∈ newNotifications s now (some d),
        ruleOf n ≠ some "unused-vehicles" ∧ ruleOf n ≠ some "vehicle-shortage") ∧
    (∀ R, ruleCondition R d = true →
      shouldGenerateNotification s.notificationHistory now R = true →
      ∃ n ∈ newNotifications s now (some d), ruleOf n = some R) := by
  have hnew := newNotifications_of_open d hgate
  have hno : ∀ R, ruleCondition R d = false →
      ∀ n ∈ newNotifications s now (some d), ruleOf n ≠ some R :=
    fun R hc => @not_fired_of_condition_false s now (some d) d rfl R hc
  refine ⟨?_, ?_, ?_, ?_, ?_, ?_, ?_, ?_, ?_⟩
  · intro hr hs
    have hz : orZero d.todaysRevenue = 0 := by simp [hr, orZero]
    have hh : revenueHealth 0 =
        ([.text "Revenue tracking started for today. Current: Rs. ", .locale (.fin 0)],
          "info") := by
      unfold revenueHealth
      norm_num
    refine ⟨{ id := .tagged "revenue-health" now
              type := "info"
              title := none
              message := [.text "Revenue tracking started for today. Current: Rs. ",
                .locale (.fin 0)]
              timestamp := now
              read := false
              category := some "analytics"
              icon := some "dollar" }, ?_, by simp [ruleOf, ruleOfTag], rfl, rfl⟩
    rw [hnew, evaluateRules_pushed]
    have hb : (revenueHealthCheck (shouldGenerateNotification s.notificationHistory now)
        now d).pushed =
        [{ id := .tagged "revenue-health" now
           type := "info"
           title := none
           message := [.text "Revenue tracking started for today. Current: Rs. ",
             .locale (.fin 0)]
           timestamp := now
           read := false
           category := some "analytics"
           icon := some "dollar" }] := by
      unfold revenueHealthCheck
      dsimp only
      rw [hz, if_pos ⟨le_refl _, hs⟩, hh]
      rfl
    rw [hb]
    simp
  · intro ht hs
    have hz : orZero d.todaysTickets = 0 := by simp [ht, orZero]
    obtain ⟨n, hn, hR⟩ := dailyTicketGoalRule_fires
      (shouldGenerateNotification s.notificationHistory now) now d (by rw [hz]) hs
    have hn' : n ∈ newNotifications s now (some d) := by
      rw [hnew, evaluateRules_pushed]
      simp only [List.mem_append]
      tauto
    refine ⟨n, hn', hR, ?_, ?_⟩
    · unfold dailyTicketGoalRule at hn
      dsimp only at hn
      rw [hz, if_pos ⟨le_refl _, hs⟩] at hn
      simp only [RuleOut.fire, List.mem_singleton] at hn
      rw [hn]
      norm_num [dailyTicketGoal]
    · unfold dailyTicketGoalRule at hn
      dsimp only at hn
      rw [hz, if_pos ⟨le_refl _, hs⟩] at hn
      simp only [RuleOut.fire, List.mem_singleton] at hn
      rw [hn]
      norm_num [dailyTicketGoal]
  · intro hr n hn
    exact ⟨hno _ (by simp [ruleCondition, hr]) n hn, hno _ (by simp [ruleCondition, hr]) n hn⟩
  · intro ht n hn
    exact ⟨hno _ (by simp [ruleCondition, ht]) n hn, hno _ (by simp [ruleCondition, ht]) n hn,
      hno _ (by simp [ruleCondition, ht, orZero]) n hn⟩
  · intro ht n hn
    have havg : avgRevenuePerTicket d = 0 := by simp [avgRevenuePerTicket, ht, orZero]
    refine ⟨hno _ (by simp [ruleCondition, havg]) n hn,
      hno _ (by simp [ruleCondition, havg]) n hn,
      hno _ (by simp [ruleCondition, ht, orZero]) n hn, ?_, ?_⟩
    · apply hno _ _ n hn
      simp only [ruleCondition, String.reduceEq, if_true, if_false]
      cases d.todaysTickets <;> simp [ht, JSNum.ofField, JSNum.divPos, JSNum.mulPos, JSNum.lt]
    · apply hno _ _ n hn
      simp only [ruleCondition, String.reduceEq, if_true, if_false]
      cases d.todaysTickets <;> simp [ht, JSNum.ofField, JSNum.divPos, JSNum.mulPos, JSNum.gt]
  · intro hr n hn
    have havg : avgRevenuePerTicket d = 0 := by simp [avgRevenuePerTicket, hr, orZero]
    exact ⟨hno _ (by simp [ruleCondition, hr, orZero]) n hn,
      hno _ (by simp [ruleCondition, havg]) n hn,
      hno _ (by simp [ruleCondition, havg]) n hn⟩
  · intro hmiss n hn
    have key : ∀ R, R = "unassigned-drivers" ∨ R = "driver-utilization-low" ∨
        R = "driver-shortage" → ruleCondition R d = false := by
      intro R hR
      rcases hR with rfl | rfl | rfl <;>
        simp only [ruleCondition, String.reduceEq, if_true, if_false] <;>
        rcases hmiss with h | h <;> rw [h] <;> cases d.driversRegistered <;> rfl
    exact ⟨hno _ (key _ (by simp)) n hn, hno _ (key _ (by simp)) n hn,
      hno _ (key _ (by simp)) n hn⟩
  · intro hmiss n hn
    have key : ∀ R, R = "unused-vehicles" ∨ R = "vehicle-shortage" →
        ruleCondition R d = false := by
      intro R hR
      rcases hR with rfl | rfl <;>
        simp only [ruleCondition, String.reduceEq, if_true, if_false] <;>
        rcases hmiss with h | h <;> rw [h] <;> cases d.totalVehicles <;> rfl
    exact ⟨hno _ (key _ (by simp)) n hn, hno _ (key _ (by simp)) n hn⟩
  · intro R hc hs
    rw [hnew]
    exact evaluateRules_fires _ now d R hc hs

/-- Witness of C20: the snapshot with every field missing, from the initial state. -/
theorem missing_fields_witness :
    ∃ n ∈ newNotifications State.init 1000 (some ⟨none, none, none, none, none, none, none⟩),
      ruleOf n = some "revenue-health-check" ∧ n.type = "info" ∧
      n.message = [.text "Revenue tracking started for today. Current: Rs. ",
        .locale (.fin 0)] :=
  (missing_fields State.init 1000 ⟨none, none, none, none, none, none, none⟩ (by decide)).1
    rfl (by decide)

end AdminDashboard

/-! ## Scenario D: market concentration and inactive companies (C19) -/

namespace SuperAdminDashboard

theorem scenarioCompanies_sorted (a b c d e : String) :
    sortedCompanies (scenarioCompanies a b c d e) = scenarioCompanies a b c d e := by
  unfold sortedCompanies
  apply List.Sorted.insertionSort_eq
  unfold scenarioCompanies
  simp only [List.Sorted, List.pairwise_cons, List.mem_cons, List.mem_singleton,
    List.not_mem_nil, forall_eq_or_imp, forall_eq, revenueOf, List.Pairwise.nil,
    IsEmpty.forall_iff, implies_true, and_true]
  norm_num

theorem scenarioCompanies_concentration (a b c d e : String) :
    totalRevenue (scenarioCompanies a b c d e) = 90000 ∧
    topThreeRevenue (scenarioCompanies a b c d e) = 85000 ∧
    marketConcentration (scenarioCompanies a b c d e) = JSNum.fin (85000 / 90000 * 100) := by
  have h1 : totalRevenue (scenarioCompanies a b c d e) = 90000 := by
    simp only [totalRevenue, scenarioCompanies, revenueOf, List.foldl]
    norm_num
  have h2 : topThreeRevenue (scenarioCompanies a b c d e) = 85000 := by
    unfold topThreeRevenue
    rw [scenarioCompanies_sorted]
    simp only [scenarioCompanies, revenueOf, List.take, List.foldl]
    norm_num
  refine ⟨h1, h2, ?_⟩
  unfold marketConcentration
  rw [h1, h2]
  simp [JSNum.div, JSNum.mulPos]

/-- C19: scenario D in SuperAdminDashboard.  For the company revenues 50000, 30000, 5000,
5000 and 0 (total 90000) and an empty cooldown history, the rule evaluation of a pass that
is not skipped (as on first load) fires the market-concentration rule, whose notification
reports the top-3 share `(50000 + 30000 + 5000) / 90000 * 100` to one decimal, 94.4, and
fires the inactive-companies rule, whose notification reports the count 1; both rules are
marked. -/
theorem scenario_market_concentration (s : State) (now : ℤ) (a b c d e : String)
    (hempty : ∀ k, s.notificationHistory k = none) (hgate : gateClosed s now = false) :
    totalRevenue (scenarioCompanies a b c d e) = 90000 ∧
    marketConcentration (scenarioCompanies a b c d e) =
      JSNum.fin ((50000 + 30000 + 5000) / 90000 * 100) ∧
    toFixed ((50000 + 30000 + 5000) / 90000 * 100) 1 = 944 / 10 ∧
    plain "market-concentration" now "warning"
      [.text "High market concentration: Top 3 companies control ",
       .fixed (JSNum.fin ((50000 + 30000 + 5000) / 90000 * 100)) 1, .text "% of revenue"] ∈
      newNotifications s now (some (scenarioCompanies a b c d e)) ∧
    plain "inactive-companies" now "info"
      [.num (.fin 1), .text " companies have no revenue recorded"] ∈
      newNotifications s now (some (scenarioCompanies a b c d e)) ∧
    "market-concentration" ∈ markedRules s now (some (scenarioCompanies a b c d e)) ∧
    "inactive-companies" ∈ markedRules s now (some (scenarioCompanies a b c d e)) := by
  obtain ⟨h1, _, h3⟩ := scenarioCompanies_concentration a b c d e
  have h3' : marketConcentration (scenarioCompanies a b c d e) =
      JSNum.fin ((50000 + 30000 + 5000) / 90000 * 100) := by
    rw [h3]
    norm_num
  have hshould : ∀ R, shouldGenerateNotification s.notificationHistory now R = true := by
    intro R
    simp [shouldGenerateNotification, hempty R]
  have hlen : (scenarioCompanies a b c d e).length > 0 := by simp [scenarioCompanies]
  have hmc : marketConcentrationRule (shouldGenerateNotification s.notificationHistory now) now
      (scenarioCompanies a b c d e) =
      RuleOut.fire (plain "market-concentration" now "warning"
        [.text "High market concentration: Top 3 companies control ",
         .fixed (JSNum.fin ((50000 + 30000 + 5000) / 90000 * 100)) 1, .text "% of revenue"])
        "market-concentration" := by
    unfold marketConcentrationRule
    rw [h3', if_pos ⟨by simp only [JSNum.gt, decide_eq_true_eq]; norm_num, hshould _⟩]
  have hinactive : (scenarioCompanies a b c d e).filter
      (fun company => decide (revenueOf company = 0)) = [⟨e, some 0⟩] := by
    simp only [scenarioCompanies, List.filter, revenueOf]
    norm_num
  have hic : inactiveCompaniesRule (shouldGenerateNotification s.notificationHistory now) now
      (scenarioCompanies a b c d e) =
      RuleOut.fire (plain "inactive-companies" now "info"
        [.num (.fin 1), .text " companies have no revenue recorded"])
        "inactive-companies" := by
    unfold inactiveCompaniesRule
    dsimp only
    rw [hinactive, if_pos ⟨by simp, hshould _⟩]
    simp
  have hpushed : newNotifications s now (some (scenarioCompanies a b c d e)) =
      (evaluateRules s.notificationHistory now (scenarioCompanies a b c d e)).pushed := by
    unfold newNotifications
    dsimp only
    rw [hgate]
    rfl
  have hmarked : markedRules s now (some (scenarioCompanies a b c d e)) =
      (evaluateRules s.notificationHistory now (scenarioCompanies a b c d e)).marked := by
    unfold markedRules
    dsimp only
    rw [hgate]
    rfl
  have htf : toFixed ((50000 + 30000 + 5000) / 90000 * 100) 1 = 944 / 10 := by
    have e : ((50000 + 30000 + 5000) / 90000 * 100 : ℚ) = 850 / 9 := by norm_num
    rw [e]
    decide!
  refine ⟨h1, h3', htf, ?_, ?_, ?_, ?_⟩
  · rw [hpushed]
    unfold evaluateRules
    dsimp only
    rw [if_pos hlen, hmc]
    simp only [RuleOut.seq, RuleOut.fire, List.mem_append, List.mem_singleton, true_or,
      or_true]
  · rw [hpushed]
    unfold evaluateRules
    dsimp only
    rw [if_pos hlen, hic]
    simp only [RuleOut.seq, RuleOut.fire, List.mem_append, List.mem_singleton, true_or,
      or_true]
  · rw [hmarked]
    unfold evaluateRules
    dsimp only
    rw [if_pos hlen, hmc]
    simp only [RuleOut.seq, RuleOut.fire, List.mem_append, List.mem_singleton, true_or,
      or_true]
  · rw [hmarked]
    unfold evaluateRules
    dsimp only
    rw [if_pos hlen, hic]
    simp only [RuleOut.seq, RuleOut.fire, List.mem_append, List.mem_singleton, true_or,
      or_true]

/-- Witness of C19: scenario D from the initial state at time 1000. -/
theorem scenario_market_concentration_witness :
    totalRevenue (scenarioCompanies "A" "B" "C" "D" "E") = 90000 ∧
    marketConcentration (scenarioCompanies "A" "B" "C" "D" "E") =
      JSNum.fin ((50000 + 30000 + 5000) / 90000 * 100) ∧
    toFixed ((50000 + 30000 + 5000) / 90000 * 100) 1 = 944 / 10 ∧
    plain "market-concentration" 1000 "warning"
      [.text "High market concentration: Top 3 companies control ",
       .fixed (JSNum.fin ((50000 + 30000 + 5000) / 90000 * 100)) 1, .text "% of revenue"] ∈
      newNotifications State.init 1000 (some (scenarioCompanies "A" "B" "C" "D" "E")) ∧
    plain "inactive-companies" 1000 "info"
      [.num (.fin 1), .text " companies have no revenue recorded"] ∈
      newNotifications State.init 1000 (some (scenarioCompanies "A" "B" "C" "D" "E")) ∧
    "market-concentration" ∈
      markedRules State.init 1000 (some (scenarioCompanies "A" "B" "C" "D" "E")) ∧
    "inactive-companies" ∈
      markedRules State.init 1000 (some (scenarioCompanies "A" "B" "C" "D" "E")) :=
  scenario_market_concentration State.init 1000 "A" "B" "C" "D" "E" (fun _ => rfl) (by decide)

end SuperAdminDashboard
/-! ## Scenario C: the revenue delta rule (C18) -/

namespace NotificationSystem

/-- C18, as stated, fails in the reported percentage.  For `previousRevenue = 100000` and
`todaysRevenue = 105350` the exact quotient `|d| / previousRevenue * 100` is 5.35, which
rounds to 5.4, while the binary64 value of `percentChange` lies below 5.35 and the message
prints 5.3.  For a negative `previousRevenue` the sign differs as well: with
`previousRevenue = -10000` and `todaysRevenue = -20000` the rule reports a decrease of
`|d / previousRevenue * 100| = 100`, printed 100.0, while `|d| / previousRevenue * 100`
is -100. -/
theorem revenue_percentage_deviates :
    revenueRule 1000 ⟨105350, 100000, 0, 0, 0, 0, 0, 0, 0, 0, 0, 0⟩ =
      [note "revenue-increase" 1000 "Revenue Increase"
        [.text "Revenue increased by Rs. ", .locale (.fin 5350), .text " (",
         .fixed (.fin (percentChange 5350 100000)) 1, .text "%)."]
        "success" "revenue"] ∧
    percentChange 5350 100000 < 535 / 100 ∧
    toFixed (percentChange 5350 100000) 1 = 53 / 10 ∧
    |(105350 : ℚ) - 100000| / 100000 * 100 = 535 / 100 ∧
    toFixed (|(105350 : ℚ) - 100000| / 100000 * 100) 1 = 54 / 10 ∧
    revenueRule 1000 ⟨-20000, -10000, 0, 0, 0, 0, 0, 0, 0, 0, 0, 0⟩ =
      [note "revenue-decrease" 1000 "Revenue Alert"
        [.text "Revenue decreased by Rs. ", .locale (.fin 10000), .text " (",
         .fixed (.fin 100) 1, .text "%)."]
        "warning" "revenue"] ∧
    |(-20000 : ℚ) - (-10000)| / (-10000) * 100 = -100 ∧
    toFixed 100 1 ≠ toFixed (|(-20000 : ℚ) - (-10000)| / (-10000) * 100) 1 := by
  decide!

theorem other_rules_not_revenue_delta (now : ℤ) (data : DashboardData) (T : String)
    (hT : T = "revenue-increase" ∨ T = "revenue-decrease") :
    (ticketsRule now data ++ driversAssignedRule now data ++ driversRegisteredRule now data ++
      utilizationRule now data ++ revenuePerTicketRule now data ++
      vehicleDriverRule now data).filter (fun n => decide (n.id.tag = some T)) = [] := by
  rw [List.filter_eq_nil_iff]
  intro n hn
  simp only [List.mem_append] at hn
  have key : ∀ pfx : String, pfx ≠ "revenue-increase" → pfx ≠ "revenue-decrease" →
      ∀ t title message type category,
        ¬ (decide ((note pfx t title message type category).id.tag = some T) = true) := by
    intro pfx h1 h2 t title message type category
    simp only [note, NotifId.tag, decide_eq_true_eq, Option.some.injEq]
    rcases hT with rfl | rfl
    · exact h1
    · exact h2
  rcases hn with ((((hn | hn) | hn) | hn) | hn) | hn
  · unfold ticketsRule at hn
    split_ifs at hn
    · simp only [List.mem_singleton] at hn
      rw [hn]
      exact key _ (by decide) (by decide) _ _ _ _ _
    · simp at hn
  · unfold driversAssignedRule at hn
    split_ifs at hn
    · simp only [List.mem_singleton] at hn
      rw [hn]
      exact key _ (by decide) (by decide) _ _ _ _ _
    · simp at hn
  · unfold driversRegisteredRule at hn
    split_ifs at hn
    · simp only [List.mem_singleton] at hn
      rw [hn]
      exact key _ (by decide) (by decide) _ _ _ _ _
    · simp at hn
  · simp only [utilizationRule] at hn
    split_ifs at hn
    · simp only [List.mem_singleton] at hn
      rw [hn]
      exact key _ (by decide) (by decide) _ _ _ _ _
    · simp at hn
    · simp at hn
  · unfold revenuePerTicketRule at hn
    split_ifs at hn
    · simp only [List.mem_singleton] at hn
      rw [hn]
      exact key _ (by decide) (by decide) _ _ _ _ _
    · simp at hn
  · simp only [vehicleDriverRule] at hn
    split_ifs at hn
    · simp only [List.mem_singleton] at hn
      rw [hn]
      exact key _ (by decide) (by decide) _ _ _ _ _
    · simp only [List.mem_singleton] at hn
      rw [hn]
      exact key _ (by decide) (by decide) _ _ _ _ _
    · simp at hn
    · simp at hn

/-- For a positive divisor the absolute value of `percentChange` is the `percentChange`
of the absolute difference. -/
theorem abs_percentChange (d prev : ℚ) (hprev : 0 < prev) :
    |percentChange d prev| = percentChange |d| prev := by
  unfold percentChange
  rcases le_or_lt 0 d with hd | hd
  · rw [abs_of_nonneg hd, abs_of_nonneg]
    exact roundBinary64_nonneg _
      (mul_nonneg (roundBinary64_nonneg _ (div_nonneg hd hprev.le)) (by norm_num))
  · rw [abs_of_neg hd]
    have e : d / prev = -(-d / prev) := by ring
    rw [e, roundBinary64_neg, neg_mul, roundBinary64_neg, abs_neg, abs_of_nonneg]
    exact roundBinary64_nonneg _
      (mul_nonneg (roundBinary64_nonneg _ (div_nonneg (by linarith) hprev.le)) (by norm_num))

/-- C18 (amended): the revenue delta rule of NotificationSystem.  For every snapshot whose
revenues are whole numbers below 2^52 in magnitude, with non-zero `previousRevenue` and
`d = todaysRevenue - previousRevenue`, `checkForNotifications` builds exactly one
revenue-increase notification, of type `success`, iff `d > 5000`, exactly one
revenue-decrease notification, of type `warning`, iff `d < -5000`, and neither iff
`|d| <= 5000`.  The increase prints `percentChange.toFixed(1)` and the decrease
`Math.abs(percentChange).toFixed(1)`, where `percentChange` is the binary64 value of
`(d / previousRevenue) * 100`; whenever `previousRevenue > 0` both are the binary64 value
of `(|d| / previousRevenue) * 100`.  The difference `d` itself is computed without
rounding. -/
theorem revenue_delta_rule (now : ℤ) (data : DashboardData)
    (hprev : data.previousRevenue ≠ 0)
    (hwhole : ∃ a b : ℤ, data.todaysRevenue = a ∧ data.previousRevenue = b ∧
      |a| < 2 ^ 52 ∧ |b| < 2 ^ 52) :
    (newNotifications now data).filter (fun n => decide (n.id.tag = some "revenue-increase")) =
      (if data.todaysRevenue - data.previousRevenue > 5000 then
        [note "revenue-increase" now "Revenue Increase"
          [.text "Revenue increased by Rs. ",
           .locale (.fin (data.todaysRevenue - data.previousRevenue)), .text " (",
           .fixed (.fin (percentChange (data.todaysRevenue - data.previousRevenue)
             data.previousRevenue)) 1, .text "%)."]
          "success" "revenue"]
       else []) ∧
    (newNotifications now data).filter (fun n => decide (n.id.tag = some "revenue-decrease")) =
      (if data.todaysRevenue - data.previousRevenue < -5000 then
        [note "revenue-decrease" now "Revenue Alert"
          [.text "Revenue decreased by Rs. ",
           .locale (.fin |data.todaysRevenue - data.previousRevenue|), .text " (",
           .fixed (.fin |percentChange (data.todaysRevenue - data.previousRevenue)
             data.previousRevenue|) 1, .text "%)."]
          "warning" "revenue"]
       else []) ∧
    (countTagged "revenue-increase" (newNotifications now data) = 1 ↔
      data.todaysRevenue - data.previousRevenue > 5000) ∧
    (countTagged "revenue-decrease" (newNotifications now data) = 1 ↔
      data.todaysRevenue - data.previousRevenue < -5000) ∧
    ((countTagged "revenue-increase" (newNotifications now data) = 0 ∧
      countTagged "revenue-decrease" (newNotifications now data) = 0) ↔
      |data.todaysRevenue - data.previousRevenue| ≤ 5000) ∧
    (data.previousRevenue > 0 → data.todaysRevenue - data.previousRevenue > 5000 →
      percentChange (data.todaysRevenue - data.previousRevenue) data.previousRevenue =
        percentChange |data.todaysRevenue - data.previousRevenue| data.previousRevenue) ∧
    (data.previousRevenue > 0 →
      |percentChange (data.todaysRevenue - data.previousRevenue) data.previousRevenue| =
        percentChange |data.todaysRevenue - data.previousRevenue| data.previousRevenue) ∧
    roundBinary64 (data.todaysRevenue - data.previousRevenue) =
      data.todaysRevenue - data.previousRevenue := by
  have hsplit : ∀ T, T = "revenue-increase" ∨ T = "revenue-decrease" →
      (newNotifications now data).filter (fun n => decide (n.id.tag = some T)) =
        (revenueRule now data).filter (fun n => decide (n.id.tag = some T)) := by
    intro T hT
    have e : newNotifications now data = revenueRule now data ++
        (ticketsRule now data ++ driversAssignedRule now data ++
          driversRegisteredRule now data ++ utilizationRule now data ++
          revenuePerTicketRule now data ++ vehicleDriverRule now data) := by
      simp only [newNotifications, List.append_assoc]
    rw [e, List.filter_append, other_rules_not_revenue_delta now data T hT, List.append_nil]
  have hinc : (newNotifications now data).filter
      (fun n => decide (n.id.tag = some "revenue-increase")) =
      (if data.todaysRevenue - data.previousRevenue > 5000 then
        [note "revenue-increase" now "Revenue Increase"
          [.text "Revenue increased by Rs. ",
           .locale (.fin (data.todaysRevenue - data.previousRevenue)), .text " (",
           .fixed (.fin (percentChange (data.todaysRevenue - data.previousRevenue)
             data.previousRevenue)) 1, .text "%)."]
          "success" "revenue"]
       else []) := by
    rw [hsplit _ (Or.inl rfl)]
    unfold revenueRule
    by_cases hne : data.todaysRevenue ≠ data.previousRevenue
    · rw [if_pos ⟨hprev, hne⟩]
      dsimp only
      by_cases hup : data.todaysRevenue - data.previousRevenue > 5000
      · rw [if_pos hup, if_pos hup]
        rfl
      · rw [if_neg hup, if_neg hup]
        by_cases hdown : data.todaysRevenue - data.previousRevenue < -5000
        · rw [if_pos hdown]
          rfl
        · rw [if_neg hdown]
          rfl
    · have heq : data.todaysRevenue = data.previousRevenue := not_not.1 hne
      have hup : ¬ data.todaysRevenue - data.previousRevenue > 5000 := by
        rw [heq, sub_self]
        norm_num
      rw [if_neg (fun h => hne h.2), if_neg hup]
      rfl
  have hdec : (newNotifications now data).filter
      (fun n => decide (n.id.tag = some "revenue-decrease")) =
      (if data.todaysRevenue - data.previousRevenue < -5000 then
        [note "revenue-decrease" now "Revenue Alert"
          [.text "Revenue decreased by Rs. ",
           .locale (.fin |data.todaysRevenue - data.previousRevenue|), .text " (",
           .fixed (.fin |percentChange (data.todaysRevenue - data.previousRevenue)
             data.previousRevenue|) 1, .text "%)."]
          "warning" "revenue"]
       else []) := by
    rw [hsplit _ (Or.inr rfl)]
    unfold revenueRule
    by_cases hne : data.todaysRevenue ≠ data.previousRevenue
    · rw [if_pos ⟨hprev, hne⟩]
      dsimp only
      by_cases hup : data.todaysRevenue - data.previousRevenue > 5000
      · have hdown : ¬ data.todaysRevenue - data.previousRevenue < -5000 := by linarith
        rw [if_pos hup, if_neg hdown]
        rfl
      · rw [if_neg hup]
        by_cases hdown : data.todaysRevenue - data.previousRevenue < -5000
        · rw [if_pos hdown]
          rfl
        · rw [if_neg hdown]
          rfl
    · have heq : data.todaysRevenue = data.previousRevenue := not_not.1 hne
      have hdown : ¬ data.todaysRevenue - data.previousRevenue < -5000 := by
        rw [heq, sub_self]
        norm_num
      rw [if_neg (fun h => hne h.2), if_neg hdown]
      rfl
  have hci : countTagged "revenue-increase" (newNotifications now data) =
      if data.todaysRevenue - data.previousRevenue > 5000 then 1 else 0 := by
    unfold countTagged
    rw [hinc]
    split_ifs <;> rfl
  have hcd : countTagged "revenue-decrease" (newNotifications now data) =
      if data.todaysRevenue - data.previousRevenue < -5000 then 1 else 0 := by
    unfold countTagged
    rw [hdec]
    split_ifs <;> rfl
  refine ⟨hinc, hdec, ?_, ?_, ?_, ?_, ?_, ?_⟩
  · rw [hci]
    split_ifs with h <;> simp [h]
  · rw [hcd]
    split_ifs with h <;> simp [h]
  · rw [hci, hcd, abs_le]
    constructor
    · rintro ⟨h1, h2⟩
      constructor
      · by_contra hlt
        rw [if_pos (by linarith)] at h2
        exact absurd h2 (by norm_num)
      · by_contra hgt
        rw [if_pos (by linarith)] at h1
        exact absurd h1 (by norm_num)
    · rintro ⟨h1, h2⟩
      rw [if_neg (by linarith), if_neg (by linarith)]
      exact ⟨rfl, rfl⟩
  · intro _ hup
    rw [abs_of_pos (by linarith)]
  · intro hpos
    exact abs_percentChange _ _ hpos
  · obtain ⟨a, b, ha, hb, habs, hbbs⟩ := hwhole
    rw [ha, hb, ← Int.cast_sub]
    apply roundBinary64_intCast
    have h1 := abs_sub a b
    omega

/-- Witness of C18: previous revenue 110000, current 125000: one increase notification,
of 15000, printing 13.6. -/
theorem revenue_delta_rule_witness :
    (newNotifications 1000 initialData).filter
        (fun n => decide (n.id.tag = some "revenue-increase")) =
      [note "revenue-increase" 1000 "Revenue Increase"
        [.text "Revenue increased by Rs. ", .locale (.fin 15000), .text " (",
         .fixed (.fin (percentChange 15000 110000)) 1, .text "%)."]
        "success" "revenue"] ∧
    toFixed (percentChange 15000 110000) 1 = 136 / 10 := by
  refine ⟨?_, by decide!⟩
  have h := (revenue_delta_rule 1000 initialData (by decide!)
    ⟨125000, 110000, rfl, rfl, by decide, by decide⟩).1
  rw [h]
  decide!

end NotificationSystem

/-! ## NotificationSystem: loading and mirroring the store (C21, C22) -/

namespace NotificationSystem

/-- The initial `dashboardData` fires six rules, whatever the clock reads. -/
theorem initialData_fires_six (now : ℤ) : (newNotifications now initialData).length = 6 := by
  simp [newNotifications, revenueRule, ticketsRule, driversAssignedRule, driversRegisteredRule,
    utilizationRule, revenuePerTicketRule, vehicleDriverRule, initialData]
  norm_num

/-- Mounting on an entry that cannot be parsed: the first effect throws at line 279. -/
theorem mount_unparseable (now : ℤ) (text : String) :
    mount now (.unparseable text) = .error .parseError := by
  have hpos : (newNotifications now initialData).length > 0 := by
    rw [initialData_fires_six]; norm_num
  simp [mount, Handler.checkForNotifications, Handler.append, hpos, replay,
    storedNotifications]

/-- Mounting on an entry that parses to a truthy value that is not an array: the first
effect throws at line 282. -/
theorem mount_other (now : ℤ) : mount now .other = .error .typeError := by
  have hpos : (newNotifications now initialData).length > 0 := by
    rw [initialData_fires_six]; norm_num
  simp [mount, Handler.checkForNotifications, Handler.append, hpos, replay,
    storedNotifications]

/-- Mounting on an entry that reads as the list `stored` (the empty list for an absent or
falsy entry): store and entry become the initial batch followed by `stored`, cut to 30. -/
theorem mount_readable (now : ℤ) (entry : Persisted) (stored : List Notification)
    (hentry : storedNotifications entry = .ok (.list stored)) :
    mount now entry =
      .ok ⟨(newNotifications now initialData ++ stored).take 30,
        .list ((newNotifications now initialData ++ stored).take 30)⟩ := by
  have hpos : (newNotifications now initialData).length > 0 := by
    rw [initialData_fires_six]; norm_num
  cases entry <;> simp [storedNotifications] at hentry <;> subst hentry <;>
    simp [mount, Handler.checkForNotifications, Handler.append, hpos, replay,
      storedNotifications, loadNotifications]

/-- C21, as stated, fails.  On an entry that cannot be parsed the mount effects throw
instead of starting with an empty store; on an absent entry the store does not start
empty but with the six notifications fired on the initial data; on an entry that parses
to the empty list the store does not start as that list. -/
theorem mount_throws_or_fills :
    mount 1000 (.unparseable "not json") = .error .parseError ∧
    (¬ ∃ m, mount 1000 (.unparseable "not json") = .ok m) ∧
    (∃ m, mount 1000 .absent = .ok m ∧ m.notifications.length = 6) ∧
    (∃ m, mount 1000 (.list []) = .ok m ∧ m.notifications.length = 6) := by
  refine ⟨mount_unparseable 1000 _, ?_, ⟨_, mount_readable 1000 .absent [] rfl, ?_⟩,
    ⟨_, mount_readable 1000 (.list []) [] rfl, ?_⟩⟩
  · rintro ⟨m, hm⟩
    rw [mount_unparseable] at hm
    cases hm
  · simp [initialData_fires_six]
  · simp [initialData_fires_six]

/-- C21 (amended): store initialisation in NotificationSystem, that is the effect of lines
86-88 followed by the load effect.  It throws when the entry cannot be parsed or parses
to a truthy value that is not an array, and succeeds otherwise.  When the entry is absent
or parses to a falsy value the store starts as the batch of six notifications fired on the
initial data; when it parses to a list the store starts as that batch followed by the
list, cut to 30; in both cases the entry holds the store afterwards. -/
theorem mount_spec (now : ℤ) (entry : Persisted) :
    (∀ text, mount now (.unparseable text) = .error .parseError) ∧
    mount now .other = .error .typeError ∧
    mount now .absent =
      .ok ⟨newNotifications now initialData, .list (newNotifications now initialData)⟩ ∧
    mount now .falsy =
      .ok ⟨newNotifications now initialData, .list (newNotifications now initialData)⟩ ∧
    (∀ items, mount now (.list items) =
      .ok ⟨(newNotifications now initialData ++ items).take 30,
        .list ((newNotifications now initialData ++ items).take 30)⟩) ∧
    (newNotifications now initialData).length = 6 ∧
    ((∃ m, mount now entry = .ok m) ↔ (∀ text, entry ≠ .unparseable text) ∧ entry ≠ .other) ∧
    (∀ m, mount now entry = .ok m →
      InSync m ∧ m.adminNotifications = .list m.notifications ∧ 6 ≤ m.notifications.length) := by
  have h6 := initialData_fires_six now
  have htake : (newNotifications now initialData ++ []).take 30 =
      newNotifications now initialData := by
    rw [List.append_nil]
    exact List.take_of_length_le (by omega)
  have habsent := mount_readable now .absent [] rfl
  have hfalsy := mount_readable now .falsy [] rfl
  rw [htake] at habsent hfalsy
  have hlen : ∀ items : List Notification,
      6 ≤ ((newNotifications now initialData ++ items).take 30).length := by
    intro items
    rw [List.length_take, List.length_append, h6]
    omega
  refine ⟨mount_unparseable now, mount_other now, habsent, hfalsy,
    fun items => mount_readable now (.list items) items rfl, h6, ?_, ?_⟩
  · cases entry with
    | absent => simp [habsent]
    | unparseable text => simp [mount_unparseable]
    | falsy => simp [hfalsy]
    | list items => simp [mount_readable now (.list items) items rfl]
    | other => simp [mount_other]
  · intro m hm
    cases entry with
    | absent =>
      rw [habsent] at hm
      cases hm
      exact ⟨rfl, rfl, by simp [h6]⟩
    | unparseable text =>
      rw [mount_unparseable] at hm
      cases hm
    | falsy =>
      rw [hfalsy] at hm
      cases hm
      exact ⟨rfl, rfl, by simp [h6]⟩
    | list items =>
      rw [mount_readable now (.list items) items rfl] at hm
      cases hm
      exact ⟨rfl, rfl, hlen items⟩
    | other =>
      rw [mount_other] at hm
      cases hm

/-- When store and entry agree, the write-back stores the operation applied to the
store. -/
theorem replay_of_inSync {m : Mirror} (hm : InSync m)
    (f : List Notification → List Notification) :
    replay f m.adminNotifications = .ok (.list (f m.notifications)) := by
  unfold InSync at hm
  simp only [replay, hm]

/-- C22: persistence mirror invariant in NotificationSystem.  If the list read back from
the `adminNotifications` entry is the in-memory store before an operation, then the
operation does not throw and the same holds after it, for the append of a batch (for a
non-empty batch the entry then holds the store itself), `checkForNotifications`,
`markAsRead`, `markAllAsRead`, `removeNotification` and `clearAllNotifications`; the
store after the operation is the one the in-memory updater computes. -/
theorem mirror_preserved (m : Mirror) (hm : InSync m) :
    (∀ fresh, ∃ m', Handler.append fresh m = .ok m' ∧ InSync m' ∧
      m'.notifications = appendNotifications fresh m.notifications ∧
      (fresh ≠ [] → m'.adminNotifications = .list m'.notifications)) ∧
    (∀ now newData, ∃ m', Handler.checkForNotifications now newData m = .ok m' ∧ InSync m' ∧
      m'.notifications = checkForNotifications now newData m.notifications) ∧
    (∀ id, ∃ m', Handler.markAsRead id m = .ok m' ∧ InSync m' ∧
      m'.adminNotifications = .list m'.notifications ∧
      m'.notifications = markAsRead id m.notifications) ∧
    (∃ m', Handler.markAllAsRead m = .ok m' ∧ InSync m' ∧
      m'.adminNotifications = .list m'.notifications ∧
      m'.notifications = markAllAsRead m.notifications) ∧
    (∀ id, ∃ m', Handler.removeNotification id m = .ok m' ∧ InSync m' ∧
      m'.adminNotifications = .list m'.notifications ∧
      m'.notifications = removeNotification id m.notifications) ∧
    (∃ m', Handler.clearAllNotifications m = .ok m' ∧ InSync m' ∧
      m'.adminNotifications = .list m'.notifications ∧ m'.notifications = []) := by
  have happ : ∀ fresh, ∃ m', Handler.append fresh m = .ok m' ∧ InSync m' ∧
      m'.notifications = appendNotifications fresh m.notifications ∧
      (fresh ≠ [] → m'.adminNotifications = .list m'.notifications) := by
    intro fresh
    by_cases hf : fresh.length > 0
    · refine ⟨⟨(fresh ++ m.notifications).take 30, .list ((fresh ++ m.notifications).take 30)⟩,
        ?_, rfl, ?_, fun _ => rfl⟩
      · simp only [Handler.append, if_pos hf, replay_of_inSync hm]
      · simp only [appendNotifications, if_pos hf]
    · refine ⟨m, ?_, hm, ?_, ?_⟩
      · simp only [Handler.append, if_neg hf]
      · simp only [appendNotifications, if_neg hf]
      · intro hne
        exact absurd (List.length_pos.mpr hne) hf
  refine ⟨happ, ?_, ?_, ?_, ?_, ?_⟩
  · intro now newData
    obtain ⟨m', h1, h2, h3, -⟩ := happ (newNotifications now newData)
    exact ⟨m', h1, h2, h3⟩
  · intro id
    refine ⟨⟨markAsRead id m.notifications, .list (markAsRead id m.notifications)⟩,
      ?_, rfl, rfl, rfl⟩
    simp only [Handler.markAsRead, replay_of_inSync hm, markAsRead]
  · refine ⟨⟨markAllAsRead m.notifications, .list (markAllAsRead m.notifications)⟩,
      ?_, rfl, rfl, rfl⟩
    simp only [Handler.markAllAsRead, replay_of_inSync hm, markAllAsRead]
  · intro id
    refine ⟨⟨removeNotification id m.notifications,
      .list (removeNotification id m.notifications)⟩, ?_, rfl, rfl, rfl⟩
    simp only [Handler.removeNotification, replay_of_inSync hm, removeNotification]
  · exact ⟨⟨[], .list []⟩, rfl, rfl, rfl, rfl⟩

/-- Witness of C22: a store holding the revenue notification of the component's initial
data, mirrored by the entry, stays mirrored by `markAllAsRead`. -/
theorem mirror_preserved_witness :
    InSync ⟨revenueRule 1000 initialData, .list (revenueRule 1000 initialData)⟩ ∧
    ∃ m', Handler.markAllAsRead
        ⟨revenueRule 1000 initialData, .list (revenueRule 1000 initialData)⟩ = .ok m' ∧
      InSync m' ∧ m'.adminNotifications = .list m'.notifications ∧
      m'.notifications = markAllAsRead (revenueRule 1000 initialData) :=
  ⟨rfl, (mirror_preserved ⟨revenueRule 1000 initialData,
    .list (revenueRule 1000 initialData)⟩ rfl).2.2.2.1⟩

end NotificationSystem

/-! ## DailyTripsChart: weekly aggregation (C29) -/

namespace DailyTripsChart

/-- There is always a week in progress. -/
theorem weekRuns_ne_nil (cur days : List Day) : weekRuns cur days ≠ [] := by
  induction days generalizing cur with
  | nil => simp [weekRuns]
  | cons d rest ih =>
    unfold weekRuns
    split_ifs
    · simp
    · exact ih _

/-- The first week extends the week in progress. -/
theorem weekRuns_head (cur days : List Day) :
    ∃ ext rs, weekRuns cur days = (cur ++ ext) :: rs := by
  induction days generalizing cur with
  | nil => exact ⟨[], [], by simp [weekRuns]⟩
  | cons d rest ih =>
    unfold weekRuns
    split_ifs
    · exact ⟨[], weekRuns [d] rest, by simp⟩
    · obtain ⟨ext, rs, h⟩ := ih (cur ++ [d])
      exact ⟨d :: ext, rs, by simpa using h⟩

/-- The weeks, laid end to end, are the days in their order. -/
theorem weekRuns_join (cur days : List Day) : (weekRuns cur days).flatten = cur ++ days := by
  induction days generalizing cur with
  | nil => simp [weekRuns]
  | cons d rest ih =>
    unfold weekRuns
    split_ifs
    · simp [ih]
    · simp [ih]

/-- Every week is non-empty, has no Sunday after its first day, and every week after
the first starts on a Sunday. -/
theorem weekRuns_shape (cur days : List Day) (hne : cur ≠ [])
    (hcur : ∀ d ∈ cur.tail, d.sunday = false) :
    (∀ r ∈ weekRuns cur days, r ≠ []) ∧
    (∀ r ∈ weekRuns cur days, ∀ d ∈ r.tail, d.sunday = false) ∧
    (∀ r ∈ (weekRuns cur days).tail, ∃ d rest, r = d :: rest ∧ d.sunday = true) := by
  induction days generalizing cur with
  | nil => simp [weekRuns, hne]; exact hcur
  | cons d rest ih =>
    unfold weekRuns
    split_ifs with hd
    · obtain ⟨h1, h2, h3⟩ := ih [d] (by simp) (by simp)
      refine ⟨?_, ?_, ?_⟩
      · intro r hr
        rcases List.mem_cons.mp hr with rfl | hr
        · exact hne
        · exact h1 r hr
      · intro r hr
        rcases List.mem_cons.mp hr with rfl | hr
        · exact hcur
        · exact h2 r hr
      · intro r hr
        simp only [List.tail_cons] at hr
        obtain ⟨ext, rs, hw⟩ := weekRuns_head [d] rest
        rw [hw] at hr h3
        rcases List.mem_cons.mp hr with rfl | hr
        · exact ⟨d, ext, rfl, hd⟩
        · exact h3 r (by simpa using hr)
    · apply ih (cur ++ [d]) (by simp)
      intro x hx
      cases cur with
      | nil => exact absurd rfl hne
      | cons c cs =>
        simp only [List.cons_append, List.tail_cons, List.mem_append, List.mem_singleton] at hx
        rcases hx with hx | rfl
        · exact hcur x (by simpa using hx)
        · simpa using hd

/-- The weekly records carry the trips of all the days: a week left out has none. -/
theorem weekRecords_trips (n : ℕ) (runs : List (List Day)) :
    ((weekRecords n runs).map Week.trips).sum = (runs.flatten.map Day.trips).sum := by
  induction runs generalizing n with
  | nil => simp [weekRecords]
  | cons run rest ih =>
    unfold weekRecords
    split_ifs with h
    · obtain ⟨rfl, h0⟩ := h
      simp [h0]
    · simp [ih, weekRecord]

/-- The loop from a position after the first: the records it adds are those of the weeks
of the week in progress followed by the remaining days. -/
theorem forEach_weeklyResults (length : ℕ) (rem : List Day) :
    ∀ (cur : List Day) (index n : ℕ) (results : List Week) (c : Day) (cs : List Day),
      cur = c :: cs → rem ≠ [] → length = index + rem.length →
      (forEach length rem index ⟨results, some c.date, (cur.map Day.trips).sum, n⟩).weeklyResults =
        results ++ weekRecords n (weekRuns cur rem) := by
  induction rem with
  | nil => intro cur index n results c cs _ h; exact absurd rfl h
  | cons d rest ih =>
    intro cur index n results c cs hcur _ hlen
    subst hcur
    by_cases hrest : rest = []
    · subst hrest
      have hidx : index = length - 1 := by simp at hlen; omega
      by_cases hd : d.sunday = true
      · by_cases ht : d.trips > 0
        · simp [forEach, callback, weekRuns, weekRecords, weekRecord, hd, hidx, ht]
          rw [if_neg (by omega)]
        · simp [forEach, callback, weekRuns, weekRecords, weekRecord, hd, hidx, ht]
          omega
      · by_cases ht : (c.trips + (cs.map Day.trips).sum) + d.trips > 0
        · simp [forEach, callback, weekRuns, weekRecords, weekRecord, hd, hidx, ht]
          rw [if_neg (by omega), Nat.add_assoc]
        · simp [forEach, callback, weekRuns, weekRecords, weekRecord, hd, hidx, ht]
          omega
    · obtain ⟨r, rs, hr⟩ := List.exists_cons_of_ne_nil hrest
      have hidx : ¬ (index = length - 1) := by
        subst hr; simp at hlen; omega
      have hlen2 : length = (index + 1) + rest.length := by simp at hlen; omega
      by_cases hd : d.sunday = true
      · have h := ih [d] (index + 1) (n + 1)
          (results ++ [⟨some c.date, n, ((c :: cs).map Day.trips).sum⟩]) d [] rfl hrest hlen2
        have hne := weekRuns_ne_nil [d] rest
        simp only [List.map_cons, List.map_nil, List.sum_cons, List.sum_nil, add_zero] at h
        simp [forEach, callback, weekRuns, weekRecords, weekRecord, hd, hidx, h, hne]
      · have h := ih (c :: cs ++ [d]) (index + 1) n results c (cs ++ [d]) rfl hrest hlen2
        simp only [List.cons_append, List.map_cons, List.map_append, List.map_nil, List.sum_cons,
          List.sum_append, List.sum_nil, add_zero] at h
        simp only [forEach, callback, weekRuns, hd, hidx, false_and, or_false, if_false,
          List.map_cons, List.sum_cons, List.cons_append, reduceCtorEq, Bool.false_eq_true]
        rw [Nat.add_assoc]
        exact h

/-- The array `weeklyData` of a non-empty `tripData` is the list of records of its weeks. -/
theorem weeklyData_eq (d : Day) (rest : List Day) :
    weeklyData (d :: rest) = weekRecords 1 (weekRuns [d] rest) := by
  by_cases hrest : rest = []
  · subst hrest
    by_cases ht : d.trips > 0
    · simp [weeklyData, forEach, callback, weekRuns, weekRecords, weekRecord, ht]
      rw [if_neg (by omega)]
    · simp [weeklyData, forEach, callback, weekRuns, weekRecords, weekRecord, ht]
      omega
  · have h := forEach_weeklyResults (rest.length + 1) rest [d] 1 1 [] d [] rfl hrest (by omega)
    obtain ⟨r, rs, hr⟩ := List.exists_cons_of_ne_nil hrest
    simp only [List.map_cons, List.map_nil, List.sum_cons, List.sum_nil, add_zero,
      List.nil_append] at h
    have hl : ¬ (0 = rest.length) := by subst hr; simp
    simp [weeklyData, forEach, callback, hl, h]

/-- C29: weekly aggregation in DailyTripsChart conserves trips.  For every list of daily
records, whichever days are Sundays, the trips of the weekly records add up to the trips
of the daily records; and the daily records split into consecutive non-empty runs, each
run after the first starting on a Sunday and no run holding a Sunday after its first day,
such that `weeklyData` is the list of the records of these runs, numbered from 1, the
last run left out when it has no trips. -/
theorem weeklyData_conserves_trips (tripData : List Day) :
    ((weeklyData tripData).map Week.trips).sum = (tripData.map Day.trips).sum ∧
    ∃ runs : List (List Day), runs.flatten = tripData ∧ (∀ r ∈ runs, r ≠ []) ∧
      (∀ r ∈ runs, ∀ d ∈ r.tail, d.sunday = false) ∧
      (∀ r ∈ runs.tail, ∃ d rest, r = d :: rest ∧ d.sunday = true) ∧
      weeklyData tripData = weekRecords 1 runs := by
  cases tripData with
  | nil => exact ⟨by simp [weeklyData], [], by simp [weeklyData, weekRecords]⟩
  | cons d rest =>
    obtain ⟨h1, h2, h3⟩ := weekRuns_shape [d] rest (by simp) (by simp)
    refine ⟨?_, weekRuns [d] rest, ?_, h1, h2, h3, weeklyData_eq d rest⟩
    · rw [weeklyData_eq, weekRecords_trips, weekRuns_join]
      simp
    · rw [weekRuns_join]; simp

end DailyTripsChart

/-! ## PaymentTrendsAnalysis: amount ranges (C30) -/

namespace PaymentTrendsAnalysis

/-- One payment raises the count of the range its amount lies in, if any. -/
theorem countPayment_ranges (a : ℚ) (c₁ c₂ c₃ c₄ c₅ : ℕ) :
    countPayment a [⟨"0-1000", 0, some 1000, c₁⟩, ⟨"1001-2000", 1001, some 2000, c₂⟩,
      ⟨"2001-3000", 2001, some 3000, c₃⟩, ⟨"3001-5000", 3001, some 5000, c₄⟩,
      ⟨"5001+", 5001, none, c₅⟩] =
    [⟨"0-1000", 0, some 1000, c₁ + if 0 ≤ a ∧ a ≤ 1000 then 1 else 0⟩,
     ⟨"1001-2000", 1001, some 2000, c₂ + if 1001 ≤ a ∧ a ≤ 2000 then 1 else 0⟩,
     ⟨"2001-3000", 2001, some 3000, c₃ + if 2001 ≤ a ∧ a ≤ 3000 then 1 else 0⟩,
     ⟨"3001-5000", 3001, some 5000, c₄ + if 3001 ≤ a ∧ a ≤ 5000 then 1 else 0⟩,
     ⟨"5001+", 5001, none, c₅ + if 5001 ≤ a then 1 else 0⟩] := by
  simp only [countPayment, inRange, ge_iff_le, Bool.and_eq_true, decide_eq_true_eq, and_true]
  split_ifs <;> first | rfl | (exfalso; linarith [‹_ ∧ _›.1, ‹_ ∧ _›.2])

/-- The counts after a list of payments, starting from any counts. -/
theorem foldl_countPayment (data : List Payment) (c₁ c₂ c₃ c₄ c₅ : ℕ) :
    data.foldl (fun rs payment => countPayment payment.amount rs)
      [⟨"0-1000", 0, some 1000, c₁⟩, ⟨"1001-2000", 1001, some 2000, c₂⟩,
       ⟨"2001-3000", 2001, some 3000, c₃⟩, ⟨"3001-5000", 3001, some 5000, c₄⟩,
       ⟨"5001+", 5001, none, c₅⟩] =
    [⟨"0-1000", 0, some 1000,
        c₁ + data.countP (fun p => decide (0 ≤ p.amount ∧ p.amount ≤ 1000))⟩,
     ⟨"1001-2000", 1001, some 2000,
        c₂ + data.countP (fun p => decide (1001 ≤ p.amount ∧ p.amount ≤ 2000))⟩,
     ⟨"2001-3000", 2001, some 3000,
        c₃ + data.countP (fun p => decide (2001 ≤ p.amount ∧ p.amount ≤ 3000))⟩,
     ⟨"3001-5000", 3001, some 5000,
        c₄ + data.countP (fun p => decide (3001 ≤ p.amount ∧ p.amount ≤ 5000))⟩,
     ⟨"5001+", 5001, none, c₅ + data.countP (fun p => decide (5001 ≤ p.amount))⟩] := by
  induction data generalizing c₁ c₂ c₃ c₄ c₅ with
  | nil => simp
  | cons p rest ih =>
    rw [List.foldl_cons, countPayment_ranges, ih]
    simp only [List.countP_cons, decide_eq_true_eq]
    have e : ∀ (c k : ℕ) (P : Prop) [Decidable P],
        c + (if P then 1 else 0) + k = c + (k + if P then 1 else 0) := by
      intro c k P _; omega
    simp only [e]

/-- Each range ends up with the number of payments whose amount it accepts. -/
theorem processAmountRanges_eq (data : List Payment) :
    processAmountRanges data =
      ranges.map (fun r => { r with count := data.countP (fun p => inRange p.amount r) }) := by
  unfold processAmountRanges
  rw [ranges, foldl_countPayment]
  simp [inRange]

/-- The five ranges are pairwise disjoint: an amount lies in at most one. -/
theorem range_indicators (a : ℚ) :
    (if 0 ≤ a ∧ a ≤ 1000 then 1 else 0 : ℕ) + (if 1001 ≤ a ∧ a ≤ 2000 then 1 else 0) +
      (if 2001 ≤ a ∧ a ≤ 3000 then 1 else 0) + (if 3001 ≤ a ∧ a ≤ 5000 then 1 else 0) +
      (if 5001 ≤ a then 1 else 0) =
    if (0 ≤ a ∧ a ≤ 1000) ∨ (1001 ≤ a ∧ a ≤ 2000) ∨ (2001 ≤ a ∧ a ≤ 3000) ∨
      (3001 ≤ a ∧ a ≤ 5000) ∨ 5001 ≤ a then 1 else 0 := by
  by_cases h1 : 0 ≤ a ∧ a ≤ 1000
  · have h2 : ¬ (1001 ≤ a ∧ a ≤ 2000) := fun h => by linarith [h1.2, h.1]
    have h3 : ¬ (2001 ≤ a ∧ a ≤ 3000) := fun h => by linarith [h1.2, h.1]
    have h4 : ¬ (3001 ≤ a ∧ a ≤ 5000) := fun h => by linarith [h1.2, h.1]
    have h5 : ¬ (5001 ≤ a) := fun h => by linarith [h1.2, h]
    simp only [if_pos h1, if_neg h2, if_neg h3, if_neg h4, if_neg h5, if_pos (Or.inl h1)]
  by_cases h2 : 1001 ≤ a ∧ a ≤ 2000
  · have h3 : ¬ (2001 ≤ a ∧ a ≤ 3000) := fun h => by linarith [h2.2, h.1]
    have h4 : ¬ (3001 ≤ a ∧ a ≤ 5000) := fun h => by linarith [h2.2, h.1]
    have h5 : ¬ (5001 ≤ a) := fun h => by linarith [h2.2, h]
    simp only [if_neg h1, if_pos h2, if_neg h3, if_neg h4, if_neg h5,
      if_pos (Or.inr (Or.inl h2))]
  by_cases h3 : 2001 ≤ a ∧ a ≤ 3000
  · have h4 : ¬ (3001 ≤ a ∧ a ≤ 5000) := fun h => by linarith [h3.2, h.1]
    have h5 : ¬ (5001 ≤ a) := fun h => by linarith [h3.2, h]
    simp only [if_neg h1, if_neg h2, if_pos h3, if_neg h4, if_neg h5,
      if_pos (Or.inr (Or.inr (Or.inl h3)))]
  by_cases h4 : 3001 ≤ a ∧ a ≤ 5000
  · have h5 : ¬ (5001 ≤ a) := fun h => by linarith [h4.2, h]
    simp only [if_neg h1, if_neg h2, if_neg h3, if_pos h4, if_neg h5,
      if_pos (Or.inr (Or.inr (Or.inr (Or.inl h4))))]
  by_cases h5 : 5001 ≤ a
  · simp only [if_neg h1, if_neg h2, if_neg h3, if_neg h4, if_pos h5,
      if_pos (Or.inr (Or.inr (Or.inr (Or.inr h5))))]
  · have hnone : ¬ ((0 ≤ a ∧ a ≤ 1000) ∨ (1001 ≤ a ∧ a ≤ 2000) ∨ (2001 ≤ a ∧ a ≤ 3000) ∨
        (3001 ≤ a ∧ a ≤ 5000) ∨ 5001 ≤ a) := by tauto
    simp only [if_neg h1, if_neg h2, if_neg h3, if_neg h4, if_neg h5, if_neg hnone]

/-- The five counts add up to the number of payments that lie in some range. -/
theorem sum_counts (data : List Payment) :
    ((processAmountRanges data).map Range.count).sum =
      data.countP (fun p => ranges.any (inRange p.amount)) := by
  rw [processAmountRanges_eq]
  induction data with
  | nil => simp [ranges]
  | cons p rest ih =>
    simp only [ranges, List.map_cons, List.map_nil, List.sum_cons, List.sum_nil,
      List.countP_cons, List.any_cons, List.any_nil, inRange, ge_iff_le, Bool.and_eq_true,
      decide_eq_true_eq, Bool.or_eq_true, Bool.and_true, Bool.or_false, and_true,
      Bool.decide_and, Bool.decide_eq_true] at ih ⊢
    rw [← ih, ← range_indicators p.amount]
    ring

/-- A whole non-negative amount lies in exactly one range. -/
theorem whole_amount_in_range (k : ℕ) : ranges.any (inRange (k : ℚ)) = true ∧
    (ranges.filter (inRange (k : ℚ))).length = 1 := by
  have hk : k ≤ 1000 ∨ (1001 ≤ k ∧ k ≤ 2000) ∨ (2001 ≤ k ∧ k ≤ 3000) ∨
      (3001 ≤ k ∧ k ≤ 5000) ∨ 5001 ≤ k := by omega
  have h0 : (0 : ℚ) ≤ k := Nat.cast_nonneg k
  simp only [ranges, List.any_cons, List.any_nil, List.filter_cons, List.filter_nil, inRange,
    ge_iff_le, Bool.and_eq_true, decide_eq_true_eq, Bool.or_eq_true, Bool.and_true,
    Bool.or_false, and_true, Bool.decide_and, Bool.decide_eq_true]
  rcases hk with h | ⟨h, h'⟩ | ⟨h, h'⟩ | ⟨h, h'⟩ | h
  · have a1 : (k : ℚ) ≤ 1000 := by exact_mod_cast h
    have b2 : ¬ ((1001 : ℚ) ≤ k) := fun hc => by
      have hn : 1001 ≤ k := by exact_mod_cast hc
      omega
    have b3 : ¬ ((2001 : ℚ) ≤ k) := fun hc => by
      have hn : 2001 ≤ k := by exact_mod_cast hc
      omega
    have b4 : ¬ ((3001 : ℚ) ≤ k) := fun hc => by
      have hn : 3001 ≤ k := by exact_mod_cast hc
      omega
    have b5 : ¬ ((5001 : ℚ) ≤ k) := fun hc => by
      have hn : 5001 ≤ k := by exact_mod_cast hc
      omega
    simp [h0, a1, b2, b3, b4, b5]
  · have a1 : (1001 : ℚ) ≤ k := by exact_mod_cast h
    have a2 : (k : ℚ) ≤ 2000 := by exact_mod_cast h'
    have b1 : ¬ ((k : ℚ) ≤ 1000) := fun hc => by
      have hn : k ≤ 1000 := by exact_mod_cast hc
      omega
    have b3 : ¬ ((2001 : ℚ) ≤ k) := fun hc => by
      have hn : 2001 ≤ k := by exact_mod_cast hc
      omega
    have b4 : ¬ ((3001 : ℚ) ≤ k) := fun hc => by
      have hn : 3001 ≤ k := by exact_mod_cast hc
      omega
    have b5 : ¬ ((5001 : ℚ) ≤ k) := fun hc => by
      have hn : 5001 ≤ k := by exact_mod_cast hc
      omega
    simp [a1, a2, b1, b3, b4, b5]
  · have a1 : (2001 : ℚ) ≤ k := by exact_mod_cast h
    have a2 : (k : ℚ) ≤ 3000 := by exact_mod_cast h'
    have b1 : ¬ ((k : ℚ) ≤ 1000) := fun hc => by
      have hn : k ≤ 1000 := by exact_mod_cast hc
      omega
    have b2 : ¬ ((k : ℚ) ≤ 2000) := fun hc => by
      have hn : k ≤ 2000 := by exact_mod_cast hc
      omega
    have b4 : ¬ ((3001 : ℚ) ≤ k) := fun hc => by
      have hn : 3001 ≤ k := by exact_mod_cast hc
      omega
    have b5 : ¬ ((5001 : ℚ) ≤ k) := fun hc => by
      have hn : 5001 ≤ k := by exact_mod_cast hc
      omega
    simp [a1, a2, b1, b2, b4, b5]
  · have a1 : (3001 : ℚ) ≤ k := by exact_mod_cast h
    have a2 : (k : ℚ) ≤ 5000 := by exact_mod_cast h'
    have b1 : ¬ ((k : ℚ) ≤ 1000) := fun hc => by
      have hn : k ≤ 1000 := by exact_mod_cast hc
      omega
    have b2 : ¬ ((k : ℚ) ≤ 2000) := fun hc => by
      have hn : k ≤ 2000 := by exact_mod_cast hc
      omega
    have b3 : ¬ ((k : ℚ) ≤ 3000) := fun hc => by
      have hn : k ≤ 3000 := by exact_mod_cast hc
      omega
    have b5 : ¬ ((5001 : ℚ) ≤ k) := fun hc => by
      have hn : 5001 ≤ k := by exact_mod_cast hc
      omega
    simp [a1, a2, b1, b2, b3, b5]
  · have a1 : (5001 : ℚ) ≤ k := by exact_mod_cast h
    have b1 : ¬ ((k : ℚ) ≤ 1000) := fun hc => by
      have hn : k ≤ 1000 := by exact_mod_cast hc
      omega
    have b2 : ¬ ((k : ℚ) ≤ 2000) := fun hc => by
      have hn : k ≤ 2000 := by exact_mod_cast hc
      omega
    have b3 : ¬ ((k : ℚ) ≤ 3000) := fun hc => by
      have hn : k ≤ 3000 := by exact_mod_cast hc
      omega
    have b4 : ¬ ((k : ℚ) ≤ 5000) := fun hc => by
      have hn : k ≤ 5000 := by exact_mod_cast hc
      omega
    simp [a1, b1, b2, b3, b4]

/-- C30, as stated, fails: a payment of Rs. 1000.5 is non-negative and lies in none of the
five ranges (it is above 1000 and below 1001), so it is counted nowhere and the five counts
add up to 0 for a list of one payment. -/
theorem amount_between_ranges :
    ((processAmountRanges [⟨"Ali", 1000.5, "Succeeded"⟩]).map Range.count).sum = 0 ∧
    ranges.filter (inRange (1000.5 : ℚ)) = [] ∧ (0 : ℚ) ≤ 1000.5 ∧
    ((processAmountRanges [⟨"Ali", 1000.5, "Succeeded"⟩]).map Range.count).sum ≠
      [(⟨"Ali", 1000.5, "Succeeded"⟩ : Payment)].length := by
  refine ⟨by decide!, by decide!, by norm_num, by decide!⟩

/-- C30 (amended): amount bucketing in PaymentTrendsAnalysis.  For every list of payments,
each range's count is the number of payments whose amount it accepts, every payment is
counted in at most one range, the five counts add up to the number of payments that lie
in some range, hence to at most the number of payments; when every amount is a whole
non-negative number each payment is counted in exactly one range and the five counts add
up to the number of payments. -/
theorem processAmountRanges_counts (data : List Payment) :
    processAmountRanges data =
      ranges.map (fun r => { r with count := data.countP (fun p => inRange p.amount r) }) ∧
    (∀ p ∈ data, (ranges.filter (inRange p.amount)).length ≤ 1) ∧
    ((processAmountRanges data).map Range.count).sum =
      data.countP (fun p => ranges.any (inRange p.amount)) ∧
    ((processAmountRanges data).map Range.count).sum ≤ data.length ∧
    ((∀ p ∈ data, ∃ k : ℕ, p.amount = k) →
      (∀ p ∈ data, (ranges.filter (inRange p.amount)).length = 1) ∧
      ((processAmountRanges data).map Range.count).sum = data.length) := by
  refine ⟨processAmountRanges_eq data, ?_, sum_counts data, ?_, ?_⟩
  · intro p _
    have h := range_indicators p.amount
    rw [← List.countP_eq_length_filter]
    simp only [ranges, List.countP_cons, List.countP_nil, inRange, ge_iff_le, Bool.and_eq_true,
      decide_eq_true_eq, Bool.and_true, and_true, zero_add]
    have hle : (if 0 ≤ p.amount ∧ p.amount ≤ 1000 ∨ 1001 ≤ p.amount ∧ p.amount ≤ 2000 ∨
        2001 ≤ p.amount ∧ p.amount ≤ 3000 ∨ 3001 ≤ p.amount ∧ p.amount ≤ 5000 ∨
        5001 ≤ p.amount then 1 else 0 : ℕ) ≤ 1 := by
      split_ifs <;> omega
    linarith
  · rw [sum_counts]; exact List.countP_le_length _
  · intro hw
    refine ⟨?_, ?_⟩
    · intro p hp
      obtain ⟨k, hk⟩ := hw p hp
      rw [hk]; exact (whole_amount_in_range k).2
    · rw [sum_counts, List.countP_eq_length]
      intro p hp
      obtain ⟨k, hk⟩ := hw p hp
      rw [hk]; exact (whole_amount_in_range k).1

/-- Witness of C30: payments of Rs. 1000 and Rs. 7000 are counted once each. -/
theorem processAmountRanges_counts_witness :
    (∀ p ∈ [(⟨"Ali", 1000, "Succeeded"⟩ : Payment), ⟨"Sara", 7000, "Pending"⟩],
      (ranges.filter (inRange p.amount)).length = 1) ∧
    ((processAmountRanges [⟨"Ali", 1000, "Succeeded"⟩, ⟨"Sara", 7000, "Pending"⟩]).map
      Range.count).sum =
      [(⟨"Ali", 1000, "Succeeded"⟩ : Payment), ⟨"Sara", 7000, "Pending"⟩].length :=
  (processAmountRanges_counts [⟨"Ali", 1000, "Succeeded"⟩, ⟨"Sara", 7000, "Pending"⟩]).2.2.2.2
    (by
      intro p hp
      simp only [List.mem_cons, List.mem_singleton, List.not_mem_nil, or_false] at hp
      rcases hp with rfl | rfl
      · exact ⟨1000, by norm_num⟩
      · exact ⟨7000, by norm_num⟩)

end PaymentTrendsAnalysis

/-! ## Firing order and the cap (C24) -/

namespace AdminDashboard

/-- The revenue target rules push notifications without a category. -/
theorem revenueTargetRules_plain (should : String → Bool) (now : ℤ) (d : DashboardData) :
    ∀ n ∈ (revenueTargetRules should now d).pushed, n.category = none := by
  intro n hn
  unfold revenueTargetRules at hn
  cases hr : d.todaysRevenue with
  | none => rw [hr] at hn; simp [RuleOut.skip] at hn
  | some r =>
    rw [hr] at hn
    dsimp only at hn
    split_ifs at hn <;>
      first
      | (simp only [RuleOut.fire, List.mem_singleton] at hn; rw [hn]; rfl)
      | (simp [RuleOut.skip] at hn)

/-- The ticket sales rules push notifications without a category. -/
theorem ticketSalesRules_plain (should : String → Bool) (now : ℤ) (d : DashboardData) :
    ∀ n ∈ (ticketSalesRules should now d).pushed, n.category = none := by
  intro n hn
  unfold ticketSalesRules at hn
  cases hr : d.todaysTickets with
  | none => rw [hr] at hn; simp [RuleOut.skip] at hn
  | some r =>
    rw [hr] at hn
    dsimp only at hn
    split_ifs at hn <;>
      first
      | (simp only [RuleOut.fire, List.mem_singleton] at hn; rw [hn]; rfl)
      | (simp [RuleOut.skip] at hn)

/-- The driver utilization rules push notifications without a category. -/
theorem driverUtilizationRules_plain (should : String → Bool) (now : ℤ) (d : DashboardData) :
    ∀ n ∈ (driverUtilizationRules should now d).pushed, n.category = none := by
  intro n hn
  unfold driverUtilizationRules at hn
  cases hdr : d.driversRegistered with
  | none => rw [hdr] at hn; simp [RuleOut.skip] at hn
  | some dr =>
    cases had : d.assignedDrivers with
    | none => rw [hdr, had] at hn; simp [RuleOut.skip] at hn
    | some ad =>
      rw [hdr, had] at hn
      simp only [RuleOut.seq, RuleOut.fire, RuleOut.skip] at hn
      split_ifs at hn <;>
        simp only [List.mem_append, List.mem_singleton, List.not_mem_nil, or_false,
          false_or, List.append_nil, List.nil_append] at hn <;>
        first
        | (rcases hn with hn | hn <;> (rw [hn]; rfl))
        | (rw [hn]; rfl)

/-- The vehicle utilization rules push notifications without a category. -/
theorem vehicleUtilizationRules_plain (should : String → Bool) (now : ℤ) (d : DashboardData) :
    ∀ n ∈ (vehicleUtilizationRules should now d).pushed, n.category = none := by
  intro n hn
  unfold vehicleUtilizationRules at hn
  cases hdr : d.totalVehicles with
  | none => rw [hdr] at hn; simp [RuleOut.skip] at hn
  | some dr =>
    cases had : d.assignedDrivers with
    | none => rw [hdr, had] at hn; simp [RuleOut.skip] at hn
    | some ad =>
      rw [hdr, had] at hn
      simp only [RuleOut.seq, RuleOut.fire, RuleOut.skip] at hn
      split_ifs at hn <;>
        simp only [List.mem_append, List.mem_singleton, List.not_mem_nil, or_false,
          false_or, List.append_nil, List.nil_append] at hn <;>
        first
        | (rcases hn with hn | hn <;> (rw [hn]; rfl))
        | (rw [hn]; rfl)

/-- On a list whose analytics notifications all come first, the cap keeps them and the
first two of the others, in place. -/
theorem limitedNotifications_append (A B : List Notification)
    (hA : ∀ n ∈ A, n.category = some "analytics")
    (hB : ∀ n ∈ B, n.category ≠ some "analytics") :
    limitedNotifications (A ++ B) = A ++ B.take 2 := by
  unfold limitedNotifications
  dsimp only
  rw [List.filter_append, List.filter_append]
  have h1 : A.filter (fun n => decide (n.category = some "analytics")) = A :=
    List.filter_eq_self.2 (fun n hn => by simpa using hA n hn)
  have h2 : B.filter (fun n => decide (n.category = some "analytics")) = [] :=
    List.filter_eq_nil_iff.2 (fun n hn => by simpa using hB n hn)
  have h3 : A.filter (fun n => decide (n.category ≠ some "analytics")) = [] :=
    List.filter_eq_nil_iff.2 (fun n hn => by simpa using hA n hn)
  have h4 : B.filter (fun n => decide (n.category ≠ some "analytics")) = B :=
    List.filter_eq_self.2 (fun n hn => by simpa using hB n hn)
  rw [h1, h2, h3, h4]
  simp

/-- The notifications of a pass: those of the six analytics blocks, then those of the
four older blocks. -/
theorem newNotifications_split (s : State) (now : ℤ) (dd : Option DashboardData) :
    ∃ A B, newNotifications s now dd = A ++ B ∧
      (∀ n ∈ A, n.category = some "analytics") ∧ (∀ n ∈ B, n.category = none) := by
  rcases newNotifications_eq_nil_or s now dd with ⟨h, _⟩ | ⟨d, _, h, _⟩
  · exact ⟨[], [], by simp [h], by simp, by simp⟩
  · rw [h, evaluateRules_pushed]
    refine ⟨(highRevenueEfficiency (shouldGenerateNotification s.notificationHistory now)
        now d).pushed ++
      ((dailyTicketGoalRule (shouldGenerateNotification s.notificationHistory now) now d).pushed
      ++ ((revenueHealthCheck (shouldGenerateNotification s.notificationHistory now)
        now d).pushed ++
      ((revenueTicketComparison (shouldGenerateNotification s.notificationHistory now)
        now d).pushed ++
      ((totalRevenueMilestone (shouldGenerateNotification s.notificationHistory now)
        now d).pushed ++
      (ticketVolumeAnalysis (shouldGenerateNotification s.notificationHistory now)
        now d).pushed)))),
      (revenueTargetRules (shouldGenerateNotification s.notificationHistory now) now d).pushed
      ++ ((ticketSalesRules (shouldGenerateNotification s.notificationHistory now)
        now d).pushed ++
      ((driverUtilizationRules (shouldGenerateNotification s.notificationHistory now)
        now d).pushed ++
      (vehicleUtilizationRules (shouldGenerateNotification s.notificationHistory now)
        now d).pushed)), ?_, ?_, ?_⟩
    · simp only [List.append_assoc]
    · intro n hn
      simp only [List.mem_append] at hn
      rcases hn with h | h | h | h | h | h
      · exact highRevenueEfficiency_category _ now d n h
      · exact dailyTicketGoalRule_category _ now d n h
      · exact revenueHealthCheck_category _ now d n h
      · exact revenueTicketComparison_category _ now d n h
      · exact totalRevenueMilestone_category _ now d n h
      · exact ticketVolumeAnalysis_category _ now d n h
    · intro n hn
      simp only [List.mem_append] at hn
      rcases hn with h | h | h | h
      · exact revenueTargetRules_plain _ now d n h
      · exact ticketSalesRules_plain _ now d n h
      · exact driverUtilizationRules_plain _ now d n h
      · exact vehicleUtilizationRules_plain _ now d n h

/-- C24: firing order is preserved by the AdminDashboard cap.  For every state (cooldown
history included), clock reading and snapshot, the list prepended to the store is
`limitedNotifications` of the pass's `newNotifications` and is a sublist of it (same
relative order); the rules of `newNotifications` follow the rule-registration order; and
`newNotifications` consists of the analytics notifications followed by the others, the cap
keeping the former and the first two of the latter. -/
theorem firing_order_preserved (s : State) (now : ℤ) (dd : Option DashboardData) :
    (notificationEffect now dd s).notifications =
      limitedNotifications (newNotifications s now dd) ++ s.notifications ∧
    (limitedNotifications (newNotifications s now dd)).Sublist (newNotifications s now dd) ∧
    ((newNotifications s now dd).map ruleOf).Sublist (ruleIds.map some) ∧
    ∃ A B, newNotifications s now dd = A ++ B ∧
      (∀ n ∈ A, n.category = some "analytics") ∧ (∀ n ∈ B, n.category = none) ∧
      limitedNotifications (newNotifications s now dd) = A ++ B.take 2 := by
  obtain ⟨A, B, hAB, hA, hB⟩ := newNotifications_split s now dd
  have hB' : ∀ n ∈ B, n.category ≠ some "analytics" := by
    intro n hn
    rw [hB n hn]
    simp
  have hlim : limitedNotifications (newNotifications s now dd) = A ++ B.take 2 := by
    rw [hAB]
    exact limitedNotifications_append A B hA hB'
  refine ⟨notificationEffect_notifications now dd s, ?_, ?_, A, B, hAB, hA, hB, hlim⟩
  · rw [hlim, hAB]
    exact List.Sublist.append (List.Sublist.refl A) (List.take_sublist 2 B)
  · rcases newNotifications_eq_nil_or s now dd with ⟨h, _⟩ | ⟨d, _, h, _⟩
    · rw [h]
      exact List.nil_sublist _
    · rw [h]
      obtain ⟨h1, h2⟩ := evaluateRules_paired s.notificationHistory now d
      exact h2.trans (h1.map some)

end AdminDashboard

/-! ## Notification identity (C25) -/

namespace AdminDashboard

/-- A pass that is not skipped records its clock reading in `lastNotificationCheck`. -/
theorem notificationEffect_lastCheck {s : State} {now : ℤ} (d : DashboardData)
    (hgate : gateClosed s now = false) :
    (notificationEffect now (some d) s).lastNotificationCheck = some now := by
  simp only [notificationEffect, hgate, Bool.false_eq_true, if_false]
  split_ifs <;> rfl

/-- A pass without a snapshot, or skipped by the gate, leaves the state as it is. -/
theorem notificationEffect_of_skipped (s : State) (now : ℤ) (dd : Option DashboardData)
    (h : dd = none ∨ gateClosed s now = true) : notificationEffect now dd s = s := by
  cases dd with
  | none => rfl
  | some d =>
    rcases h with h | h
    · cases h
    · simp [notificationEffect, h]

/-- The ids of the notifications of one pass are pairwise distinct. -/
theorem newNotifications_ids_nodup (s : State) (now : ℤ) (dd : Option DashboardData) :
    ((newNotifications s now dd).map Notification.id).Nodup := by
  rcases newNotifications_eq_nil_or s now dd with ⟨h, _⟩ | ⟨d, _, h, _⟩
  · rw [h]
    exact List.nodup_nil
  · rw [h]
    obtain ⟨h1, h2⟩ := evaluateRules_paired s.notificationHistory now d
    have hnd : ((evaluateRules s.notificationHistory now d).pushed.map ruleOf).Nodup :=
      ((ruleIds_nodup.sublist h1).map (Option.some_injective _)).sublist h2
    have hcomp : (evaluateRules s.notificationHistory now d).pushed.map ruleOf =
        ((evaluateRules s.notificationHistory now d).pushed.map Notification.id).map
          (fun i => match i with
            | .tagged pfx _ => ruleOfTag pfx
            | .stamp _ => none) := by
      rw [List.map_map]
      apply List.map_congr_left
      intro n _
      simp only [ruleOf, Function.comp]
    rw [hcomp] at hnd
    exact List.Nodup.of_map _ hnd

/-- The cap keeps a sublist of the notifications of a pass. -/
theorem limitedNotifications_sublist (s : State) (now : ℤ) (dd : Option DashboardData) :
    (limitedNotifications (newNotifications s now dd)).Sublist (newNotifications s now dd) := by
  obtain ⟨A, B, hAB, hA, hB⟩ := newNotifications_split s now dd
  have hB' : ∀ n ∈ B, n.category ≠ some "analytics" := by
    intro n hn
    rw [hB n hn]
    simp
  rw [hAB, limitedNotifications_append A B hA hB']
  exact List.Sublist.append (List.Sublist.refl A) (List.take_sublist 2 B)

/-- The invariant behind the uniqueness of ids: the ids of the store are pairwise distinct
and tagged, no id is stamped later than the last pass that was not skipped, and that pass
ran at a non-zero clock reading not after any pass still to come. -/
theorem run_passes_ids (passes : List (ℤ × Option DashboardData)) :
    ∀ s : State, (passes.map Prod.fst).Pairwise (· ≤ ·) → (∀ p ∈ passes, p.1 ≠ 0) →
      (s.notifications.map Notification.id).Nodup →
      (∀ n ∈ s.notifications, ∃ pfx t L, n.id = .tagged pfx t ∧
        s.lastNotificationCheck = some L ∧ t ≤ L) →
      (∀ L, s.lastNotificationCheck = some L → L ≠ 0 ∧ ∀ p ∈ passes, L ≤ p.1) →
      ((run s (passes.map (fun p => Op.pass p.1 p.2))).notifications.map
          Notification.id).Nodup ∧
      ∀ n ∈ (run s (passes.map (fun p => Op.pass p.1 p.2))).notifications,
        ∃ pfx t, n.id = .tagged pfx t := by
  induction passes with
  | nil =>
    intro s _ _ hnd htag _
    refine ⟨hnd, ?_⟩
    intro n hn
    obtain ⟨pfx, t, _, h, _⟩ := htag n hn
    exact ⟨pfx, t, h⟩
  | cons p rest ih =>
    intro s hsorted hnz hnd htag hlast
    obtain ⟨now, dd⟩ := p
    simp only [List.map_cons, List.pairwise_cons] at hsorted
    obtain ⟨hhead, htail⟩ := hsorted
    have hnz' : ∀ q ∈ rest, q.1 ≠ 0 := fun q hq => hnz q (List.mem_cons_of_mem _ hq)
    have hnow : now ≠ 0 := hnz (now, dd) (List.mem_cons_self _ _)
    have hrun : run s (List.map (fun p => Op.pass p.1 p.2) ((now, dd) :: rest)) =
        run (notificationEffect now dd s) (List.map (fun p => Op.pass p.1 p.2) rest) := rfl
    rw [hrun]
    by_cases hskip : dd = none ∨ gateClosed s now = true
    · rw [notificationEffect_of_skipped s now dd hskip]
      exact ih s htail hnz' hnd htag
        (fun L hL => ⟨(hlast L hL).1, fun q hq => (hlast L hL).2 q (List.mem_cons_of_mem _ hq)⟩)
    · push_neg at hskip
      obtain ⟨hdd, hgate⟩ := hskip
      obtain ⟨d, rfl⟩ := Option.ne_none_iff_exists'.1 hdd
      have hgate' : gateClosed s now = false := by simpa using hgate
      have hL' := notificationEffect_lastCheck d hgate'
      have hstore := notificationEffect_notifications now (some d) s
      have hold : ∀ n ∈ s.notifications, ∃ pfx t, n.id = .tagged pfx t ∧ t < now := by
        intro n hn
        obtain ⟨pfx, t, L, hid, hL, htL⟩ := htag n hn
        refine ⟨pfx, t, hid, ?_⟩
        have hL0 := (hlast L hL).1
        have hopen : ¬ (now - L < 30000) := by
          intro hlt
          have : gateClosed s now = true := by simp [gateClosed, hL, hL0, hlt]
          rw [this] at hgate'
          cases hgate'
        linarith
      apply ih (notificationEffect now (some d) s) htail hnz'
      · rw [hstore, List.map_append, List.nodup_append]
        refine ⟨((newNotifications_ids_nodup s now (some d)).sublist
          ((limitedNotifications_sublist s now (some d)).map _)), hnd, ?_⟩
        intro i hi1 hi2
        obtain ⟨n1, hn1, rfl⟩ := List.mem_map.1 hi1
        obtain ⟨n2, hn2, heq⟩ := List.mem_map.1 hi2
        obtain ⟨_, _, ⟨pfx1, hid1⟩, _⟩ :=
          newNotifications_sound (mem_limitedNotifications hn1)
        obtain ⟨pfx2, t, hid2, hlt⟩ := hold n2 hn2
        rw [hid1, hid2] at heq
        cases heq
        exact lt_irrefl _ hlt
      · intro n hn
        rw [hstore] at hn
        rcases List.mem_append.1 hn with h | h
        · obtain ⟨_, _, ⟨pfx, hid⟩, _⟩ := newNotifications_sound (mem_limitedNotifications h)
          exact ⟨pfx, now, now, hid, hL', le_refl _⟩
        · obtain ⟨pfx, t, hid, hlt⟩ := hold n h
          exact ⟨pfx, t, now, hid, hL', le_of_lt hlt⟩
      · intro L hL
        rw [hL'] at hL
        cases hL
        exact ⟨hnow, fun q hq => hhead q.1 (List.mem_map_of_mem _ hq)⟩

/-- C25: notification identity is unique in AdminDashboard.  For every sequence of
evaluation passes run at non-decreasing clock times from the initial state, the clock
times being `Date.now()` readings and hence not 0, whatever the snapshots, the ids of the
notifications in the store are pairwise distinct, and every one of them is the tagged id
of a rule-generated notification. -/
theorem notification_ids_unique (passes : List (ℤ × Option DashboardData))
    (hmono : (passes.map Prod.fst).Pairwise (· ≤ ·)) (hnz : ∀ p ∈ passes, p.1 ≠ 0) :
    ((run State.init (passes.map (fun p => Op.pass p.1 p.2))).notifications.map
        Notification.id).Nodup ∧
    ∀ n ∈ (run State.init (passes.map (fun p => Op.pass p.1 p.2))).notifications,
      ∃ pfx t, n.id = .tagged pfx t := by
  apply run_passes_ids passes State.init hmono hnz
  · exact List.nodup_nil
  · intro n hn
    simp [State.init] at hn
  · intro L hL
    simp [State.init] at hL

/-- Witness of C25: passes at times 1000, 1000 and 40000 on one snapshot. -/
theorem notification_ids_unique_witness :
    ((run State.init
        [Op.pass 1000 (some ⟨some 20000, none, none, none, none, none, none⟩),
         Op.pass 1000 (some ⟨some 20000, none, none, none, none, none, none⟩),
         Op.pass 40000 (some ⟨some 20000, none, none, none, none, none, none⟩)]).notifications.map
        Notification.id).Nodup :=
  (notification_ids_unique
    [(1000, some ⟨some 20000, none, none, none, none, none, none⟩),
     (1000, some ⟨some 20000, none, none, none, none, none, none⟩),
     (40000, some ⟨some 20000, none, none, none, none, none, none⟩)]
    (by decide) (by decide)).1

end AdminDashboard

/-! ## Revenue thresholds (C26) -/

namespace AdminDashboard

/-- C26: the revenue threshold rules of AdminDashboard.  For every snapshot with
`todaysRevenue > 0`, on a pass that is not skipped and on which both rules pass their
cooldown check, the pass pushes the `revenue-target` notification iff
`todaysRevenue >= 10000`, the `revenue-low` notification iff `todaysRevenue < 5000`,
neither iff `5000 <= todaysRevenue < 10000`, and never both; the `revenue-target`
notification has type `success` and the `revenue-low` notification has type `warning`. -/
theorem revenue_threshold (s : State) (now : ℤ) (d : DashboardData) (r : ℚ)
    (hr : d.todaysRevenue = some r) (hpos : r > 0) (hgate : gateClosed s now = false)
    (htarget : shouldGenerateNotification s.notificationHistory now "revenue-target" = true)
    (hlow : shouldGenerateNotification s.notificationHistory now "revenue-low" = true) :
    ((∃ n ∈ newNotifications s now (some d),
        ruleOf n = some "revenue-target" ∧ n.type = "success") ↔ r ≥ 10000) ∧
    ((∃ n ∈ newNotifications s now (some d),
        ruleOf n = some "revenue-low" ∧ n.type = "warning") ↔ r < 5000) ∧
    ((∀ n ∈ newNotifications s now (some d),
        ruleOf n ≠ some "revenue-target" ∧ ruleOf n ≠ some "revenue-low") ↔
      5000 ≤ r ∧ r < 10000) ∧
    ¬ ((∃ n ∈ newNotifications s now (some d), ruleOf n = some "revenue-target") ∧
       (∃ n ∈ newNotifications s now (some d), ruleOf n = some "revenue-low")) ∧
    (∀ n ∈ newNotifications s now (some d), ruleOf n = some "revenue-target" →
      n = plain "revenue-target" now "success"
        [.text "Daily revenue target achieved! Rs. ", .num (.fin r)]) ∧
    (∀ n ∈ newNotifications s now (some d), ruleOf n = some "revenue-low" →
      n = plain "revenue-low" now "warning"
        [.text "Today's revenue (Rs. ", .num (.fin r), .text ") is below 50% of target"]) := by
  have hnew := newNotifications_of_open d hgate
  have hA : (∃ n ∈ newNotifications s now (some d), ruleOf n = some "revenue-target") ↔
      r ≥ 10000 := by
    rw [hnew, evaluateRules_fires_iff]
    simp only [ruleCondition, String.reduceEq, if_true, if_false, hr, htarget, and_true,
      targetRevenue, decide_eq_true_eq]
    constructor
    · exact fun h => h.2
    · exact fun h => ⟨hpos, h⟩
  have hB : (∃ n ∈ newNotifications s now (some d), ruleOf n = some "revenue-low") ↔
      r < 5000 := by
    rw [hnew, evaluateRules_fires_iff]
    simp only [ruleCondition, String.reduceEq, if_true, if_false, hr, hlow, and_true,
      targetRevenue, decide_eq_true_eq]
    constructor
    · intro h; linarith [h.2]
    · intro h; exact ⟨hpos, by linarith⟩
  have hblock : ∀ n ∈ newNotifications s now (some d), ∀ R ∈ ["revenue-target", "revenue-low"],
      ruleOf n = some R →
      (r ≥ 10000 ∧ n = plain "revenue-target" now "success"
        [.text "Daily revenue target achieved! Rs. ", .num (.fin r)]) ∨
      (r < 5000 ∧ n = plain "revenue-low" now "warning"
        [.text "Today's revenue (Rs. ", .num (.fin r), .text ") is below 50% of target"]) := by
    intro n hn R hRm hR
    rw [hnew] at hn
    have hmem := (pushed_block hn hR).2.2.2.2.2.2.1 hRm
    unfold revenueTargetRules at hmem
    rw [hr] at hmem
    dsimp only at hmem
    rw [if_pos hpos] at hmem
    simp only [targetRevenue] at hmem
    split_ifs at hmem with h1 h2
    · left
      exact ⟨h1.1, by simpa [RuleOut.fire] using hmem⟩
    · right
      exact ⟨by linarith [h2.1], by simpa [RuleOut.fire] using hmem⟩
    · simp [RuleOut.skip] at hmem
  have hT : ∀ n ∈ newNotifications s now (some d), ruleOf n = some "revenue-target" →
      n = plain "revenue-target" now "success"
        [.text "Daily revenue target achieved! Rs. ", .num (.fin r)] := by
    intro n hn hR
    rcases hblock n hn "revenue-target" (by simp) hR with ⟨_, h⟩ | ⟨_, h⟩
    · exact h
    · rw [h] at hR
      exact absurd hR (by simp [ruleOf, ruleOfTag, plain])
  have hL : ∀ n ∈ newNotifications s now (some d), ruleOf n = some "revenue-low" →
      n = plain "revenue-low" now "warning"
        [.text "Today's revenue (Rs. ", .num (.fin r), .text ") is below 50% of target"] := by
    intro n hn hR
    rcases hblock n hn "revenue-low" (by simp) hR with ⟨_, h⟩ | ⟨_, h⟩
    · rw [h] at hR
      exact absurd hR (by simp [ruleOf, ruleOfTag, plain])
    · exact h
  refine ⟨?_, ?_, ?_, ?_, hT, hL⟩
  · rw [← hA]
    constructor
    · rintro ⟨n, hn, hR, _⟩
      exact ⟨n, hn, hR⟩
    · rintro ⟨n, hn, hR⟩
      refine ⟨n, hn, hR, ?_⟩
      rw [hT n hn hR]
      rfl
  · rw [← hB]
    constructor
    · rintro ⟨n, hn, hR, _⟩
      exact ⟨n, hn, hR⟩
    · rintro ⟨n, hn, hR⟩
      refine ⟨n, hn, hR, ?_⟩
      rw [hL n hn hR]
      rfl
  · constructor
    · intro hnone
      constructor
      · by_contra hlt
        obtain ⟨n, hn, hR⟩ := hB.2 (not_le.1 hlt)
        exact (hnone n hn).2 hR
      · by_contra hge
        obtain ⟨n, hn, hR⟩ := hA.2 (not_lt.1 hge)
        exact (hnone n hn).1 hR
    · rintro ⟨h5, h10⟩ n hn
      constructor
      · intro hR
        have := hA.1 ⟨n, hn, hR⟩
        linarith
      · intro hR
        have := hB.1 ⟨n, hn, hR⟩
        linarith
  · rintro ⟨h1, h2⟩
    have a := hA.1 h1
    have b := hB.1 h2
    linarith

/-- Witness of C26: from the initial state, a snapshot with `todaysRevenue = 12000` yields
the `revenue-target` notification of type `success`. -/
theorem revenue_threshold_witness :
    (∃ n ∈ newNotifications State.init 1000
        (some ⟨none, none, some 12000, none, none, none, none⟩),
      ruleOf n = some "revenue-target" ∧ n.type = "success") ↔ (12000 : ℚ) ≥ 10000 :=
  (revenue_threshold State.init 1000 ⟨none, none, some 12000, none, none, none, none⟩ 12000
    rfl (by norm_num) (by decide) (by decide) (by decide)).1

end AdminDashboard

/-! ## The pass gate (C27) -/

/-- C27: the pass gate.  Let `T` be the start of the previous pass that was not skipped,
as recorded in `lastNotificationCheck` (a `Date.now()` reading, hence not 0).  In
AdminDashboard a pass that starts less than 30000 ms after `T` produces no notification,
marks no rule and leaves the whole state (cooldown history, store, unread count,
`lastNotificationCheck`) unchanged, whatever the snapshot; in SuperAdminDashboard and
DriverDashboard the same holds with 28800000 ms. -/
theorem pass_gate (s : State) (now T : ℤ) (hlast : s.lastNotificationCheck = some T)
    (hT : T ≠ 0) :
    (now - T < 30000 → ∀ dd,
      AdminDashboard.newNotifications s now dd = [] ∧
      AdminDashboard.markedRules s now dd = [] ∧
      AdminDashboard.notificationEffect now dd s = s) ∧
    (now - T < 28800000 →
      (∀ data,
        SuperAdminDashboard.newNotifications s now data = [] ∧
        SuperAdminDashboard.markedRules s now data = [] ∧
        SuperAdminDashboard.notificationEffect now data s = s) ∧
      (∀ out, DriverDashboard.notificationEffect now out s = s)) := by
  constructor
  · intro hlt dd
    have hg : AdminDashboard.gateClosed s now = true := by
      simp [AdminDashboard.gateClosed, hlast, hT, hlt]
    cases dd with
    | none =>
      simp [AdminDashboard.newNotifications, AdminDashboard.markedRules,
        AdminDashboard.notificationEffect]
    | some d =>
      simp [AdminDashboard.newNotifications, AdminDashboard.markedRules,
        AdminDashboard.notificationEffect, hg]
  · intro hlt
    have hg : SuperAdminDashboard.gateClosed s now = true := by
      simp [SuperAdminDashboard.gateClosed, hlast, hT, NOTIFICATION_COOLDOWN]
      linarith
    have hg' : DriverDashboard.gateClosed s now = true := by
      simp [DriverDashboard.gateClosed, hlast, hT, NOTIFICATION_COOLDOWN]
      linarith
    constructor
    · intro data
      cases data with
      | none =>
        simp [SuperAdminDashboard.newNotifications, SuperAdminDashboard.markedRules,
          SuperAdminDashboard.notificationEffect]
      | some companies =>
        simp [SuperAdminDashboard.newNotifications, SuperAdminDashboard.markedRules,
          SuperAdminDashboard.notificationEffect, hg]
    · intro out
      simp [DriverDashboard.notificationEffect, hg']

/-- Witness of C27: after the AdminDashboard pass at time 1000 from the initial state, the
pass at time 2000 on the same snapshot is skipped. -/
theorem pass_gate_witness :
    AdminDashboard.newNotifications
      (AdminDashboard.notificationEffect 1000
        (some ⟨some 20000, none, none, none, none, none, none⟩) State.init) 2000
      (some ⟨some 20000, none, none, none, none, none, none⟩) = [] ∧
    AdminDashboard.markedRules
      (AdminDashboard.notificationEffect 1000
        (some ⟨some 20000, none, none, none, none, none, none⟩) State.init) 2000
      (some ⟨some 20000, none, none, none, none, none, none⟩) = [] ∧
    AdminDashboard.notificationEffect 2000
      (some ⟨some 20000, none, none, none, none, none, none⟩)
      (AdminDashboard.notificationEffect 1000
        (some ⟨some 20000, none, none, none, none, none, none⟩) State.init) =
      AdminDashboard.notificationEffect 1000
        (some ⟨some 20000, none, none, none, none, none, none⟩) State.init :=
  (pass_gate
    (AdminDashboard.notificationEffect 1000
      (some ⟨some 20000, none, none, none, none, none, none⟩) State.init)
    2000 1000 (by decide!) (by decide)).1 (by decide)
    (some ⟨some 20000, none, none, none, none, none, none⟩)

/-! ## Milestone reporting over time (C23) -/

namespace AdminDashboard

/-- C23, as stated, fails: the milestone rule keeps no record of the milestones it has
reported; only its 30000 ms cooldown holds it back.  From the initial state, a snapshot
with `totalRevenue = 60000` reports the 50K milestone at time 1000, and the pass at time
31000 on the unchanged snapshot reports the 50K milestone again. -/
theorem milestone_reported_again :
    milestoneNotification 1000 60000 ⟨50000, "50K"⟩ ∈
      (notificationEffect 1000 (some ⟨some 60000, none, none, none, none, none, none⟩)
        State.init).notifications ∧
    milestoneNotification 31000 60000 ⟨50000, "50K"⟩ ∈
      newNotifications
        (notificationEffect 1000 (some ⟨some 60000, none, none, none, none, none, none⟩)
          State.init)
        31000 (some ⟨some 60000, none, none, none, none, none, none⟩) ∧
    milestoneNotification 31000 60000 ⟨50000, "50K"⟩ ∈
      (notificationEffect 31000 (some ⟨some 60000, none, none, none, none, none, none⟩)
        (notificationEffect 1000 (some ⟨some 60000, none, none, none, none, none, none⟩)
          State.init)).notifications := by
  decide!

/-- C23 (amended): milestone reporting in AdminDashboard is limited by the cooldown of
`total-revenue-milestone` only.  Once the rule has fired at a time `T ≠ 0`, a pass that
starts less than 30000 ms after `T` produces no notification of the rule, whatever the
snapshot; a pass that starts 30000 ms or more after `T` and is not skipped reports, for
every `totalRevenue >= 10000` (an unchanged one included), the highest milestone crossed
again, and the notification reaches the store. -/
theorem milestone_cooldown (s : State) (T now : ℤ)
    (hrec : s.notificationHistory "total-revenue-milestone" = some T) :
    (T ≠ 0 → now - T < 30000 → ∀ dd, ∀ n ∈ newNotifications s now dd,
      ruleOf n ≠ some "total-revenue-milestone") ∧
    (now - T ≥ 30000 → gateClosed s now = false → ∀ d r, d.totalRevenue = some r →
      r ≥ 10000 → ∃ m, crossedMilestone r = some m ∧
        milestoneNotification now r m ∈ newNotifications s now (some d) ∧
        milestoneNotification now r m ∈ (notificationEffect now (some d) s).notifications) := by
  have hw : cooldownWindow "total-revenue-milestone" = 30000 := by decide
  constructor
  · intro hT hlt dd n hn hR
    have hs : shouldGenerateNotification s.notificationHistory now
        "total-revenue-milestone" = false :=
      shouldGenerateNotification_recent hrec hT (by rw [hw]; exact hlt)
    rcases newNotifications_eq_nil_or s now dd with ⟨h, _⟩ | ⟨d, _, h, _⟩
    · rw [h] at hn
      simp at hn
    · rw [h] at hn
      have := (evaluateRules_fires_iff s.notificationHistory now d
        "total-revenue-milestone").1 ⟨n, hn, hR⟩
      rw [hs] at this
      simp at this
  · intro hge hgate d r hr h10
    have hs : shouldGenerateNotification s.notificationHistory now
        "total-revenue-milestone" = true :=
      shouldGenerateNotification_elapsed hrec (by rw [hw]; exact hge)
    obtain ⟨m, hm, _, _, _⟩ := crossedMilestone_spec r h10
    have hz : orZero d.totalRevenue = r := by simp [hr, orZero]
    have hblock : (totalRevenueMilestone (shouldGenerateNotification s.notificationHistory now)
        now d).pushed = [milestoneNotification now r m] := by
      unfold totalRevenueMilestone
      dsimp only
      rw [hz, if_pos ⟨by linarith, hs⟩, hm]
      rfl
    have hmem : milestoneNotification now r m ∈ newNotifications s now (some d) := by
      rw [newNotifications_of_open d hgate, evaluateRules_pushed, hblock]
      simp only [List.mem_append, List.mem_singleton, true_or, or_true]
    refine ⟨m, hm, hmem, ?_⟩
    rw [notificationEffect_notifications]
    apply List.mem_append_left
    obtain ⟨A, B, hAB, hA, hB⟩ := newNotifications_split s now (some d)
    have hB' : ∀ n ∈ B, n.category ≠ some "analytics" := by
      intro n hn
      rw [hB n hn]
      simp
    rw [hAB, limitedNotifications_append A B hA hB']
    rw [hAB] at hmem
    rcases List.mem_append.1 hmem with h | h
    · exact List.mem_append_left _ h
    · have := hB _ h
      simp [milestoneNotification] at this

/-- Witness of C23 (amended): after the firing at time 1000 on a snapshot with
`totalRevenue = 60000`, the pass at 31000 on the same snapshot reports a milestone
again. -/
theorem milestone_cooldown_witness :
    ∃ m, crossedMilestone 60000 = some m ∧
      milestoneNotification 31000 60000 m ∈
        newNotifications
          (notificationEffect 1000 (some ⟨some 60000, none, none, none, none, none, none⟩)
            State.init)
          31000 (some ⟨some 60000, none, none, none, none, none, none⟩) ∧
      milestoneNotification 31000 60000 m ∈
        (notificationEffect 31000 (some ⟨some 60000, none, none, none, none, none, none⟩)
          (notificationEffect 1000 (some ⟨some 60000, none, none, none, none, none, none⟩)
            State.init)).notifications :=
  (milestone_cooldown
    (notificationEffect 1000 (some ⟨some 60000, none, none, none, none, none, none⟩)
      State.init) 1000 31000 (by decide!)).2 (by decide) (by decide!)
    ⟨some 60000, none, none, none, none, none, none⟩ 60000 rfl (by norm_num)

end AdminDashboard

/-! ## Market concentration (C28) -/

namespace SuperAdminDashboard

/-- The sorted copy holds the same companies, in non-increasing order of revenue. -/
theorem sortedCompanies_spec (companies : List Company) :
    (sortedCompanies companies).Perm companies ∧
    (sortedCompanies companies).Pairwise (fun a b => revenueOf a ≥ revenueOf b) := by
  haveI : IsTotal Company (fun a b => revenueOf a ≥ revenueOf b) :=
    ⟨fun a b => le_total (revenueOf b) (revenueOf a)⟩
  haveI : IsTrans Company (fun a b => revenueOf a ≥ revenueOf b) :=
    ⟨fun a b c hab hbc => le_trans hbc hab⟩
  exact ⟨List.perm_insertionSort _ companies, List.sorted_insertionSort _ companies⟩

/-- A list of non-negative revenues has a non-negative sum. -/
theorem revenue_sum_nonneg (l : List Company) (hnn : ∀ c ∈ l, 0 ≤ revenueOf c) :
    0 ≤ (l.map revenueOf).sum := by
  apply List.sum_nonneg
  intro x hx
  obtain ⟨c, hc, rfl⟩ := List.mem_map.1 hx
  exact hnn c hc

/-- The exact figure, before any rounding.  For every non-empty company list with
non-negative revenues and positive total, the companies split into `top`, three of them
(all of them when there are fewer) none of which has a smaller revenue than a company left
in `rest`, such that the exact quotient is `sum(top) / total * 100`; it lies in (0, 100],
and for a list of at most three companies it is 100. -/
theorem marketConcentration_exact (companies : List Company) (hne : companies ≠ [])
    (hnn : ∀ c ∈ companies, 0 ≤ revenueOf c) (hpos : 0 < totalRevenue companies) :
    ∃ top rest : List Company, (top ++ rest).Perm companies ∧
      top.length = min 3 companies.length ∧
      (∀ a ∈ top, ∀ b ∈ rest, revenueOf b ≤ revenueOf a) ∧
      totalRevenue companies = (companies.map revenueOf).sum ∧
      marketConcentration companies =
        JSNum.fin ((top.map revenueOf).sum / (companies.map revenueOf).sum * 100) ∧
      0 < (top.map revenueOf).sum / (companies.map revenueOf).sum * 100 ∧
      (top.map revenueOf).sum / (companies.map revenueOf).sum * 100 ≤ 100 ∧
      (companies.length ≤ 3 →
        marketConcentration companies = JSNum.fin 100 ∧
        (marketConcentration companies).gt 80 = true ∧
        ∀ (should : String → Bool) (now : ℤ), should "market-concentration" = true →
          (marketConcentrationRule should now companies).pushed =
            [plain "market-concentration" now "warning"
              [.text "High market concentration: Top 3 companies control ",
               .fixed (.fin 100) 1, .text "% of revenue"]]) := by
  obtain ⟨hperm, hsorted⟩ := sortedCompanies_spec companies
  have htotal : totalRevenue companies = (companies.map revenueOf).sum := by
    unfold totalRevenue
    rw [foldl_revenue, zero_add]
  have htop : topThreeRevenue companies =
      (((sortedCompanies companies).take 3).map revenueOf).sum := by
    unfold topThreeRevenue
    rw [foldl_revenue, zero_add]
  have hsplit : (companies.map revenueOf).sum =
      (((sortedCompanies companies).take 3).map revenueOf).sum +
      (((sortedCompanies companies).drop 3).map revenueOf).sum := by
    rw [← List.sum_append, ← List.map_append, List.take_append_drop]
    exact ((hperm.map revenueOf).sum_eq).symm
  have hnnS : ∀ c ∈ sortedCompanies companies, 0 ≤ revenueOf c :=
    fun c hc => hnn c (hperm.subset hc)
  have hrest : 0 ≤ (((sortedCompanies companies).drop 3).map revenueOf).sum :=
    revenue_sum_nonneg _ (fun c hc => hnnS c (List.mem_of_mem_drop hc))
  have htopnn : 0 ≤ (((sortedCompanies companies).take 3).map revenueOf).sum :=
    revenue_sum_nonneg _ (fun c hc => hnnS c (List.mem_of_mem_take hc))
  have hcross : ∀ a ∈ (sortedCompanies companies).take 3,
      ∀ b ∈ (sortedCompanies companies).drop 3, revenueOf b ≤ revenueOf a := by
    have h := hsorted
    rw [← List.take_append_drop 3 (sortedCompanies companies), List.pairwise_append] at h
    exact fun a ha b hb => h.2.2 a ha b hb
  have hsum_pos : 0 < (companies.map revenueOf).sum := by rw [← htotal]; exact hpos
  have htop_pos : 0 < (((sortedCompanies companies).take 3).map revenueOf).sum := by
    rcases lt_or_eq_of_le htopnn with h | h
    · exact h
    · exfalso
      have hz := revenue_zero_of_total_zero _
        (fun c hc => hnnS c (List.mem_of_mem_take hc)) h.symm
      have hSne : sortedCompanies companies ≠ [] := by
        intro h0
        rw [h0] at hperm
        exact hne (List.Perm.nil_eq hperm).symm
      obtain ⟨a, as, hS⟩ := List.exists_cons_of_ne_nil hSne
      have ha : a ∈ (sortedCompanies companies).take 3 := by rw [hS]; simp
      have hrest0 : (((sortedCompanies companies).drop 3).map revenueOf).sum = 0 := by
        apply List.sum_eq_zero
        intro x hx
        obtain ⟨c, hc, rfl⟩ := List.mem_map.1 hx
        have h1 := hcross a ha c hc
        rw [hz a ha] at h1
        exact le_antisymm h1 (hnnS c (List.mem_of_mem_drop hc))
      rw [hsplit, ← h, hrest0] at hsum_pos
      simp at hsum_pos
  have hmc : marketConcentration companies =
      JSNum.fin ((((sortedCompanies companies).take 3).map revenueOf).sum /
        (companies.map revenueOf).sum * 100) := by
    unfold marketConcentration
    rw [htop, htotal]
    simp only [JSNum.div, JSNum.mulPos]
    rw [if_pos (ne_of_gt hsum_pos)]
  refine ⟨(sortedCompanies companies).take 3, (sortedCompanies companies).drop 3, ?_, ?_,
    hcross, htotal, hmc, ?_, ?_, ?_⟩
  · rw [List.take_append_drop]
    exact hperm
  · rw [List.length_take, hperm.length_eq]
  · exact mul_pos (div_pos htop_pos hsum_pos) (by norm_num)
  · rw [div_mul_eq_mul_div, div_le_iff₀ hsum_pos]
    nlinarith
  · intro hlen
    have hall : (sortedCompanies companies).take 3 = sortedCompanies companies := by
      apply List.take_of_length_le
      rw [hperm.length_eq]
      exact hlen
    have h100 : marketConcentration companies = JSNum.fin 100 := by
      rw [hmc, hall, (hperm.map revenueOf).sum_eq, div_self (ne_of_gt hsum_pos)]
      norm_num
    refine ⟨h100, ?_, ?_⟩
    · rw [h100]
      simp only [JSNum.gt, decide_eq_true_eq]
      norm_num
    · intro should now hs
      unfold marketConcentrationRule
      rw [h100, if_pos ⟨by simp only [JSNum.gt, decide_eq_true_eq]; norm_num, hs⟩]
      rfl

/-- The three companies the sorted copy starts with, against the rest: a split of
`companies` in which no company of the rest has a larger revenue; with non-negative
revenues and a positive sum the first part has a positive sum, at most the whole. -/
theorem sortedCompanies_split (companies : List Company) (hne : companies ≠ [])
    (hnn : ∀ c ∈ companies, 0 ≤ revenueOf c) (hpos : 0 < (companies.map revenueOf).sum) :
    ((sortedCompanies companies).take 3 ++ (sortedCompanies companies).drop 3).Perm companies ∧
    ((sortedCompanies companies).take 3).length = min 3 companies.length ∧
    (∀ a ∈ (sortedCompanies companies).take 3, ∀ b ∈ (sortedCompanies companies).drop 3,
      revenueOf b ≤ revenueOf a) ∧
    0 < (((sortedCompanies companies).take 3).map revenueOf).sum ∧
    (((sortedCompanies companies).take 3).map revenueOf).sum ≤ (companies.map revenueOf).sum ∧
    (companies.length ≤ 3 →
      (((sortedCompanies companies).take 3).map revenueOf).sum =
        (companies.map revenueOf).sum) := by
  obtain ⟨hperm, hsorted⟩ := sortedCompanies_spec companies
  have hsplit : (companies.map revenueOf).sum =
      (((sortedCompanies companies).take 3).map revenueOf).sum +
      (((sortedCompanies companies).drop 3).map revenueOf).sum := by
    rw [← List.sum_append, ← List.map_append, List.take_append_drop]
    exact ((hperm.map revenueOf).sum_eq).symm
  have hnnS : ∀ c ∈ sortedCompanies companies, 0 ≤ revenueOf c :=
    fun c hc => hnn c (hperm.subset hc)
  have hrest : 0 ≤ (((sortedCompanies companies).drop 3).map revenueOf).sum :=
    revenue_sum_nonneg _ (fun c hc => hnnS c (List.mem_of_mem_drop hc))
  have htopnn : 0 ≤ (((sortedCompanies companies).take 3).map revenueOf).sum :=
    revenue_sum_nonneg _ (fun c hc => hnnS c (List.mem_of_mem_take hc))
  have hcross : ∀ a ∈ (sortedCompanies companies).take 3,
      ∀ b ∈ (sortedCompanies companies).drop 3, revenueOf b ≤ revenueOf a := by
    have h := hsorted
    rw [← List.take_append_drop 3 (sortedCompanies companies), List.pairwise_append] at h
    exact fun a ha b hb => h.2.2 a ha b hb
  have htop_pos : 0 < (((sortedCompanies companies).take 3).map revenueOf).sum := by
    rcases lt_or_eq_of_le htopnn with h | h
    · exact h
    · exfalso
      have hz := revenue_zero_of_total_zero _
        (fun c hc => hnnS c (List.mem_of_mem_take hc)) h.symm
      have hSne : sortedCompanies companies ≠ [] := by
        intro h0
        rw [h0] at hperm
        exact hne (List.Perm.nil_eq hperm).symm
      obtain ⟨a, as, hS⟩ := List.exists_cons_of_ne_nil hSne
      have ha : a ∈ (sortedCompanies companies).take 3 := by rw [hS]; simp
      have hrest0 : (((sortedCompanies companies).drop 3).map revenueOf).sum = 0 := by
        apply List.sum_eq_zero
        intro x hx
        obtain ⟨c, hc, rfl⟩ := List.mem_map.1 hx
        have h1 := hcross a ha c hc
        rw [hz a ha] at h1
        exact le_antisymm h1 (hnnS c (List.mem_of_mem_drop hc))
      rw [hsplit, ← h, hrest0] at hpos
      simp at hpos
  refine ⟨?_, ?_, hcross, htop_pos, by linarith, ?_⟩
  · rw [List.take_append_drop]
    exact hperm
  · rw [List.length_take, hperm.length_eq]
  · intro hlen
    have hall : (sortedCompanies companies).take 3 = sortedCompanies companies := by
      apply List.take_of_length_le
      rw [hperm.length_eq]
      exact hlen
    rw [hall, (hperm.map revenueOf).sum_eq]

/-- Whole revenues whose running sum stays below 2^53 are added without rounding. -/
theorem foldl_roundBinary64_whole (l : List Company)
    (hwhole : ∀ c ∈ l, ∃ n : ℕ, revenueOf c = n) :
    ∀ a : ℕ, (a : ℚ) + (l.map revenueOf).sum < 2 ^ 53 →
      l.foldl (fun sum company => roundBinary64 (sum + revenueOf company)) (a : ℚ) =
        (a : ℚ) + (l.map revenueOf).sum := by
  induction l with
  | nil =>
    intro a _
    simp
  | cons c l ih =>
    intro a ha
    obtain ⟨n, hn⟩ := hwhole c (List.mem_cons_self _ _)
    have hl : ∀ c ∈ l, ∃ n : ℕ, revenueOf c = n :=
      fun c hc => hwhole c (List.mem_cons_of_mem _ hc)
    have hnn : 0 ≤ (l.map revenueOf).sum :=
      revenue_sum_nonneg l (fun c hc => by
        obtain ⟨m, hm⟩ := hl c hc
        rw [hm]
        exact Nat.cast_nonneg m)
    simp only [List.map_cons, List.sum_cons] at ha
    rw [hn] at ha
    have hlt : ((a + n : ℕ) : ℚ) < 2 ^ 53 := by
      push_cast
      linarith
    have hr : roundBinary64 ((a : ℚ) + revenueOf c) = ((a + n : ℕ) : ℚ) := by
      rw [hn, ← Nat.cast_add]
      exact roundBinary64_natCast _ (by exact_mod_cast hlt)
    have hrest := ih hl (a + n) (by push_cast; linarith)
    rw [List.foldl_cons, hr, hrest]
    simp only [List.map_cons, List.sum_cons]
    push_cast
    rw [hn]
    ring

/-- C28, as stated, fails.  With the revenues 1250.10, 980.35 and 1999.99 (three
companies, all positive) the binary64 sum in the order of the records is smaller than the
binary64 sum in sorted order, and `marketConcentration` is 100.00000000000003: it is not
100 and does not lie in (0, 100]. -/
theorem marketConcentration_above_hundred :
    fractionalCompanies.length = 3 ∧
    (∀ c ∈ fractionalCompanies, 0 < revenueOf c) ∧
    Binary64.totalRevenue fractionalCompanies = 4651417970608701 / 1099511627776 ∧
    Binary64.topThreeRevenue fractionalCompanies = 2325708985304351 / 549755813888 ∧
    Binary64.marketConcentration fractionalCompanies =
      JSNum.fin (3518437208883201 / 35184372088832) ∧
    (100 : ℚ) < 3518437208883201 / 35184372088832 ∧
    Binary64.marketConcentration fractionalCompanies ≠ JSNum.fin 100 := by
  decide!

/-- C28 (amended): market concentration in SuperAdminDashboard when the revenues are whole
numbers.  For every non-empty company list whose revenues are whole numbers with a
positive sum below 2^53, both sums are exact; the companies split into `top`, three of
them (all of them when there are fewer) none of which has a smaller revenue than a company
left in `rest`, and `marketConcentration` is the quotient `sum(top) / total`, rounded,
times 100, rounded; the value lies in (0, 100]; and for a list of at most three companies
it is 100, so the condition `marketConcentration > 80` holds and the rule pushes whenever
its cooldown check passes. -/
theorem marketConcentration_whole_revenues (companies : List Company) (hne : companies ≠ [])
    (hwhole : ∀ c ∈ companies, ∃ n : ℕ, revenueOf c = n)
    (hpos : 0 < (companies.map revenueOf).sum)
    (hlt : (companies.map revenueOf).sum < 2 ^ 53) :
    Binary64.totalRevenue companies = (companies.map revenueOf).sum ∧
    (∃ top rest : List Company, (top ++ rest).Perm companies ∧
      top.length = min 3 companies.length ∧
      (∀ a ∈ top, ∀ b ∈ rest, revenueOf b ≤ revenueOf a) ∧
      Binary64.topThreeRevenue companies = (top.map revenueOf).sum ∧
      Binary64.marketConcentration companies =
        JSNum.fin (roundBinary64
          (roundBinary64 ((top.map revenueOf).sum / (companies.map revenueOf).sum) * 100))) ∧
    (∃ value : ℚ, Binary64.marketConcentration companies = JSNum.fin value ∧
      0 < value ∧ value ≤ 100) ∧
    (companies.length ≤ 3 →
      Binary64.marketConcentration companies = JSNum.fin 100 ∧
      (Binary64.marketConcentration companies).gt 80 = true ∧
      ∀ (should : String → Bool) (now : ℤ), should "market-concentration" = true →
        (Binary64.marketConcentrationRule should now companies).pushed =
          [plain "market-concentration" now "warning"
            [.text "High market concentration: Top 3 companies control ",
             .fixed (.fin 100) 1, .text "% of revenue"]]) := by
  have hnn : ∀ c ∈ companies, 0 ≤ revenueOf c := by
    intro c hc
    obtain ⟨n, hn⟩ := hwhole c hc
    rw [hn]
    exact Nat.cast_nonneg n
  obtain ⟨hperm, hlen, hcross, htop_pos, htop_le, hall⟩ :=
    sortedCompanies_split companies hne hnn hpos
  have hpermS := (sortedCompanies_spec companies).1
  have htotal : Binary64.totalRevenue companies = (companies.map revenueOf).sum := by
    have h := foldl_roundBinary64_whole companies hwhole 0
      (by rw [Nat.cast_zero, zero_add]; exact hlt)
    rw [Nat.cast_zero, zero_add] at h
    exact h
  have htop : Binary64.topThreeRevenue companies =
      (((sortedCompanies companies).take 3).map revenueOf).sum := by
    have h := foldl_roundBinary64_whole ((sortedCompanies companies).take 3)
      (fun c hc => hwhole c (hpermS.subset (List.mem_of_mem_take hc))) 0
      (by rw [Nat.cast_zero, zero_add]; exact lt_of_le_of_lt htop_le hlt)
    rw [Nat.cast_zero, zero_add] at h
    exact h
  have hmc : Binary64.marketConcentration companies =
      JSNum.fin (roundBinary64 (roundBinary64
        ((((sortedCompanies companies).take 3).map revenueOf).sum /
          (companies.map revenueOf).sum) * 100)) := by
    unfold Binary64.marketConcentration
    rw [htop, htotal, if_pos (ne_of_gt hpos)]
  have hq_pos : 0 < (((sortedCompanies companies).take 3).map revenueOf).sum /
      (companies.map revenueOf).sum := div_pos htop_pos hpos
  have hq_le : (((sortedCompanies companies).take 3).map revenueOf).sum /
      (companies.map revenueOf).sum ≤ ((1 : ℕ) : ℚ) := by
    rw [Nat.cast_one, div_le_one hpos]
    exact htop_le
  have hr_pos := roundBinary64_pos _ hq_pos
  have hr_le := roundBinary64_le_natCast _ 1 hq_pos hq_le (by norm_num)
  rw [Nat.cast_one] at hr_le
  have hp_pos : 0 < roundBinary64 ((((sortedCompanies companies).take 3).map revenueOf).sum /
      (companies.map revenueOf).sum) * 100 := mul_pos hr_pos (by norm_num)
  have hp_le : roundBinary64 ((((sortedCompanies companies).take 3).map revenueOf).sum /
      (companies.map revenueOf).sum) * 100 ≤ ((100 : ℕ) : ℚ) := by
    push_cast
    linarith
  have hv_pos := roundBinary64_pos _ hp_pos
  have hv_le := roundBinary64_le_natCast _ 100 hp_pos hp_le (by norm_num)
  refine ⟨htotal, ⟨(sortedCompanies companies).take 3, (sortedCompanies companies).drop 3,
    hperm, hlen, hcross, htop, hmc⟩, ⟨_, hmc, hv_pos, by exact_mod_cast hv_le⟩, ?_⟩
  intro hlen3
  have h100 : Binary64.marketConcentration companies = JSNum.fin 100 := by
    rw [hmc, hall hlen3, div_self (ne_of_gt hpos)]
    have h1 : roundBinary64 1 = 1 := by
      have h := roundBinary64_natCast 1 (by norm_num)
      rwa [Nat.cast_one] at h
    have h2 : roundBinary64 100 = 100 := by
      have h := roundBinary64_natCast 100 (by norm_num)
      exact_mod_cast h
    rw [h1, one_mul, h2]
  refine ⟨h100, ?_, ?_⟩
  · rw [h100]
    simp only [JSNum.gt, decide_eq_true_eq]
    norm_num
  · intro should now hs
    unfold Binary64.marketConcentrationRule
    rw [h100, if_pos ⟨by simp only [JSNum.gt, decide_eq_true_eq]; norm_num, hs⟩]
    rfl

/-- Witness of C28 (amended): two companies with revenues 300 and 100. -/
theorem marketConcentration_whole_revenues_witness :
    Binary64.marketConcentration [⟨"A", some 300⟩, ⟨"B", some 100⟩] = JSNum.fin 100 :=
  ((marketConcentration_whole_revenues [⟨"A", some 300⟩, ⟨"B", some 100⟩] (by simp)
    (by
      intro c hc
      simp only [List.mem_cons, List.mem_singleton, List.not_mem_nil, or_false] at hc
      rcases hc with rfl | rfl
      · exact ⟨300, by simp [revenueOf]⟩
      · exact ⟨100, by simp [revenueOf]⟩)
    (by simp [revenueOf]; norm_num)
    (by simp [revenueOf]; norm_num)).2.2.2 (by simp)).1

end SuperAdminDashboard

end TapNTravel
